import Mathlib

/-!
Feature-flag and A/B-test engine of `edge/ab-test.js`, geo handler of
`edge/geo.js`, serverless handlers of `api/auth.js`, `api/analytics.js` and
`api/ai-chat.js`.

A shallow embedding of the functions of `src/edge/ab-test.js` (`simpleHash`,
`getUserSegment` and its helpers, `evaluateFeatureFlag`, `getABTestResults`,
`generateUserId`, the handler with the conversion of its response headers), of
`src/edge/geo.js`
(the lookup functions, `getPerformanceSettings`, the handler up to its
settings), of `src/api/auth.js` (the handler with its four methods, the
session tokens) and of the `POST` route of `src/api/analytics.js` and
`src/api/ai-chat.js`, together with the arithmetic of the JavaScript values
they compute with, followed by the properties of the specification that
concern them.

Conventions of the embedding:

* a JavaScript string is the list of its UTF-16 code units;
* an integer-valued number is an `Int`; every intermediate value of
  `simpleHash` stays below `2 ^ 53` in magnitude, so the double arithmetic of
  the source is exact there and is written with the integer operations;
* a finite double that need not be an integer (`config.rollout`, the rollout
  threshold, the weights of a test) is the rational it denotes, and a product
  or sum is rounded to the nearest double, ties to even (`roundDouble`);
* `undefined` and `null` are `none` / `Scope.absent`, `NaN` is `none`;
* `table[key]` on an object literal finds the own properties and the members
  inherited from `Object.prototype` (`getProperty`);
* a function that can throw returns an `Except`;
* a request or response body is a `Json` value, an object being the list of
  its fields, and a reply of a serverless handler is its status and body;
* what a function reads from its surroundings (the clock, `Math.random`, the
  codec of `Buffer`, the text of a built-in object) is a parameter.
-/

set_option maxRecDepth 100000

namespace ABTest

/-! ## JavaScript values -/

/-- One UTF-16 code unit, as returned by `charCodeAt`. -/
abbrev CodeUnit := Fin 65536

/-- JavaScript string: the sequence of its UTF-16 code units. -/
abbrev JSString := List CodeUnit

/-- Code units of one Unicode scalar value (a surrogate pair above the BMP). -/
def charUnits (c : Char) : List CodeUnit :=
  if c.toNat < 65536 then [Fin.ofNat c.toNat]
  else [Fin.ofNat (55296 + (c.toNat - 65536) / 1024),
        Fin.ofNat (56320 + (c.toNat - 65536) % 1024)]

/-- String literal of the source, as a JavaScript string. -/
def js (s : String) : JSString := s.toList.flatMap charUnits

/-- ECMAScript `ToInt32`: reduce modulo `2 ^ 32`, then read as a signed value. -/
def toInt32 (x : Int) : Int :=
  let int32bit := x % 2 ^ 32
  if int32bit ≥ 2 ^ 31 then int32bit - 2 ^ 32 else int32bit

/-- Operator `a << k`: the left operand is taken `ToInt32`, the shift count
modulo 32, and the result is again a signed 32-bit value. -/
def jsShl (a : Int) (k : Nat) : Int := toInt32 (toInt32 a * 2 ^ (k % 32))

/-- Operator `a & b`: bitwise and of the two operands taken `ToInt32`. -/
def jsBitAnd (a b : Int) : Int := Int.land (toInt32 a) (toInt32 b)

/-- Round a rational to the nearest integer, ties to the even one. -/
def roundHalfEven (x : ℚ) : ℤ :=
  if x - ⌊x⌋ < 1 / 2 then ⌊x⌋
  else if 1 / 2 < x - ⌊x⌋ then ⌊x⌋ + 1
  else if ⌊x⌋ % 2 = 0 then ⌊x⌋ else ⌊x⌋ + 1

/-- Exponent of the unit in the last place of a binary64 value near `x`:
53 significant bits, and never below the subnormal spacing `2 ^ (-1074)`. -/
def ulpExp (x : ℚ) : ℤ := max (Int.log 2 |x| - 52) (-1074)

/-- Nearest binary64 value of a rational, ties to even. Overflow to an
infinity (magnitudes from `2 ^ 1024` on) is not represented: the finite value
returned there compares with every remainder below 100 as the infinity does. -/
def roundDouble (x : ℚ) : ℚ :=
  (roundHalfEven (x / (2 : ℚ) ^ ulpExp x) : ℚ) * (2 : ℚ) ^ ulpExp x

/-- Operator `a * b` on finite doubles: the exact product, rounded. -/
def jsMul (a b : ℚ) : ℚ := roundDouble (a * b)

/-- Operator `a % b` on integer-valued numbers: `NaN` (here `none`) when the
divisor is zero, otherwise the remainder that takes the sign of the dividend. -/
def jsRem (a b : Int) : Option Int :=
  if b = 0 then none else some (Int.tmod a b)

/-- Array access `arr[index]`: `undefined` (here `none`) when the index is
`NaN`, negative or past the end. -/
def jsIndex (arr : List JSString) : Option Int → Option JSString
  | none => none
  | some i => if i < 0 then none else arr[i.toNat]?

/-! ## `simpleHash` (ab-test.js, lines 283-291) -/

/-- Loop of `simpleHash` from the current `hash` over the remaining code units:
`hash = ((hash << 5) - hash) + char; hash = hash & hash`. -/
def simpleHashLoop (hash : Int) : JSString → Int
  | [] => hash
  | char :: rest =>
    let hash1 := (jsShl hash 5 - hash) + (char.val : Int)
    simpleHashLoop (jsBitAnd hash1 hash1) rest

/-- Function `simpleHash(str)`: the loop from 0, then `Math.abs`. -/
def simpleHash (str : JSString) : Int := |simpleHashLoop 0 str|

/-- Reference accumulator of the specification from the value `h` on:
`h := (h * 31 + c)` wrapped to a signed 32-bit integer, left to right. -/
def hashSpecAcc (h : Int) : JSString → Int
  | [] => h
  | c :: cs => hashSpecAcc (Int.bmod (h * 31 + (c.val : Int)) (2 ^ 32)) cs

/-- Reference hash of the specification: the accumulator from 0, then `abs`. -/
def hashSpec (s : JSString) : Int := |hashSpecAcc 0 s|

/-! ## Segments, flag configurations and decisions -/

/-- Value that a table lookup of the source can yield: a string, an array of
strings, or an object that is neither (a member that the table, an object
literal, inherits from `Object.prototype`), kept with the text `ToString`
gives for it. -/
inductive JSValue where
  | str (s : JSString)
  | arr (xs : List JSString)
  | object (text : JSString)
deriving DecidableEq, Repr

/-- Elements of an array joined with commas (`Array.prototype.join`). -/
def joinComma : List JSString → JSString
  | [] => []
  | [x] => x
  | x :: y :: rest => x ++ js "," ++ joinComma (y :: rest)

/-- Abstract operation `ToString` on the values of the embedding. -/
def JSValue.toText : JSValue → JSString
  | .str s => s
  | .arr xs => joinComma xs
  | .object text => text

/-- Record returned by `getUserSegment`. The region is whatever
`getRegionSegment` returned, a string for every country code; the behavior is
an array element (`none` for `undefined`). -/
structure Segment where
  primary : JSString
  device : JSString
  region : JSValue
  tier : JSString
  behavior : Option JSString
deriving DecidableEq, Repr

/-- Value of `config.countries` or `config.userGroups`: missing, a string
(the specification writes the wildcard as the string `"all"`), or an array of
strings (the source writes every scope, the wildcard included, as an array). -/
inductive Scope where
  | absent
  | text (s : JSString)
  | list (xs : List JSString)
deriving DecidableEq, Repr

/-- Truthiness of a scope value in a condition: a missing value and the empty
string are falsy, every array is truthy. -/
def Scope.truthy : Scope → Bool
  | .absent => false
  | .text s => !s.isEmpty
  | .list _ => true

/-- Method call `scope.includes(x)`: membership for an array (an array of
strings holds no value that is not a string), substring search for the text of
`x` for a string. It is never reached for a missing value (the `&&` before it
short-circuits). -/
def Scope.includes : Scope → JSValue → Bool
  | .absent, _ => false
  | .text s, x => decide (x.toText <:+: s)
  | .list xs, .str x => decide (x ∈ xs)
  | .list _, _ => false

/-- Comparison `value !== ['all']`: the right operand is a newly allocated
array and `!==` compares objects by identity, so it holds for every value. -/
def strictNeFreshArray (_value : Scope) (_literal : List JSString) : Bool := true

/-- Flag configuration, as the entries of `featureFlags`. The field `enabled`
is the truthiness of `config.enabled`; `rollout` is a finite number. -/
structure FlagConfig where
  enabled : Bool
  rollout : ℚ
  countries : Scope
  userGroups : Scope
  variants : List JSString
deriving DecidableEq, Repr

/-- Reason codes of a flag decision (string literals in the source). -/
inductive Reason where
  | globally_disabled
  | country_restricted
  | tier_restricted
  | forced
  | rollout_excluded
  | rollout_included
deriving DecidableEq, Repr

/-- Object returned by `evaluateFeatureFlag`. `variant` is `none` when the
source stores `undefined`; `rollout` and `segment` are `none` when the object
literal has no such property. -/
structure Decision where
  enabled : Bool
  variant : Option JSString
  reason : Reason
  rollout : Option ℚ
  segment : Option JSString
deriving DecidableEq, Repr

/-- Truthiness of `forcedVariant`: `null` and the empty string are falsy. -/
def truthyString : Option JSString → Bool
  | none => false
  | some s => !s.isEmpty

/-- Call `config.variants.includes(forcedVariant)`; `null` is not an element
of an array of strings. -/
def variantsInclude (variants : List JSString) : Option JSString → Bool
  | none => false
  | some v => decide (v ∈ variants)

/-- Function `evaluateFeatureFlag` (ab-test.js, lines 173-213). -/
def evaluateFeatureFlag (flagName : JSString) (config : FlagConfig) (userId : JSString)
    (userSegment : Segment) (forcedVariant : Option JSString) : Decision :=
  if !config.enabled then
    ⟨false, some (js "disabled"), .globally_disabled, none, none⟩
  else if config.countries.truthy && strictNeFreshArray config.countries [js "all"]
      && !config.countries.includes userSegment.region then
    ⟨false, some (js "disabled"), .country_restricted, none, none⟩
  else if config.userGroups.truthy && strictNeFreshArray config.userGroups [js "all"]
      && !config.userGroups.includes (.str userSegment.tier) then
    ⟨false, some (js "disabled"), .tier_restricted, none, none⟩
  else if truthyString forcedVariant && variantsInclude config.variants forcedVariant then
    ⟨true, forcedVariant, .forced, none, none⟩
  else
    let userHash := simpleHash (userId ++ flagName)
    let rolloutThreshold := jsMul config.rollout 100
    if ((Int.tmod userHash 100 : ℤ) : ℚ) ≥ rolloutThreshold then
      ⟨false, some (js "disabled"), .rollout_excluded, none, none⟩
    else
      let variantIndex := jsRem userHash config.variants.length
      let selectedVariant := jsIndex config.variants variantIndex
      ⟨selectedVariant != some (js "disabled"), selectedVariant, .rollout_included,
        some config.rollout, some userSegment.primary⟩

/-- A scope rule lets a value through: the scope, when present, includes it. -/
def passesRule (scope : Scope) (x : JSValue) : Prop :=
  scope.truthy = true → scope.includes x = true

instance (scope : Scope) (x : JSValue) : Decidable (passesRule scope x) := by
  unfold passesRule
  infer_instance

/-- Numeric literal of the source: the double nearest to the decimal. -/
def jsLit (q : ℚ) : ℚ := roundDouble q

/-! ## Concrete configurations and segments -/

/-- Segment `getUserSegment('user_1', 'US', '')` of a desktop visitor. -/
def sampleSegment : Segment :=
  { primary := js "desktop_north_america_basic", device := js "desktop",
    region := .str (js "north_america"), tier := js "basic", behavior := some (js "new_user") }

/-- Entry `aiChatbot` of `featureFlags` (ab-test.js, lines 31-37). -/
def aiChatbot : FlagConfig :=
  { enabled := true, rollout := jsLit (4 / 5), countries := .list [js "all"],
    userGroups := .list [js "all"], variants := [js "enabled", js "disabled"] }

/-- Three-variant flag at full rollout whose scopes list the region and tier of
`sampleSegment`. -/
def regionalDarkMode : FlagConfig :=
  { enabled := true, rollout := 1, countries := .list [js "north_america", js "europe"],
    userGroups := .list [js "basic", js "premium"],
    variants := [js "auto", js "light", js "dark"] }

/-- Configuration of the country-restriction scenario of the specification:
`countries: ["europe"], userGroups: "all", rollout: 1.0, variants: ["on"]`. -/
def europeOnly : FlagConfig :=
  { enabled := true, rollout := 1, countries := .list [js "europe"],
    userGroups := .text (js "all"), variants := [js "on"] }

/-- Segment of the country-restriction scenario: region `asia_pacific`. -/
def asiaSegment : Segment :=
  { primary := js "desktop_asia_pacific_basic", device := js "desktop",
    region := .str (js "asia_pacific"), tier := js "basic", behavior := some (js "new_user") }

/-- A globally disabled flag whose other fields would all let the user in. -/
def switchedOff : FlagConfig :=
  { enabled := false, rollout := 1, countries := .absent, userGroups := .absent,
    variants := [js "on"] }

/-- A flag at rollout 0 with no scope restriction. -/
def zeroRollout : FlagConfig :=
  { enabled := true, rollout := 0, countries := .absent, userGroups := .absent,
    variants := [js "on", js "off"] }

/-- Decision of the last branch of `evaluateFeatureFlag`, for a given hash. -/
def includedDecision (config : FlagConfig) (userSegment : Segment) (userHash : Int) : Decision :=
  ⟨jsIndex config.variants (jsRem userHash config.variants.length) != some (js "disabled"),
    jsIndex config.variants (jsRem userHash config.variants.length), .rollout_included,
    some config.rollout, some userSegment.primary⟩

/-- Condition of the forced-variant branch. -/
def forcedApplies (config : FlagConfig) (forcedVariant : Option JSString) : Bool :=
  truthyString forcedVariant && variantsInclude config.variants forcedVariant

/-- Condition of a scope branch (country or tier rule). -/
def ruleRestricts (scope : Scope) (x : JSValue) : Bool :=
  scope.truthy && strictNeFreshArray scope [js "all"] && !scope.includes x

/-- A flag with no variant at all, at full rollout and without scopes. -/
def noVariants : FlagConfig :=
  { enabled := true, rollout := 1, countries := .absent, userGroups := .absent, variants := [] }

/-! ## Property lookup on an object literal -/

/-- Names of the members that every object literal inherits from
`Object.prototype`. -/
def objectPrototypeKeys : List JSString :=
  [js "constructor", js "__defineGetter__", js "__defineSetter__", js "hasOwnProperty",
    js "__lookupGetter__", js "__lookupSetter__", js "isPrototypeOf",
    js "propertyIsEnumerable", js "toString", js "valueOf", js "__proto__",
    js "toLocaleString"]

/-- Outcome of reading `table[key]` on an object literal: an own property, a
member inherited from `Object.prototype`, or `undefined`. -/
inductive Slot (α : Type) where
  | own (a : α)
  | inherited
  | missing
deriving DecidableEq, Repr

/-- Expression `table[key]` for a table written as an object literal: own
properties first, then the prototype chain. -/
def getProperty {α : Type} (table : List (JSString × α)) (key : JSString) : Slot α :=
  match table.lookup key with
  | some a => .own a
  | none => if key ∈ objectPrototypeKeys then .inherited else .missing

/-- Truthiness of a value: the empty string is falsy, arrays and other
objects are truthy. -/
def JSValue.truthy : JSValue → Bool
  | .str s => !s.isEmpty
  | .arr _ => true
  | .object _ => true

/-- Expression `table[key] || fallback`. An inherited member is a truthy
object, so it is returned as it is; `memberText` is the text that `ToString`
gives for the member of `Object.prototype` of a given name, which the language
leaves to the engine. -/
def lookupOr (memberText : JSString → JSString) (table : List (JSString × JSValue))
    (key : JSString) (fallback : JSValue) : JSValue :=
  match getProperty table key with
  | .own v => if v.truthy then v else fallback
  | .inherited => .object (memberText key)
  | .missing => fallback

/-- Object literal whose values are all strings. -/
def stringTable (entries : List (String × String)) : List (JSString × JSValue) :=
  entries.map fun e => (js e.1, .str (js e.2))

/-- Object literal whose values are all arrays of strings. -/
def arrayTable (entries : List (String × List String)) : List (JSString × JSValue) :=
  entries.map fun e => (js e.1, .arr (e.2.map js))

/-! ## Segment classification (ab-test.js, lines 118-171) -/

/-- Table `regions` of `getRegionSegment`. -/
def regions : List (JSString × JSValue) :=
  stringTable [("US", "north_america"), ("CA", "north_america"), ("GB", "europe"),
    ("FR", "europe"), ("DE", "europe"), ("JP", "asia_pacific"), ("KR", "asia_pacific"),
    ("CN", "asia_pacific"), ("SG", "asia_pacific"), ("HK", "asia_pacific"),
    ("TH", "asia_pacific"), ("VN", "asia_pacific"), ("MY", "asia_pacific"),
    ("ID", "asia_pacific"), ("PH", "asia_pacific"), ("AU", "oceania"), ("NZ", "oceania")]

/-- Function `getRegionSegment`: `regions[country] || 'global'`. -/
def getRegionSegment (memberText : JSString → JSString) (country : JSString) : JSValue :=
  lookupOr memberText regions country (.str (js "global"))

/-- Function `getTierSegment`. -/
def getTierSegment (userId : JSString) : JSString :=
  let hash := simpleHash userId
  if Int.tmod hash 100 < 5 then js "enterprise"
  else if Int.tmod hash 100 < 20 then js "premium"
  else if Int.tmod hash 100 < 50 then js "standard"
  else js "basic"

/-- Array `behaviors` of `getBehaviorSegment`. -/
def behaviors : List JSString :=
  [js "early_adopter", js "power_user", js "casual_user", js "new_user"]

/-- Function `getBehaviorSegment`: `behaviors[hash % behaviors.length]`. -/
def getBehaviorSegment (userId : JSString) : Option JSString :=
  let hash := simpleHash userId
  jsIndex behaviors (jsRem hash behaviors.length)

/-- Canonical form of a code unit under the flag `i` of a regular expression
without the flag `u`, as far as a comparison with an ASCII pattern character
can tell: an ASCII lower-case letter becomes the upper-case one, and a code
unit from 128 on is never mapped below 128, so it is left in place. -/
def canonicalize (c : CodeUnit) : CodeUnit :=
  if 97 ≤ c.val ∧ c.val ≤ 122 then Fin.ofNat (c.val - 32) else c

/-- The literal `pattern` matches at the start of `input`, ignoring case. -/
def matchesAt : JSString → JSString → Bool
  | [], _ => true
  | _ :: _, [] => false
  | p :: ps, c :: cs => canonicalize p == canonicalize c && matchesAt ps cs

/-- Method `test` of a regular expression `/a1|a2|.../i` whose alternatives are
literals: some alternative matches at some position of the input. -/
def regexTest (alternatives : List JSString) : JSString → Bool
  | [] => alternatives.any fun a => matchesAt a []
  | c :: cs => (alternatives.any fun a => matchesAt a (c :: cs)) || regexTest alternatives cs

/-- Alternatives of `/Mobile|Android|iPhone|iPad/i`. -/
def mobilePattern : List JSString := [js "Mobile", js "Android", js "iPhone", js "iPad"]

/-- Operator `+` between a string and a value: concatenation with the text of
the value. -/
def jsPlus (a : JSString) (b : JSValue) : JSString := a ++ b.toText

/-- Function `getUserSegment`. -/
def getUserSegment (memberText : JSString → JSString) (userId country userAgent : JSString) :
    Segment :=
  let device := if regexTest mobilePattern userAgent then js "mobile" else js "desktop"
  let region := getRegionSegment memberText country
  let tier := getTierSegment userId
  let behavior := getBehaviorSegment userId
  { primary := jsPlus (jsPlus (jsPlus (jsPlus device (.str (js "_"))) region) (.str (js "_")))
      (.str tier),
    device := device, region := region, tier := tier, behavior := behavior }

/-- ASCII lower-case form of a code unit. -/
def asciiLower (c : CodeUnit) : CodeUnit :=
  if 65 ≤ c.val ∧ c.val ≤ 90 then Fin.ofNat (c.val + 32) else c

/-- A string contains a word when compared case-insensitively: the lower-case
word is a substring of the lower-case string. -/
def containsIgnoreCase (text word : JSString) : Prop :=
  word.map asciiLower <:+: text.map asciiLower

/-- Tier buckets of the specification: lower bound, upper bound (excluded) and
name. -/
def tierBuckets : List (Int × Int × JSString) :=
  [(0, 5, js "enterprise"), (5, 20, js "premium"), (20, 50, js "standard"),
    (50, 100, js "basic")]

/-- A bucket claims a remainder: the remainder lies in its half-open range. -/
def claims (bucket : Int × Int × JSString) (r : Int) : Bool :=
  decide (bucket.1 ≤ r) && decide (r < bucket.2.1)

/-! ## Personalization lookups (geo.js, lines 57-197) -/

/-- Table `currencyMap` of `getCurrency`. -/
def currencyMap : List (JSString × JSValue) :=
  stringTable [("US", "USD"), ("GB", "GBP"), ("EU", "EUR"), ("JP", "JPY"), ("KR", "KRW"),
    ("CN", "CNY"), ("IN", "INR"), ("AU", "AUD"), ("CA", "CAD"), ("SG", "SGD"), ("TH", "THB"),
    ("VN", "VND"), ("MY", "MYR"), ("ID", "IDR"), ("PH", "PHP")]

/-- Function `getCurrency`: `currencyMap[country] || 'USD'`. -/
def getCurrency (memberText : JSString → JSString) (country : JSString) : JSValue :=
  lookupOr memberText currencyMap country (.str (js "USD"))

/-- Table `dateFormatMap` of `getDateFormat`. -/
def dateFormatMap : List (JSString × JSValue) :=
  stringTable [("US", "MM/DD/YYYY"), ("GB", "DD/MM/YYYY"), ("EU", "DD.MM.YYYY"),
    ("JP", "YYYY/MM/DD"), ("CN", "YYYY-MM-DD")]

/-- Function `getDateFormat`: `dateFormatMap[country] || 'MM/DD/YYYY'`. -/
def getDateFormat (memberText : JSString → JSString) (country : JSString) : JSValue :=
  lookupOr memberText dateFormatMap country (.str (js "MM/DD/YYYY"))

/-- Table `regionMap` of `getServerRegion`. -/
def regionMap : List (JSString × JSValue) :=
  stringTable [("CA", "iad1"), ("NY", "iad1"), ("TX", "iad1"), ("WA", "iad1"), ("GB", "lhr1"),
    ("FR", "lhr1"), ("DE", "lhr1"), ("JP", "nrt1"), ("KR", "nrt1"), ("CN", "nrt1"),
    ("SG", "sin1"), ("HK", "hkg1"), ("TH", "sin1"), ("VN", "sin1"), ("MY", "sin1"),
    ("ID", "sin1"), ("PH", "sin1")]

/-- Function `getServerRegion`: `regionMap[region] || 'iad1'`. -/
def getServerRegion (memberText : JSString → JSString) (region : JSString) : JSValue :=
  lookupOr memberText regionMap region (.str (js "iad1"))

/-- Table `paymentMap` of `getPaymentMethods`. -/
def paymentMap : List (JSString × JSValue) :=
  arrayTable [("US", ["stripe", "paypal", "apple_pay", "google_pay"]),
    ("GB", ["stripe", "paypal", "apple_pay", "google_pay"]),
    ("EU", ["stripe", "paypal", "sepa", "apple_pay", "google_pay"]),
    ("JP", ["stripe", "paypal", "konbini"]), ("KR", ["stripe", "paypal", "kakaopay", "toss"]),
    ("CN", ["alipay", "wechat_pay", "unionpay"]), ("SG", ["stripe", "paypal", "grabpay"]),
    ("TH", ["stripe", "paypal", "promptpay"]), ("VN", ["stripe", "paypal", "vnpay", "momo"]),
    ("MY", ["stripe", "paypal", "fpx", "boost"]), ("ID", ["stripe", "paypal", "ovo", "dana"]),
    ("PH", ["stripe", "paypal", "gcash", "paymaya"])]

/-- Function `getPaymentMethods`: `paymentMap[country] || ['stripe', 'paypal']`. -/
def getPaymentMethods (memberText : JSString → JSString) (country : JSString) : JSValue :=
  lookupOr memberText paymentMap country (.arr [js "stripe", js "paypal"])

/-- Table `languageMap` of `getSupportedLanguages`. -/
def languageMap : List (JSString × JSValue) :=
  arrayTable [("US", ["en", "es"]), ("GB", ["en"]), ("EU", ["en", "fr", "de", "es", "it"]),
    ("JP", ["ja", "en"]), ("KR", ["ko", "en"]), ("CN", ["zh", "en"]),
    ("SG", ["en", "zh", "ms", "ta"]), ("TH", ["th", "en"]), ("VN", ["vi", "en"]),
    ("MY", ["ms", "en", "zh", "ta"]), ("ID", ["id", "en"]), ("PH", ["en", "fil"])]

/-- Function `getSupportedLanguages`: `languageMap[country] || ['en']`. -/
def getSupportedLanguages (memberText : JSString → JSString) (country : JSString) : JSValue :=
  lookupOr memberText languageMap country (.arr [js "en"])

/-- Table `complianceMap` of `getComplianceFeatures`. -/
def complianceMap : List (JSString × JSValue) :=
  arrayTable [("US", ["ferpa", "coppa", "ccpa"]), ("GB", ["gdpr", "dpa2018"]), ("EU", ["gdpr"]),
    ("JP", ["appi"]), ("KR", ["pipeda"]), ("SG", ["pdpa"]), ("AU", ["privacy_act"]),
    ("CA", ["pipeda"])]

/-- Function `getComplianceFeatures`: `complianceMap[country] || []`. -/
def getComplianceFeatures (memberText : JSString → JSString) (country : JSString) : JSValue :=
  lookupOr memberText complianceMap country (.arr [])

/-- Table `integrationMap` of `getRegionalIntegrations`. -/
def integrationMap : List (JSString × JSValue) :=
  arrayTable [("US", ["zoom", "teams", "slack", "google_workspace"]),
    ("GB", ["teams", "slack", "zoom", "google_workspace"]),
    ("EU", ["teams", "slack", "zoom", "google_workspace"]), ("JP", ["zoom", "teams", "line"]),
    ("KR", ["zoom", "teams", "kakaotalk"]), ("CN", ["zoom", "teams", "wechat", "dingtalk"]),
    ("SG", ["zoom", "teams", "slack", "google_workspace"]), ("TH", ["zoom", "teams", "line"]),
    ("VN", ["zoom", "teams", "zalo"]), ("MY", ["zoom", "teams", "slack", "google_workspace"]),
    ("ID", ["zoom", "teams", "whatsapp"]), ("PH", ["zoom", "teams", "slack", "google_workspace"])]

/-- Function `getRegionalIntegrations`:
`integrationMap[country] || ['zoom', 'teams', 'slack']`. -/
def getRegionalIntegrations (memberText : JSString → JSString) (country : JSString) : JSValue :=
  lookupOr memberText integrationMap country (.arr [js "zoom", js "teams", js "slack"])

/-! ## A/B tests (ab-test.js, lines 215-253) -/

/-- Operator `a + b` on finite doubles: the exact sum, rounded. -/
def jsAdd (a b : ℚ) : ℚ := roundDouble (a + b)

/-- Exceptions that the modelled code can throw. -/
inductive JSError where
  | typeError
  | referenceError
deriving DecidableEq, Repr

/-- Entry of the table `tests`. -/
structure TestConfig where
  variants : List JSString
  weights : List ℚ
deriving DecidableEq, Repr

/-- Entry `pricing_display` of the table `tests`. -/
def pricingDisplay : TestConfig :=
  ⟨[js "monthly", js "annual", js "lifetime"], [jsLit (2 / 5), jsLit (2 / 5), jsLit (1 / 5)]⟩

/-- Entry `homepage_layout` of the table `tests`. -/
def homepageLayout : TestConfig :=
  ⟨[js "control", js "variant_a", js "variant_b"],
    [jsLit (33 / 100), jsLit (33 / 100), jsLit (34 / 100)]⟩

/-- Entry `cta_button` of the table `tests`. -/
def ctaButton : TestConfig :=
  ⟨[js "blue", js "green", js "purple"],
    [jsLit (33 / 100), jsLit (33 / 100), jsLit (34 / 100)]⟩

/-- Table `tests` of `getABTestResults`. -/
def tests : List (JSString × TestConfig) :=
  [(js "homepage_layout", homepageLayout), (js "pricing_display", pricingDisplay),
    (js "cta_button", ctaButton)]

/-- Reason codes of a test decision. -/
inductive TestReason where
  | test_not_found
  | fallback
deriving DecidableEq, Repr

/-- Object returned by `getABTestResults`; a field is `none` when the object
literal has no such property or stores `undefined`. -/
structure TestDecision where
  test : JSString
  variant : JSString
  weight : Option ℚ
  segment : Option JSString
  reason : Option TestReason
deriving DecidableEq, Repr

/-- Loop of `getABTestResults` from index `i` on: `variants` holds the variants
not yet visited, `cumulativeWeight` is `none` for `NaN` (a weight that is
`undefined`), and a comparison with `NaN` is false. -/
def abTestLoop (testName : JSString) (weights : List ℚ) (randomValue : Int)
    (primary : JSString) : List JSString → Nat → Option ℚ → TestDecision
  | [], _, _ => ⟨testName, js "control", none, none, some .fallback⟩
  | v :: rest, i, cumulativeWeight =>
    let cumulativeWeight1 : Option ℚ :=
      match cumulativeWeight, weights[i]? with
      | some c, some w => some (jsAdd c (jsMul w 100))
      | _, _ => none
    match cumulativeWeight1 with
    | some c =>
      if (randomValue : ℚ) < c then ⟨testName, v, weights[i]?, some primary, none⟩
      else abTestLoop testName weights randomValue primary rest (i + 1) cumulativeWeight1
    | none => abTestLoop testName weights randomValue primary rest (i + 1) cumulativeWeight1

/-- Function `getABTestResults`. A name that `tests` only inherits from
`Object.prototype` passes the test `!test`; the member has no `variants`, and
reading `test.variants.length` throws a `TypeError`. -/
def getABTestResults (testName userId : JSString) (userSegment : Segment) :
    Except JSError TestDecision :=
  match getProperty tests testName with
  | .missing => .ok ⟨testName, js "control", none, none, some .test_not_found⟩
  | .inherited => .error .typeError
  | .own test =>
    let userHash := simpleHash (userId ++ testName)
    let randomValue := Int.tmod userHash 100
    .ok (abTestLoop testName test.weights randomValue userSegment.primary test.variants 0
      (some 0))

/-- Running total `T_i` of a test: the sum of `weights[j] * 100` for `j ≤ i`,
accumulated from 0 in the order of the list. -/
def runningTotal (weights : List ℚ) (i : Nat) : ℚ :=
  (weights.take (i + 1)).foldl (fun acc w => jsAdd acc (jsMul w 100)) 0

/-! ## Request handler (ab-test.js, lines 11-116) -/

/-- Method `str.substr(start, length)` for non-negative arguments. -/
def substr (str : JSString) (start length : Nat) : JSString := (str.drop start).take length

/-- Function `generateUserId`; `randomText` is `Math.random().toString(36)`. -/
def generateUserId (randomText : JSString) : JSString :=
  js "user_" ++ substr randomText 2 9

/-- Expression `value || fallback` for a string or `null`. -/
def orString (value : Option JSString) (fallback : JSString) : JSString :=
  match value with
  | some s => if s.isEmpty then fallback else s
  | none => fallback

/-- Table `featureFlags` of the handler, in the order of the literal. -/
def featureFlags : List (JSString × FlagConfig) :=
  [(js "newDashboard",
      { enabled := true, rollout := jsLit (1 / 2),
        countries := .list [js "US", js "GB", js "CA", js "AU", js "SG", js "HK"],
        userGroups := .list [js "premium", js "beta"],
        variants := [js "control", js "variant_a", js "variant_b"] }),
    (js "aiChatbot", aiChatbot),
    (js "darkMode",
      { enabled := true, rollout := jsLit 1, countries := .list [js "all"],
        userGroups := .list [js "all"], variants := [js "auto", js "light", js "dark"] }),
    (js "vrLearning",
      { enabled := true, rollout := jsLit (3 / 10),
        countries := .list [js "US", js "GB", js "JP", js "KR", js "SG"],
        userGroups := .list [js "premium", js "enterprise"],
        variants := [js "enabled", js "disabled"] }),
    (js "liveStreaming",
      { enabled := true, rollout := jsLit (7 / 10), countries := .list [js "all"],
        userGroups := .list [js "all"], variants := [js "enabled", js "disabled"] }),
    (js "analytics",
      { enabled := true, rollout := jsLit 1, countries := .list [js "all"],
        userGroups := .list [js "all"], variants := [js "full", js "basic", js "disabled"] })]

/-- Table `cdnMap` of `getOptimalCDN`. -/
def cdnMap : List (JSString × JSValue) :=
  stringTable [("US", "us-east-1"), ("CA", "us-east-1"), ("GB", "eu-west-2"),
    ("FR", "eu-west-3"), ("DE", "eu-central-1"), ("JP", "ap-northeast-1"),
    ("KR", "ap-northeast-2"), ("CN", "ap-east-1"), ("SG", "ap-southeast-1"),
    ("HK", "ap-east-1"), ("TH", "ap-southeast-1"), ("VN", "ap-southeast-1"),
    ("MY", "ap-southeast-1"), ("ID", "ap-southeast-1"), ("PH", "ap-southeast-1"),
    ("AU", "ap-southeast-2"), ("NZ", "ap-southeast-2")]

/-- Function `getOptimalCDN`: `cdnMap[country] || 'us-east-1'`. -/
def getOptimalCDN (memberText : JSString → JSString) (country : JSString) : JSValue :=
  lookupOr memberText cdnMap country (.str (js "us-east-1"))

/-- Function `getCompressionLevel`, with `/MSIE|Trident|Opera Mini/i`. -/
def getCompressionLevel (userAgent : JSString) : JSString :=
  let isOldBrowser := regexTest [js "MSIE", js "Trident", js "Opera Mini"] userAgent
  if isOldBrowser then js "gzip" else js "brotli"

/-- Object `optimizations` of the response. -/
structure Optimizations where
  preload : List JSString
  criticalCSS : List JSString
  lazyLoad : List JSString
  cdn : JSValue
  compression : JSString
deriving DecidableEq, Repr

/-- Object `response` that the handler serialises into the body. -/
structure ResponseBody where
  userId : JSString
  userSegment : Segment
  flags : List (JSString × Decision)
  abTests : TestDecision
  optimizations : Optimizations
  timestamp : Int
  version : JSString
deriving DecidableEq, Repr

/-- What the handler reads from the request. -/
structure Request where
  xUserId : Option JSString
  userAgent : Option JSString
  country : Option JSString
  test : Option JSString
  variant : Option JSString
deriving DecidableEq, Repr

/-- What the handler reads from its surroundings: the text of
`Math.random().toString(36)`, the clock `Date.now()` and the text the engine
gives for the members of `Object.prototype`. -/
structure Ambient where
  randomText : JSString
  now : Int
  memberText : JSString → JSString

/-- Condition `flags.name ? ... : ...`: the value tested is the decision
object stored under the name, and an object is truthy whatever its fields. -/
def flagTruthy (flags : List (JSString × Decision)) (name : JSString) : Bool :=
  (flags.lookup name).isSome

/-! ### Header values of the response (ab-test.js, lines 99-111) -/

/-- Hexadecimal digit, in lower case. -/
def hexDigit (n : Nat) : CodeUnit := Fin.ofNat (if n < 10 then 48 + n else 87 + n)

/-- Escape of a code unit as a backslash, `u` and four hexadecimal digits. -/
def unicodeEscape (c : CodeUnit) : JSString :=
  [92, 117, hexDigit (c.val / 4096), hexDigit (c.val / 256 % 16), hexDigit (c.val / 16 % 16),
    hexDigit (c.val % 16)]

/-- Text that `JSON.stringify` writes for a code unit outside a surrogate
pair: the short escapes of backspace, tab, line feed, form feed, carriage
return, the quote and the backslash, the escape with `u` for the other
controls and for a lone surrogate, and the code unit itself otherwise. -/
def quoteUnit (c : CodeUnit) : JSString :=
  if c.val = 8 then [92, 98]
  else if c.val = 9 then [92, 116]
  else if c.val = 10 then [92, 110]
  else if c.val = 12 then [92, 102]
  else if c.val = 13 then [92, 114]
  else if c.val = 34 then [92, 34]
  else if c.val = 92 then [92, 92]
  else if c.val < 32 ∨ (55296 ≤ c.val ∧ c.val ≤ 57343) then unicodeEscape c
  else [c]

/-- Text of a string between the quotes of `JSON.stringify`: a leading
surrogate followed by a trailing one is a pair and is copied. -/
def quoteUnits : JSString → JSString
  | [] => []
  | [c] => quoteUnit c
  | c :: d :: rest =>
    if (55296 ≤ c.val ∧ c.val ≤ 56319) ∧ (56320 ≤ d.val ∧ d.val ≤ 57343) then
      c :: d :: quoteUnits rest
    else quoteUnit c ++ quoteUnits (d :: rest)

/-- Value `JSON.stringify(text)` of a string. -/
def jsonQuote (text : JSString) : JSString := [34] ++ quoteUnits text ++ [34]

/-- Conversion of a header value to a `ByteString` succeeds: no code unit is
above U+00FF. -/
def isByteString (value : JSString) : Bool := value.all fun c => decide (c.val ≤ 255)

/-- Strings that `JSON.stringify(flags)` quotes as values and names: the flag
names, the variants and the segments. -/
def flagsStrings (flags : List (JSString × Decision)) : List JSString :=
  flags.flatMap fun entry => entry.1 :: (entry.2.variant.toList ++ entry.2.segment.toList)

/-- Strings that `JSON.stringify(abTests)` quotes as values. -/
def abTestsStrings (abTests : TestDecision) : List JSString :=
  [abTests.test, abTests.variant] ++ abTests.segment.toList

/-- A header value `JSON.stringify(object)` converts to a `ByteString`. The
property names, reason codes, numbers, booleans and punctuation of the value
are ASCII, so it does exactly when the quoted form of every string of the
object does. The value starts with a brace and holds no raw control
character, so it is a valid header value once it is a `ByteString`. -/
def headerValueOk (strings : List JSString) : Bool :=
  strings.all fun text => isByteString (jsonQuote text)

/-- Function `handler`. Lines 11-97 build the object `response`; `new Response`
(lines 99-111) converts every header value to a `ByteString` and throws a
`TypeError` when one holds a code unit above U+00FF. The values that depend
on the request are `JSON.stringify(flags)` and `JSON.stringify(abTests)`; the
header `X-User-Segment` is given the object `userSegment`, whose text is
`[object Object]`. The result is the object that the body serialises. -/
def handler (env : Ambient) (request : Request) : Except JSError ResponseBody :=
  let userId := orString request.xUserId (generateUserId env.randomText)
  let userAgent := orString request.userAgent (js "")
  let country := orString request.country (js "US")
  let testName := orString request.test (js "default")
  let variant := if truthyString request.variant then request.variant else none
  let userSegment := getUserSegment env.memberText userId country userAgent
  let flags := featureFlags.map fun entry =>
    (entry.1, evaluateFeatureFlag entry.1 entry.2 userId userSegment variant)
  match getABTestResults testName userId userSegment with
  | .error e => .error e
  | .ok abTests =>
    if headerValueOk (flagsStrings flags) && headerValueOk (abTestsStrings abTests) then
      .ok { userId := userId, userSegment := userSegment, flags := flags, abTests := abTests,
            optimizations :=
              { preload := if flagTruthy flags (js "newDashboard")
                  then [js "dashboard.js", js "analytics.js"] else [js "legacy.js"],
                criticalCSS := if flagTruthy flags (js "darkMode")
                  then [js "dark-theme.css"] else [js "light-theme.css"],
                lazyLoad := if flagTruthy flags (js "vrLearning")
                  then [js "vr-components.js"] else [],
                cdn := getOptimalCDN env.memberText country,
                compression := getCompressionLevel userAgent },
            timestamp := env.now, version := js "2.0.0" }
    else .error .typeError

/-- Digit of a number written in base 36: `0`-`9` or `a`-`z`. -/
def isBase36Digit (c : CodeUnit) : Bool :=
  (decide (48 ≤ c.val) && decide (c.val ≤ 57)) || (decide (97 ≤ c.val) && decide (c.val ≤ 122))

/-- Shape of `Math.random().toString(36)` for a value in `[0, 1)`: the text
`0`, or `0.` followed by at least one base-36 digit. -/
def isRandomText (text : JSString) : Prop :=
  text = js "0" ∨ ∃ digits : JSString, digits ≠ [] ∧ (∀ d ∈ digits, isBase36Digit d = true) ∧
    text = js "0." ++ digits

/-- Surroundings of the examples: `Math.random()` returned 0.5, whose text in
base 36 is `0.i`. -/
def halfAmbient : Ambient :=
  { randomText := js "0.i", now := 0, memberText := fun _ => js "[object Object]" }

/-- Request of visitor `user_1` for the test `cta_button`. -/
def sampleRequest : Request :=
  { xUserId := some (js "user_1"), userAgent := none, country := some (js "US"),
    test := some (js "cta_button"), variant := none }

/-- Request without any header, geo data or query parameter. -/
def bareRequest : Request :=
  { xUserId := none, userAgent := none, country := none, test := none, variant := none }

/-- A flag with the variants `enabled` and `disabled` and no scope. -/
def onOffFlag : FlagConfig :=
  { enabled := true, rollout := jsLit (4 / 5), countries := .absent, userGroups := .absent,
    variants := [js "enabled", js "disabled"] }

/-- String on which the accumulator of `simpleHash` ends at the least 32-bit
value: the code units 2325, 9, 30, 12, 2. -/
def extremeString : JSString := [2325, 9, 30, 12, 2]

/-- Decision that refuses a flag for the country rule. -/
def countryRestrictedDecision : Decision :=
  ⟨false, some (js "disabled"), .country_restricted, none, none⟩

/-- Request whose geo data names the country `constructor`. -/
def oddCountryRequest : Request :=
  { xUserId := some (js "user_1"), userAgent := none, country := some (js "constructor"),
    test := none, variant := none }

/-- Region names that `getRegionSegment` can produce as strings. -/
def regionNames : List JSValue :=
  [.str (js "north_america"), .str (js "europe"), .str (js "asia_pacific"),
    .str (js "oceania"), .str (js "global")]

/-- Number of remainders `h = 0..99` for which the loop of `getABTestResults`
returns the variant `v` of a test. -/
def bucketSize (testName primary : JSString) (test : TestConfig) (v : JSString) : Nat :=
  ((List.range 100).filter fun (h : Nat) =>
    decide ((abTestLoop testName test.weights (h : Int) primary test.variants 0 (some 0)).variant
      = v)).length

/-! ## Geo handler (geo.js, lines 11-55, 112-129 and 199-213) -/

/-- Method `str.split(sep)` for a separator of one code unit. -/
def split (sep : CodeUnit) : JSString → List JSString
  | [] => [[]]
  | c :: cs =>
    if c = sep then [] :: split sep cs
    else
      match split sep cs with
      | [] => [[c]]
      | piece :: rest => (c :: piece) :: rest

/-- Object returned by `getRegionalFeatures`. -/
structure RegionalFeatures where
  aiChatbot : Bool
  liveStreaming : Bool
  vrLearning : Bool
  analytics : Bool
  certificates : Bool
  paymentMethods : JSValue
  languages : JSValue
  compliance : JSValue
  integrations : JSValue
deriving DecidableEq, Repr

/-- Function `getRegionalFeatures`. -/
def getRegionalFeatures (memberText : JSString → JSString) (country : JSString) :
    RegionalFeatures :=
  { aiChatbot := true, liveStreaming := true, vrLearning := true, analytics := true,
    certificates := true,
    paymentMethods := getPaymentMethods memberText country,
    languages := getSupportedLanguages memberText country,
    compliance := getComplianceFeatures memberText country,
    integrations := getRegionalIntegrations memberText country }

/-- Object returned by `getPerformanceSettings`. -/
structure PerformanceSettings where
  imageQuality : JSString
  videoQuality : JSString
  preloadResources : Bool
  enableAnimations : Bool
  enableWebP : Bool
  enableLazyLoading : Bool
  compressionLevel : JSString
  cacheStrategy : JSString
deriving DecidableEq, Repr

/-- Function `getPerformanceSettings`. The name `headers` of line 201 is neither
a parameter nor a local of the function, and the module declares no binding
of that name (the `headers` of `handler` is local to `handler`), so the name
is looked up in the global scope: `globalHeaders` is the method `get` of a
global `headers`, and `none` when the global scope has no such binding, as in
the edge runtime; the reference then throws a `ReferenceError`. -/
def getPerformanceSettings (globalHeaders : Option (JSString → Option JSString))
    (_country userAgent : JSString) : Except JSError PerformanceSettings :=
  let isMobile := regexTest mobilePattern userAgent
  match globalHeaders with
  | none => .error .referenceError
  | some get =>
    let isSlowConnection := decide (get (js "save-data") = some (js "on"))
    .ok
      { imageQuality := if isSlowConnection then js "low" else js "high",
        videoQuality := if isSlowConnection then js "480p" else js "1080p",
        preloadResources := !isSlowConnection,
        enableAnimations := !isSlowConnection,
        enableWebP := true,
        enableLazyLoading := true,
        compressionLevel := if isSlowConnection then js "high" else js "medium",
        cacheStrategy := if isMobile then js "aggressive" else js "standard" }

/-- Geo data of a request to the geo handler; a field is `none` when absent. -/
structure Geo where
  country : Option JSString
  region : Option JSString
  city : Option JSString
  timezone : Option JSString

/-- Request to the geo handler: `geo` (`none` when absent) and the method
`headers.get`, which gives `none` for a header that is not present. -/
structure GeoRequest where
  geo : Option Geo
  headers : JSString → Option JSString

/-- Object `settings` that the geo handler serialises as the response body. -/
structure Settings where
  country : JSString
  region : JSString
  city : JSString
  timezone : JSString
  language : JSString
  currency : JSValue
  dateFormat : JSValue
  serverRegion : JSValue
  features : RegionalFeatures
  performance : PerformanceSettings
deriving DecidableEq, Repr

/-- Function `handler` of geo.js, up to the object `settings`; it has no
`try`, so an exception of `getPerformanceSettings` leaves the handler. -/
def geoHandler (memberText : JSString → JSString)
    (globalHeaders : Option (JSString → Option JSString)) (request : GeoRequest) :
    Except JSError Settings :=
  let country := orString (request.geo.bind fun g => g.country) (js "US")
  let region := orString (request.geo.bind fun g => g.region) (js "CA")
  let city := orString (request.geo.bind fun g => g.city) (js "San Francisco")
  let timezone := orString (request.geo.bind fun g => g.timezone) (js "America/Los_Angeles")
  let userAgent := orString (request.headers (js "user-agent")) (js "")
  let acceptLanguage := orString (request.headers (js "accept-language")) (js "en")
  match getPerformanceSettings globalHeaders country userAgent with
  | .error e => .error e
  | .ok performance =>
    .ok
      { country := country, region := region, city := city, timezone := timezone,
        language := orString ((split 44 acceptLanguage).head?) (js "en"),
        currency := getCurrency memberText country,
        dateFormat := getDateFormat memberText country,
        serverRegion := getServerRegion memberText region,
        features := getRegionalFeatures memberText country,
        performance := performance }

/-- A request with its header `save-data` replaced by `value`. -/
def withSaveData (request : GeoRequest) (value : Option JSString) : GeoRequest :=
  { geo := request.geo,
    headers := fun name => if name = js "save-data" then value else request.headers name }

/-- Request from the US on a slow connection: header `save-data: on`. -/
def slowRequest : GeoRequest :=
  { geo := some ⟨some (js "US"), some (js "CA"), none, none⟩,
    headers := fun name => if name = js "save-data" then some (js "on") else none }

/-! ## Values of the serverless handlers (src/api) -/

/-- JSON value of a request or response body; a number is the double it
denotes, and the fields of an object have distinct names. -/
inductive Json where
  | null
  | bool (b : Bool)
  | num (n : ℚ)
  | str (s : JSString)
  | arr (items : List Json)
  | obj (fields : List (JSString × Json))

/-- Truthiness of a value; `none` is `undefined`. -/
def jsonTruthy : Option Json → Bool
  | none => false
  | some .null => false
  | some (.bool b) => b
  | some (.num n) => decide (n ≠ 0)
  | some (.str s) => !s.isEmpty
  | some (.arr _) => true
  | some (.obj _) => true

/-- Property read `value.name` on a parsed body, for the names that the
handlers destructure (`email`, `password`, `userType`, `name`, `profile`,
`event`, `message`, `userId`, ...): none of them is a member of a prototype of
a JSON value, so the read gives an own field of an object and `undefined`
otherwise. -/
def jsonGet (value : Json) (name : JSString) : Option Json :=
  match value with
  | .obj fields => fields.lookup name
  | _ => none

/-- Operator `===` between a value held by the module and a value of the
request body: primitives are compared by value, and an object or array of the
body is never the same object as one of the module. -/
def strictEq : Option Json → Option Json → Bool
  | none, none => true
  | some .null, some .null => true
  | some (.bool a), some (.bool b) => a == b
  | some (.num a), some (.num b) => decide (a = b)
  | some (.str a), some (.str b) => a == b
  | _, _ => false

/-- Destructuring `const {...} = req.body`: a `TypeError` when the body is
`undefined` or `null`. -/
def destructure (body : Option Json) : Except JSError Json :=
  match body with
  | none => .error .typeError
  | some .null => .error .typeError
  | some value => .ok value

/-- Reply of a serverless handler: the status and the JSON body, `none` for
a reply ended without a body. -/
structure Reply where
  status : Nat
  body : Option Json

/-- Body `{ error }`. -/
def errorBody (text : String) : Json := .obj [(js "error", .str (js text))]

/-- Body `{ error, code }`. -/
def codedError (text code : String) : Json :=
  .obj [(js "error", .str (js text)), (js "code", .str (js code))]

/-- Reply of the `catch` of a handler. -/
def internalError : Reply := ⟨500, some (errorBody "Internal server error")⟩

/-- Request to a serverless handler: the method, the parsed body (`none` for
`undefined`) and the header `authorization` (`none` when absent). -/
structure ApiRequest where
  method : JSString
  body : Option Json
  authorization : Option JSString

/-- Array of strings. -/
def strs (items : List String) : Json := .arr (items.map fun x => .str (js x))

/-- Decimal digit as a code unit. -/
def digitUnit (d : Nat) : CodeUnit := Fin.ofNat (48 + d)

/-- Decimal text of a non-negative integer, as in a template literal. -/
def natText (n : Nat) : JSString :=
  if n = 0 then [digitUnit 0] else (Nat.digits 10 n).reverse.map digitUnit

/-- Assignment `object[key] = value` on the fields of an object: an existing
field keeps its place. The order that integer-like keys take in a JavaScript
object is not modelled. -/
def setField (fields : List (JSString × Json)) (key : JSString) (value : Json) :
    List (JSString × Json) :=
  if fields.any (fun p => p.1 == key) then
    fields.map fun p => if p.1 == key then (p.1, value) else p
  else fields ++ [(key, value)]

/-- Own enumerable properties that a spread `...value` copies: the fields of
an object, the elements of an array and the code units of a string under
their indices, nothing for `undefined`, `null`, numbers and booleans. -/
def ownEntries : Option Json → List (JSString × Json)
  | some (.obj fields) => fields
  | some (.arr items) => items.enum.map fun p => (natText p.1, p.2)
  | some (.str text) => text.enum.map fun p => (natText p.1, .str [p.2])
  | _ => []

/-- Object literal `{ ...a, ...b }` as a list of fields. -/
def spread (a b : Option Json) : List (JSString × Json) :=
  (ownEntries b).foldl (fun acc p => setField acc p.1 p.2)
    ((ownEntries a).foldl (fun acc p => setField acc p.1 p.2) [])

/-- Pattern `const { password: _, ...userWithoutPassword } = user` on the
fields of `user`: every own field but `password`. -/
def omitPassword (user : List (JSString × Json)) : List (JSString × Json) :=
  user.filter fun p => p.1 != js "password"

/-! ## Session tokens (auth.js, lines 250-272) -/

/-- White space that `parseInt` skips: `WhiteSpace` and `LineTerminator`. -/
def isWhiteSpace (c : CodeUnit) : Bool :=
  c.val ∈ [9, 10, 11, 12, 13, 32, 160, 5760, 8232, 8233, 8239, 8287, 12288, 65279] ||
    (8192 ≤ c.val && c.val ≤ 8202)

/-- Value of a code unit as a digit of a radix up to 36. -/
def digitValue (c : CodeUnit) : Option Nat :=
  if 48 ≤ c.val ∧ c.val ≤ 57 then some (c.val - 48)
  else if 97 ≤ c.val ∧ c.val ≤ 122 then some (c.val - 87)
  else if 65 ≤ c.val ∧ c.val ≤ 90 then some (c.val - 55)
  else none

/-- Longest prefix of digits of the radix, read as a number; `acc` is `none`
until a digit has been read. -/
def parseDigits (radix : Nat) : JSString → Option Nat → Option Nat
  | [], acc => acc
  | c :: cs, acc =>
    match digitValue c with
    | some d => if d < radix then parseDigits radix cs (some (acc.getD 0 * radix + d)) else acc
    | none => acc

/-- Function `parseInt(text)` with no radix: white space is skipped, a sign
and a prefix `0x` are read, then the longest prefix of digits; `none` is `NaN`
(no digit, or the argument `undefined`, whose text is `undefined`). The
result is the integer read; the double that JavaScript rounds it to differs
only beyond `2 ^ 53`. -/
def parseInt (text : Option JSString) : Option Int :=
  match text with
  | none => none
  | some t =>
    let s := t.dropWhile isWhiteSpace
    let negative := s.head? = some 45
    let s1 := if s.head? = some 45 ∨ s.head? = some 43 then s.drop 1 else s
    let hex := s1.take 2 = [48, 120] ∨ s1.take 2 = [48, 88]
    let s2 := if hex then s1.drop 2 else s1
    match parseDigits (if hex then 16 else 10) s2 none with
    | none => none
    | some n => some (if negative then -(n : Int) else (n : Int))

/-- Function `generateSessionToken`: `encode` is
`Buffer.from(text).toString('base64')`, `now` is `Date.now()` and
`randomText` is `Math.random().toString(36)`. -/
def generateSessionToken (encode : JSString → JSString) (now : Nat) (randomText : JSString)
    (userId : JSString) : JSString :=
  encode (userId ++ js ":" ++ natText now ++ js ":" ++ randomText.drop 2)

/-- Function `validateSessionToken`: `decode` is
`Buffer.from(token, 'base64').toString()`, which does not throw on a string,
and `now` is `Date.now()`; `none` is `null`. With `parseInt` giving `NaN` the
age is `NaN` and the comparison `tokenAge > 24 * 60 * 60 * 1000` is false.
The integers compared are below `2 ^ 53` or give the same outcome as doubles. -/
def validateSessionToken (decode : JSString → JSString) (now : Nat) (token : JSString) :
    Option JSString :=
  let decoded := decode token
  let pieces := split 58 decoded
  let userId := pieces[0]?
  let timestamp := pieces[1]?
  match parseInt timestamp with
  | some t => if (now : Int) - t > 24 * 60 * 60 * 1000 then none else userId
  | none => userId

/-! ## Authentication handler (auth.js) -/

/-- What the authentication handler reads from its surroundings: the codec of
`Buffer`, `Date.now()`, `Math.random().toString(36)`, the text `date k` of the
`k`-th `new Date(...).toISOString()` that a request evaluates, and the string
`keyText v` that a value other than a string takes as a property key (`none`
when the conversion throws a `TypeError`, as for an object whose `toString`
and `valueOf` are not functions). -/
structure AuthAmbient where
  encode : JSString → JSString
  decode : JSString → JSString
  now : Nat
  randomText : JSString
  date : Nat → JSString
  keyText : Json → Option JSString

/-- Table `users` of `handleLogin`: the fields of each record, in the order
of the literal. -/
def loginUsers (date : Nat → JSString) : List (JSString × List (JSString × Json)) :=
  [(js "admin@eduplatform.com",
      [(js "id", .str (js "admin_001")), (js "email", .str (js "admin@eduplatform.com")),
        (js "password", .str (js "admin123")), (js "role", .str (js "admin")),
        (js "name", .str (js "Admin User")),
        (js "permissions", strs ["read", "write", "delete", "manage_users", "manage_courses"]),
        (js "profile", .obj [(js "avatar", .str (js "/assets/avatars/admin.jpg")),
          (js "department", .str (js "IT")), (js "lastLogin", .str (date 0))])]),
    (js "student@eduplatform.com",
      [(js "id", .str (js "student_001")), (js "email", .str (js "student@eduplatform.com")),
        (js "password", .str (js "student123")), (js "role", .str (js "student")),
        (js "name", .str (js "Student User")),
        (js "permissions", strs ["read", "enroll", "submit_quiz"]),
        (js "profile", .obj [(js "avatar", .str (js "/assets/avatars/student.jpg")),
          (js "grade", .str (js "Grade 10")), (js "progress", .num 75),
          (js "lastLogin", .str (date 1))])]),
    (js "teacher@eduplatform.com",
      [(js "id", .str (js "teacher_001")), (js "email", .str (js "teacher@eduplatform.com")),
        (js "password", .str (js "teacher123")), (js "role", .str (js "teacher")),
        (js "name", .str (js "Teacher User")),
        (js "permissions", strs ["read", "write", "manage_courses", "grade_assignments"]),
        (js "profile", .obj [(js "avatar", .str (js "/assets/avatars/teacher.jpg")),
          (js "subject", .str (js "Mathematics")), (js "experience", .str (js "5 years")),
          (js "lastLogin", .str (date 2))])])]

/-- Table `users` of `getUserById`. -/
def usersById (date : Nat → JSString) : List (JSString × List (JSString × Json)) :=
  [(js "admin_001",
      [(js "id", .str (js "admin_001")), (js "email", .str (js "admin@eduplatform.com")),
        (js "role", .str (js "admin")), (js "name", .str (js "Admin User")),
        (js "permissions", strs ["read", "write", "delete", "manage_users", "manage_courses"]),
        (js "profile", .obj [(js "avatar", .str (js "/assets/avatars/admin.jpg")),
          (js "department", .str (js "IT")), (js "lastLogin", .str (date 0))]),
        (js "createdAt", .str (date 1)), (js "updatedAt", .str (date 2))]),
    (js "student_001",
      [(js "id", .str (js "student_001")), (js "email", .str (js "student@eduplatform.com")),
        (js "role", .str (js "student")), (js "name", .str (js "Student User")),
        (js "permissions", strs ["read", "enroll", "submit_quiz"]),
        (js "profile", .obj [(js "avatar", .str (js "/assets/avatars/student.jpg")),
          (js "grade", .str (js "Grade 10")), (js "progress", .num 75),
          (js "lastLogin", .str (date 3))]),
        (js "createdAt", .str (date 4)), (js "updatedAt", .str (date 5))]),
    (js "teacher_001",
      [(js "id", .str (js "teacher_001")), (js "email", .str (js "teacher@eduplatform.com")),
        (js "role", .str (js "teacher")), (js "name", .str (js "Teacher User")),
        (js "permissions", strs ["read", "write", "manage_courses", "grade_assignments"]),
        (js "profile", .obj [(js "avatar", .str (js "/assets/avatars/teacher.jpg")),
          (js "subject", .str (js "Mathematics")), (js "experience", .str (js "5 years")),
          (js "lastLogin", .str (date 6))]),
        (js "createdAt", .str (date 7)), (js "updatedAt", .str (date 8))])]

/-- Function `getUserById`: `users[userId] || null`. A record of the table is
truthy, and so is a member that the table inherits from `Object.prototype`;
`missing` stands for `null`. -/
def getUserById (date : Nat → JSString) (userId : JSString) : Slot (List (JSString × Json)) :=
  getProperty (usersById date) userId

/-- Property key that a truthy value of the body denotes in `users[email]`. -/
def propertyKey (keyText : Json → Option JSString) (value : Json) : Option JSString :=
  match value with
  | .str s => some s
  | other => keyText other

/-- Assignment `user.profile.lastLogin = value` on the fields of a record
whose `profile` is an object. -/
def setLastLogin (user : List (JSString × Json)) (value : JSString) : List (JSString × Json) :=
  match user.lookup (js "profile") with
  | some (.obj profile) =>
    setField user (js "profile") (.obj (setField profile (js "lastLogin") (.str value)))
  | _ => user

/-- Function `handleLogin`. A member that `users` inherits from
`Object.prototype` has no property `password`, and `undefined` differs from
the truthy `password` of the body, so such a name is answered 401. -/
def handleLogin (env : AuthAmbient) (req : ApiRequest) : Except JSError Reply :=
  match destructure req.body with
  | .error e => .error e
  | .ok body =>
    let email := jsonGet body (js "email")
    let password := jsonGet body (js "password")
    let userType := jsonGet body (js "userType")
    if !jsonTruthy email || !jsonTruthy password || !jsonTruthy userType then
      .ok ⟨400, some (errorBody "Missing required fields: email, password, userType")⟩
    else
      match email.bind (propertyKey env.keyText) with
      | none => .error .typeError
      | some key =>
        let invalid : Reply := ⟨401, some (codedError "Invalid credentials" "INVALID_CREDENTIALS")⟩
        match getProperty (loginUsers env.date) key with
        | .missing => .ok invalid
        | .inherited => .ok invalid
        | .own user =>
          if !strictEq (user.lookup (js "password")) password then .ok invalid
          else if !strictEq (user.lookup (js "role")) userType
              && !strictEq (some (.str (js "any"))) userType then
            .ok ⟨403,
              some (codedError "Invalid user type for this account" "INVALID_USER_TYPE")⟩
          else
            let userId : JSString :=
              match user.lookup (js "id") with
              | some (.str id) => id
              | _ => js "undefined"
            let sessionToken := generateSessionToken env.encode env.now env.randomText userId
            let user1 := setLastLogin user (env.date 3)
            .ok ⟨200, some (.obj [(js "success", .bool true),
              (js "user", .obj (omitPassword user1)),
              (js "sessionToken", .str sessionToken),
              (js "expiresAt", .str (env.date 4)),
              (js "message", .str (js "Login successful"))])⟩

/-- Lines 129-146 of `handleGetUser`, the same in `handleUpdateUser` and
`handleLogout`: the reply 401, or the user id of the token. -/
def authenticate (env : AuthAmbient) (req : ApiRequest) : Reply ⊕ JSString :=
  match req.authorization with
  | none =>
    .inl ⟨401, some (codedError "Missing or invalid authorization header" "UNAUTHORIZED")⟩
  | some authHeader =>
    if authHeader.isEmpty || !(js "Bearer ").isPrefixOf authHeader then
      .inl ⟨401, some (codedError "Missing or invalid authorization header" "UNAUTHORIZED")⟩
    else
      let token := authHeader.drop 7
      match validateSessionToken env.decode env.now token with
      | none => .inl ⟨401, some (codedError "Invalid or expired token" "INVALID_TOKEN")⟩
      | some userId =>
        if userId.isEmpty then
          .inl ⟨401, some (codedError "Invalid or expired token" "INVALID_TOKEN")⟩
        else .inr userId

/-- Reply 404 of `handleGetUser` and `handleUpdateUser`. -/
def userNotFound : Reply := ⟨404, some (codedError "User not found" "USER_NOT_FOUND")⟩

/-- Function `handleGetUser`. The own properties of a member inherited from
`Object.prototype` are not enumerable, so the rest pattern copies none. -/
def handleGetUser (env : AuthAmbient) (req : ApiRequest) : Except JSError Reply :=
  match authenticate env req with
  | .inl reply => .ok reply
  | .inr userId =>
    match getUserById env.date userId with
    | .missing => .ok userNotFound
    | .inherited =>
      .ok ⟨200, some (.obj [(js "success", .bool true), (js "user", .obj (omitPassword []))])⟩
    | .own user =>
      .ok ⟨200, some (.obj [(js "success", .bool true), (js "user", .obj (omitPassword user))])⟩

/-- Lines 205-209 of `handleUpdateUser` on the enumerable fields of `user`. -/
def updateUser (env : AuthAmbient) (name profile : Option Json) (user : List (JSString × Json)) :
    List (JSString × Json) :=
  let user1 :=
    match name with
    | some value => if jsonTruthy name then setField user (js "name") value else user
    | none => user
  let user2 :=
    if jsonTruthy profile then
      setField user1 (js "profile") (.obj (spread (user1.lookup (js "profile")) profile))
    else user1
  setField user2 (js "updatedAt") (.str (env.date 9))

/-- Function `handleUpdateUser`, from a global state that no earlier request
has changed. For a name inherited from `Object.prototype` the user is that
member, with no enumerable property of its own: a function, whose `name` is
not writable, so that the assignment of line 206 throws a `TypeError` in the
strict code of a module, or `Object.prototype` itself for `__proto__`. -/
def handleUpdateUser (env : AuthAmbient) (req : ApiRequest) : Except JSError Reply :=
  match authenticate env req with
  | .inl reply => .ok reply
  | .inr userId =>
    match destructure req.body with
    | .error e => .error e
    | .ok body =>
      let name := jsonGet body (js "name")
      let profile := jsonGet body (js "profile")
      if !jsonTruthy name && !jsonTruthy profile then
        .ok ⟨400, some (errorBody "No fields to update")⟩
      else
        let updated (user : List (JSString × Json)) : Reply :=
          ⟨200, some (.obj [(js "success", .bool true),
            (js "user", .obj (omitPassword (updateUser env name profile user))),
            (js "message", .str (js "User updated successfully"))])⟩
        match getUserById env.date userId with
        | .missing => .ok userNotFound
        | .inherited =>
          if jsonTruthy name && userId != js "__proto__" then .error .typeError
          else .ok (updated [])
        | .own user => .ok (updated user)

/-- Function `handleLogout`. -/
def handleLogout (env : AuthAmbient) (req : ApiRequest) : Except JSError Reply :=
  match authenticate env req with
  | .inl reply => .ok reply
  | .inr _ =>
    .ok ⟨200, some (.obj [(js "success", .bool true),
      (js "message", .str (js "Logged out successfully"))])⟩

/-- The `try` and `catch` of a handler: an exception becomes the reply 500. -/
def caught (result : Except JSError Reply) : Reply :=
  match result with
  | .ok reply => reply
  | .error _ => internalError

/-- Function `handler` of auth.js. -/
def authHandler (env : AuthAmbient) (req : ApiRequest) : Reply :=
  if req.method = js "OPTIONS" then ⟨200, none⟩
  else if req.method = js "POST" then caught (handleLogin env req)
  else if req.method = js "GET" then caught (handleGetUser env req)
  else if req.method = js "PUT" then caught (handleUpdateUser env req)
  else if req.method = js "DELETE" then caught (handleLogout env req)
  else ⟨405, some (errorBody "Method not allowed")⟩

/-! ## Analytics handler (analytics.js, lines 6-99) -/

/-- Function `handleTrackEvent`. The name `headers` of line 56 is neither a
parameter nor a local of the function, the module declares no binding of that
name (the `headers` of line 17 is local to `handler`), and Node.js has no
global of that name: evaluating line 56 throws a `ReferenceError`, and lines
57-98, with the reply 200, are not reached. -/
def handleTrackEvent (req : ApiRequest) : Except JSError Reply :=
  match destructure req.body with
  | .error e => .error e
  | .ok body =>
    let event := jsonGet body (js "event")
    if !jsonTruthy event then .ok ⟨400, some (errorBody "Event name is required")⟩
    else .error .referenceError

/-- Function `handler` of analytics.js on a request of method `POST`:
line 22 inside the `try` of lines 19-31. -/
def analyticsPost (req : ApiRequest) : Reply := caught (handleTrackEvent req)

/-! ## Chat handler (ai-chat.js, lines 6-100) -/

/-- What the chat handler reads from its surroundings: the objects that
`processTextMessage` and `processVoiceMessage` build for a string, which
depend on the clock and on `Math.random`, the object that
`processImageMessage` builds, and the text of `new Date().toISOString()` at
line 98. For a string these functions complete: the message is only
lower-cased and searched. -/
structure ChatAmbient where
  textReply : JSString → Json
  voiceReply : JSString → Json
  imageReply : Json
  date : JSString

/-- Function `handleChatMessage`. The functions `processTextMessage` and
`processVoiceMessage` call `message.toLowerCase()`, which throws a `TypeError`
for a truthy message that is not a string; `processImageMessage` does not
read the message. A field whose value is `undefined` is left out by
`JSON.stringify`. -/
def handleChatMessage (env : ChatAmbient) (req : ApiRequest) : Except JSError Reply :=
  match destructure req.body with
  | .error e => .error e
  | .ok body =>
    let message := jsonGet body (js "message")
    let userId := jsonGet body (js "userId")
    let sessionId := jsonGet body (js "sessionId")
    let messageType := (jsonGet body (js "messageType")).getD (.str (js "text"))
    if !jsonTruthy message || !jsonTruthy userId then
      .ok ⟨400, some (errorBody "Message and userId are required")⟩
    else
      let response : Except JSError Json :=
        if strictEq (some (.str (js "image"))) (some messageType) then .ok env.imageReply
        else
          match message with
          | some (.str text) =>
            if strictEq (some (.str (js "voice"))) (some messageType) then
              .ok (env.voiceReply text)
            else .ok (env.textReply text)
          | _ => .error .typeError
      match response with
      | .error e => .error e
      | .ok value =>
        .ok ⟨200, some (.obj ([(js "success", .bool true), (js "response", value)]
          ++ (match sessionId with
            | some id => [(js "sessionId", id)]
            | none => [])
          ++ [(js "timestamp", .str env.date)]))⟩

/-- Function `handler` of ai-chat.js on a request of method `POST`: line 22
inside the `try` of lines 19-31. -/
def aiChatPost (env : ChatAmbient) (req : ApiRequest) : Reply :=
  caught (handleChatMessage env req)

/-- The `POST` of the end-to-end test: the body is the empty object. -/
def emptyObjectRequest : ApiRequest := ⟨js "POST", some (.obj []), none⟩

/-- A `POST` that names an event: the body is `{ event: 'page_view' }`. -/
def pageViewRequest : ApiRequest :=
  ⟨js "POST", some (.obj [(js "event", .str (js "page_view"))]), none⟩

/-- Records that the variable `user` can hold at the rest pattern of
`handleLogin` (line 117), `handleGetUser` (line 158) and `handleUpdateUser`
(line 211): a record of `users` after the assignment of `lastLogin`; a record
of `getUserById` or a member of `Object.prototype`, which has no enumerable
field; the same after the assignments of lines 206-209. -/
def heldUsers (env : AuthAmbient) (req : ApiRequest) : List (List (JSString × Json)) :=
  if req.method = js "POST" then
    (loginUsers env.date).map fun p => setLastLogin p.2 (env.date 3)
  else if req.method = js "GET" then [] :: (usersById env.date).map Prod.snd
  else
    ([] :: (usersById env.date).map Prod.snd).map
      (updateUser env (req.body.bind fun body => jsonGet body (js "name"))
        (req.body.bind fun body => jsonGet body (js "profile")))

/-- Surroundings of a request: a codec that leaves the text as it is, the
time 1000 and one date text. -/
def sampleAuth : AuthAmbient :=
  ⟨id, id, 1000, js "0.abc", fun _ => js "2026-01-01T00:00:00.000Z", fun _ => none⟩

/-- Login of the administrator with the password of the table. -/
def adminLogin : ApiRequest :=
  ⟨js "POST",
    some (.obj [(js "email", .str (js "admin@eduplatform.com")),
      (js "password", .str (js "admin123")), (js "userType", .str (js "admin"))]),
    none⟩

/-- Text that V8 gives for the members of `Object.prototype`: `Object.prototype`
itself under `__proto__`, the function `Object` under `constructor`, and a
native function of the same name under every other key. -/
def nativeMemberText (key : JSString) : JSString :=
  if key = js "__proto__" then js "[object Object]"
  else js "function " ++ (if key = js "constructor" then js "Object" else key)
    ++ js "() \x7b [native code] \x7d"

/-- Surroundings with the member texts of V8. -/
def nativeAmbient : Ambient :=
  { randomText := js "0.i", now := 0, memberText := nativeMemberText }

/-- A flag whose `countries` is the string `all` and whose `userGroups` lists
`premium` only. -/
def sentinelCountries : FlagConfig :=
  { enabled := true, rollout := 1, countries := .text (js "all"),
    userGroups := .list [js "premium"], variants := [js "on"] }

/-- Request for the test named by the two code units U+65E5 and U+672C. -/
def wideRequest : Request :=
  { xUserId := some (js "user_1"), userAgent := none, country := some (js "US"),
    test := some [26085, 26412], variant := none }

/-- What a lookup `table[key] || fallback` does: each listed key gives its
entry, each key that is neither listed nor the name of a member of
`Object.prototype` gives the fallback, and the key `constructor` gives the
inherited member. -/
def lookupBehaviour (f : (JSString → JSString) → JSString → JSValue)
    (table : List (JSString × JSValue)) (fallback : JSValue) : Prop :=
  ∀ memberText : JSString → JSString,
    table.map (fun p => f memberText p.1) = table.map Prod.snd ∧
    (∀ key : JSString, key ∈ table.map Prod.fst ∨ key ∈ objectPrototypeKeys ∨
      f memberText key = fallback) ∧
    js "constructor" ∉ table.map Prod.fst ∧
    f memberText (js "constructor") = .object (memberText (js "constructor")) ∧
    f memberText (js "constructor") ≠ fallback

/-! ## Arithmetic lemmas -/

theorem land_self (x : Int) : Int.land x x = x := by
  cases x with
  | ofNat n => simp [Int.land]
  | negSucc n => simp [Int.land]

theorem toInt32_eq_bmod (x : Int) : toInt32 x = Int.bmod x (2 ^ 32) := by
  unfold toInt32 Int.bmod
  simp only []
  split_ifs <;> omega

theorem toInt32_bmod (x : Int) : toInt32 (Int.bmod x (2 ^ 32)) = Int.bmod x (2 ^ 32) := by
  rw [toInt32_eq_bmod]
  unfold Int.bmod
  simp only []
  split_ifs <;> omega

/-- One round of the loop is one round of the reference accumulator. -/
theorem loop_step (h : Int) (c : CodeUnit) :
    jsBitAnd ((jsShl h 5 - h) + (c.val : Int)) ((jsShl h 5 - h) + (c.val : Int))
      = Int.bmod (h * 31 + (c.val : Int)) (2 ^ 32) := by
  have e : (2 : Int) ^ (5 % 32) = 32 := by norm_num
  simp only [jsBitAnd, land_self, jsShl, e]
  rw [toInt32_eq_bmod, toInt32_eq_bmod, toInt32_eq_bmod]
  unfold Int.bmod
  simp only []
  split_ifs <;> omega

theorem simpleHashLoop_eq_hashSpecAcc (h : Int) (s : JSString) :
    simpleHashLoop h s = hashSpecAcc h s := by
  induction s generalizing h with
  | nil => rfl
  | cons c cs ih =>
    simp only [simpleHashLoop, hashSpecAcc]
    rw [loop_step h c]
    exact ih _

theorem simpleHash_nonneg (s : JSString) : 0 ≤ simpleHash s := abs_nonneg _

theorem remainder_nonneg (s : JSString) : 0 ≤ Int.tmod (simpleHash s) 100 :=
  Int.tmod_nonneg _ (simpleHash_nonneg s)

theorem remainder_lt (s : JSString) : Int.tmod (simpleHash s) 100 < 100 :=
  Int.tmod_lt_of_pos _ (by norm_num)

/-! ## Rounding to the nearest double -/

theorem floor_le_roundHalfEven (x : ℚ) : ⌊x⌋ ≤ roundHalfEven x := by
  unfold roundHalfEven
  split_ifs <;> omega

theorem roundHalfEven_le_floor_add_one (x : ℚ) : roundHalfEven x ≤ ⌊x⌋ + 1 := by
  unfold roundHalfEven
  split_ifs <;> omega

theorem roundHalfEven_intCast (n : ℤ) : roundHalfEven (n : ℚ) = n := by
  unfold roundHalfEven
  simp

theorem roundHalfEven_mono {x y : ℚ} (h : x ≤ y) : roundHalfEven x ≤ roundHalfEven y := by
  by_cases hf : ⌊x⌋ = ⌊y⌋
  · unfold roundHalfEven
    rw [hf]
    have hx : x - (⌊y⌋ : ℚ) ≤ y - (⌊y⌋ : ℚ) := by linarith
    split_ifs <;> first | omega | (exfalso; linarith)
  · have hlt : ⌊x⌋ < ⌊y⌋ := lt_of_le_of_ne (Int.floor_mono h) hf
    calc roundHalfEven x ≤ ⌊x⌋ + 1 := roundHalfEven_le_floor_add_one x
      _ ≤ ⌊y⌋ := hlt
      _ ≤ roundHalfEven y := floor_le_roundHalfEven y

theorem two_zpow_pos (e : ℤ) : (0 : ℚ) < (2 : ℚ) ^ e := zpow_pos (by norm_num) e

theorem roundDouble_nonpos {x : ℚ} (hx : x ≤ 0) : roundDouble x ≤ 0 := by
  unfold roundDouble
  have h1 : x / (2 : ℚ) ^ ulpExp x ≤ ((0 : ℤ) : ℚ) := by
    simpa using div_nonpos_of_nonpos_of_nonneg hx (two_zpow_pos _).le
  have h2 : roundHalfEven (x / (2 : ℚ) ^ ulpExp x) ≤ 0 := by
    have := roundHalfEven_mono h1
    rwa [roundHalfEven_intCast] at this
  have h3 : (roundHalfEven (x / (2 : ℚ) ^ ulpExp x) : ℚ) ≤ 0 := by exact_mod_cast h2
  exact mul_nonpos_of_nonpos_of_nonneg h3 (two_zpow_pos _).le

theorem ulpExp_mono {x y : ℚ} (hx : 0 < x) (h : x ≤ y) : ulpExp x ≤ ulpExp y := by
  unfold ulpExp
  have hy : 0 < y := lt_of_lt_of_le hx h
  rw [abs_of_pos hx, abs_of_pos hy]
  have := Int.log_mono_right (b := 2) hx h
  omega

/-- Scaled significand of a positive value lies below `2 ^ 53`. -/
theorem scaled_lt {x : ℚ} (hx : 0 < x) : x / (2 : ℚ) ^ ulpExp x < (2 : ℚ) ^ (53 : ℤ) := by
  rw [div_lt_iff₀ (two_zpow_pos _), ← zpow_add₀ (by norm_num : (2 : ℚ) ≠ 0)]
  have h1 : x < ((2 : ℕ) : ℚ) ^ (Int.log 2 x + 1) := Int.lt_zpow_succ_log_self (by norm_num) x
  have h2 : Int.log 2 x + 1 ≤ 53 + ulpExp x := by
    unfold ulpExp
    rw [abs_of_pos hx]
    omega
  calc x < (2 : ℚ) ^ (Int.log 2 x + 1) := by exact_mod_cast h1
    _ ≤ (2 : ℚ) ^ (53 + ulpExp x) := zpow_le_zpow_right₀ (by norm_num) h2

theorem roundDouble_le_pow {x : ℚ} (hx : 0 < x) : roundDouble x ≤ (2 : ℚ) ^ (53 + ulpExp x) := by
  unfold roundDouble
  have h1 : x / (2 : ℚ) ^ ulpExp x ≤ (((2 : ℤ) ^ 53 : ℤ) : ℚ) := by
    have := (scaled_lt hx).le
    norm_num at this ⊢
    exact this
  have h2 : roundHalfEven (x / (2 : ℚ) ^ ulpExp x) ≤ (2 : ℤ) ^ 53 := by
    have := roundHalfEven_mono h1
    rwa [roundHalfEven_intCast] at this
  have h3 : (roundHalfEven (x / (2 : ℚ) ^ ulpExp x) : ℚ) ≤ (2 : ℚ) ^ (53 : ℤ) := by
    have : ((roundHalfEven (x / (2 : ℚ) ^ ulpExp x) : ℤ) : ℚ) ≤ (((2 : ℤ) ^ 53 : ℤ) : ℚ) := by
      exact_mod_cast h2
    norm_num at this ⊢
    exact this
  rw [zpow_add₀ (by norm_num : (2 : ℚ) ≠ 0)]
  exact mul_le_mul_of_nonneg_right h3 (two_zpow_pos _).le

theorem pow_le_roundDouble {y : ℚ} (hy : 0 < y) (he : -1074 < ulpExp y) :
    (2 : ℚ) ^ (52 + ulpExp y) ≤ roundDouble y := by
  have hlog : ulpExp y = Int.log 2 y - 52 := by
    unfold ulpExp at he ⊢
    rw [abs_of_pos hy] at he ⊢
    omega
  have h0 : ((2 : ℕ) : ℚ) ^ (Int.log 2 y) ≤ y := Int.zpow_log_le_self (by norm_num) hy
  have h1 : (((2 : ℤ) ^ 52 : ℤ) : ℚ) ≤ y / (2 : ℚ) ^ ulpExp y := by
    rw [le_div_iff₀ (two_zpow_pos _)]
    have : (2 : ℚ) ^ (52 + ulpExp y) ≤ y := by
      have e : 52 + ulpExp y = Int.log 2 y := by omega
      rw [e]
      exact_mod_cast h0
    rw [zpow_add₀ (by norm_num : (2 : ℚ) ≠ 0)] at this
    norm_num at this ⊢
    exact this
  have h2 : (2 : ℤ) ^ 52 ≤ roundHalfEven (y / (2 : ℚ) ^ ulpExp y) := by
    have := roundHalfEven_mono h1
    rwa [roundHalfEven_intCast] at this
  have h3 : (2 : ℚ) ^ (52 : ℤ) ≤ (roundHalfEven (y / (2 : ℚ) ^ ulpExp y) : ℚ) := by
    have : (((2 : ℤ) ^ 52 : ℤ) : ℚ) ≤ ((roundHalfEven (y / (2 : ℚ) ^ ulpExp y) : ℤ) : ℚ) := by
      exact_mod_cast h2
    norm_num at this ⊢
    exact this
  unfold roundDouble
  rw [zpow_add₀ (by norm_num : (2 : ℚ) ≠ 0)]
  exact mul_le_mul_of_nonneg_right h3 (two_zpow_pos _).le

theorem roundDouble_mono_pos {x y : ℚ} (hx : 0 < x) (h : x ≤ y) :
    roundDouble x ≤ roundDouble y := by
  have hy : 0 < y := lt_of_lt_of_le hx h
  rcases (ulpExp_mono hx h).lt_or_eq with hlt | heq
  · have hmin : -1074 ≤ ulpExp x := by unfold ulpExp; omega
    calc roundDouble x ≤ (2 : ℚ) ^ (53 + ulpExp x) := roundDouble_le_pow hx
      _ ≤ (2 : ℚ) ^ (52 + ulpExp y) := zpow_le_zpow_right₀ (by norm_num) (by omega)
      _ ≤ roundDouble y := pow_le_roundDouble hy (by omega)
  · unfold roundDouble
    rw [heq]
    have h1 : x / (2 : ℚ) ^ ulpExp y ≤ y / (2 : ℚ) ^ ulpExp y :=
      div_le_div_of_nonneg_right h (two_zpow_pos _).le
    have h2 := roundHalfEven_mono h1
    have h3 : (roundHalfEven (x / (2 : ℚ) ^ ulpExp y) : ℚ) ≤ (roundHalfEven (y / (2 : ℚ) ^ ulpExp y) : ℚ) := by
      exact_mod_cast h2
    exact mul_le_mul_of_nonneg_right h3 (two_zpow_pos _).le

/-- A value with a 53-bit significand above the subnormal range is a double,
so rounding leaves it unchanged. -/
theorem roundDouble_exact (m e : ℤ) (hm : (2 : ℤ) ^ 52 ≤ m) (hm2 : m < (2 : ℤ) ^ 53)
    (he : -1074 ≤ e) : roundDouble ((m : ℚ) * (2 : ℚ) ^ e) = (m : ℚ) * (2 : ℚ) ^ e := by
  have hmq : ((2 : ℚ) ^ (52 : ℤ)) ≤ (m : ℚ) := by
    have : (((2 : ℤ) ^ 52 : ℤ) : ℚ) ≤ (m : ℚ) := by exact_mod_cast hm
    norm_num at this ⊢
    exact this
  have hmq2 : (m : ℚ) < ((2 : ℚ) ^ (53 : ℤ)) := by
    have : (m : ℚ) < (((2 : ℤ) ^ 53 : ℤ) : ℚ) := by exact_mod_cast hm2
    norm_num at this ⊢
    exact this
  have hmpos : (0 : ℚ) < (m : ℚ) := lt_of_lt_of_le (two_zpow_pos 52) hmq
  have hx : (0 : ℚ) < (m : ℚ) * (2 : ℚ) ^ e := mul_pos hmpos (two_zpow_pos e)
  have hlo : ((2 : ℕ) : ℚ) ^ (52 + e) ≤ (m : ℚ) * (2 : ℚ) ^ e := by
    have : (2 : ℚ) ^ (52 + e) ≤ (m : ℚ) * (2 : ℚ) ^ e := by
      rw [zpow_add₀ (by norm_num : (2 : ℚ) ≠ 0)]
      exact mul_le_mul_of_nonneg_right hmq (two_zpow_pos _).le
    exact_mod_cast this
  have hhi : (m : ℚ) * (2 : ℚ) ^ e < ((2 : ℕ) : ℚ) ^ (53 + e) := by
    have : (m : ℚ) * (2 : ℚ) ^ e < (2 : ℚ) ^ (53 + e) := by
      rw [zpow_add₀ (by norm_num : (2 : ℚ) ≠ 0)]
      exact mul_lt_mul_of_pos_right hmq2 (two_zpow_pos _)
    exact_mod_cast this
  have h1 : 52 + e ≤ Int.log 2 ((m : ℚ) * (2 : ℚ) ^ e) :=
    (Int.zpow_le_iff_le_log (by norm_num) hx).1 hlo
  have h2 : Int.log 2 ((m : ℚ) * (2 : ℚ) ^ e) < 53 + e :=
    (Int.lt_zpow_iff_log_lt (by norm_num) hx).1 hhi
  have hu : ulpExp ((m : ℚ) * (2 : ℚ) ^ e) = e := by
    unfold ulpExp
    rw [abs_of_pos hx]
    omega
  unfold roundDouble
  rw [hu, mul_div_assoc, div_self (two_zpow_pos e).ne', mul_one, roundHalfEven_intCast]

/-- Full rollout: `1.0 * 100` is exactly 100. -/
theorem jsMul_one_hundred : jsMul 1 100 = 100 := by
  have h := roundDouble_exact (100 * 2 ^ 46) (-46) (by norm_num) (by norm_num) (by norm_num)
  have e : (((100 * 2 ^ 46 : ℤ) : ℚ)) * (2 : ℚ) ^ (-46 : ℤ) = 100 := by norm_num
  rw [e] at h
  unfold jsMul
  norm_num
  exact h

/-! ## Branches of `evaluateFeatureFlag` -/

theorem list_includes_iff (xs : List JSString) (v : JSValue) :
    (Scope.list xs).includes v = true ↔ v ∈ xs.map JSValue.str := by
  cases v with
  | str s => simp [Scope.includes]
  | arr ys => simp [Scope.includes]
  | object t => simp [Scope.includes]

theorem ruleRestricts_of_passes {scope : Scope} {x : JSValue} (h : passesRule scope x) :
    ruleRestricts scope x = false := by
  unfold ruleRestricts strictNeFreshArray
  unfold passesRule at h
  cases ht : scope.truthy
  · simp
  · simp [h ht]

theorem forcedApplies_of_not_member {config : FlagConfig} {forcedVariant : Option JSString}
    (h : ∀ v, forcedVariant = some v → v ∉ config.variants) :
    forcedApplies config forcedVariant = false := by
  unfold forcedApplies
  cases forcedVariant with
  | none => simp [truthyString]
  | some v => simp [variantsInclude, h v rfl]

/-- Past the first four branches the decision is settled by the rollout test. -/
theorem evaluateFeatureFlag_rollout_stage (flagName : JSString) (config : FlagConfig)
    (userId : JSString) (userSegment : Segment) (forcedVariant : Option JSString)
    (hen : config.enabled = true)
    (hc : ruleRestricts config.countries userSegment.region = false)
    (ht : ruleRestricts config.userGroups (.str userSegment.tier) = false)
    (hf : forcedApplies config forcedVariant = false) :
    evaluateFeatureFlag flagName config userId userSegment forcedVariant =
      if ((Int.tmod (simpleHash (userId ++ flagName)) 100 : ℤ) : ℚ) ≥ jsMul config.rollout 100 then
        ⟨false, some (js "disabled"), .rollout_excluded, none, none⟩
      else includedDecision config userSegment (simpleHash (userId ++ flagName)) := by
  unfold ruleRestricts at hc ht
  unfold forcedApplies at hf
  unfold evaluateFeatureFlag includedDecision
  simp only [hen, hc, ht, hf, Bool.not_true, Bool.false_eq_true, if_false]

/-- A decision with reason `rollout_included` can only come from the last
branch: every earlier test failed and the remainder is below the threshold. -/
theorem included_inv (flagName : JSString) (config : FlagConfig)
    (userId : JSString) (userSegment : Segment) (forcedVariant : Option JSString)
    (hr : (evaluateFeatureFlag flagName config userId userSegment forcedVariant).reason
      = .rollout_included) :
    config.enabled = true ∧ ruleRestricts config.countries userSegment.region = false ∧
      ruleRestricts config.userGroups (.str userSegment.tier) = false ∧
      forcedApplies config forcedVariant = false ∧
      ((Int.tmod (simpleHash (userId ++ flagName)) 100 : ℤ) : ℚ) < jsMul config.rollout 100 := by
  unfold ruleRestricts forcedApplies
  unfold evaluateFeatureFlag at hr
  split_ifs at hr with h1 h2 h3 h4
  by_cases h5 : jsMul config.rollout 100 ≤ ((Int.tmod (simpleHash (userId ++ flagName)) 100 : ℤ) : ℚ)
  · rw [if_pos h5] at hr
    exact absurd hr (by decide)
  · refine ⟨by simpa using h1, by simpa using h2, by simpa using h3, by simpa using h4, ?_⟩
    exact lt_of_not_ge h5

/-- With at least one variant and a non-negative hash the selected index is in
range and is the remainder of the hash by the number of variants. -/
theorem jsIndex_jsRem (variants : List JSString) (userHash : Int) (hv : variants ≠ [])
    (hh : 0 ≤ userHash) :
    jsIndex variants (jsRem userHash variants.length)
      = variants[(userHash % (variants.length : Int)).toNat]? ∧
    (userHash % (variants.length : Int)).toNat < variants.length := by
  have hlen : 0 < variants.length := List.length_pos.2 hv
  have hne : (variants.length : Int) ≠ 0 := by omega
  have hmod : Int.tmod userHash variants.length = userHash % (variants.length : Int) :=
    Int.tmod_eq_emod hh (by omega)
  have hnn : 0 ≤ userHash % (variants.length : Int) := Int.emod_nonneg _ hne
  have hlt : userHash % (variants.length : Int) < variants.length :=
    Int.emod_lt_of_pos _ (by omega)
  constructor
  · simp only [jsRem, hne, if_false, jsIndex, hmod]
    rw [if_neg (by omega)]
  · omega

theorem roundDouble_natCast (n k : ℕ) (hk : k ≤ 52) (h1 : 2 ^ k ≤ n) (h2 : n < 2 ^ (k + 1)) :
    roundDouble (n : ℚ) = (n : ℚ) := by
  have hm : (2 : ℤ) ^ 52 ≤ ((n * 2 ^ (52 - k) : ℕ) : ℤ) := by
    have : 2 ^ 52 ≤ n * 2 ^ (52 - k) := by
      calc 2 ^ 52 = 2 ^ k * 2 ^ (52 - k) := by rw [← pow_add]; congr 1; omega
        _ ≤ n * 2 ^ (52 - k) := Nat.mul_le_mul_right _ h1
    exact_mod_cast this
  have hm2 : ((n * 2 ^ (52 - k) : ℕ) : ℤ) < (2 : ℤ) ^ 53 := by
    have : n * 2 ^ (52 - k) < 2 ^ 53 := by
      calc n * 2 ^ (52 - k) < 2 ^ (k + 1) * 2 ^ (52 - k) :=
            Nat.mul_lt_mul_of_pos_right h2 (by positivity)
        _ = 2 ^ 53 := by rw [← pow_add]; congr 1; omega
    exact_mod_cast this
  have h := roundDouble_exact ((n * 2 ^ (52 - k) : ℕ) : ℤ) (-((52 - k : ℕ) : ℤ)) hm hm2 (by omega)
  have e : (((n * 2 ^ (52 - k) : ℕ) : ℤ) : ℚ) * (2 : ℚ) ^ (-((52 - k : ℕ) : ℤ)) = (n : ℚ) := by
    rw [zpow_neg, zpow_natCast]
    push_cast
    field_simp
  rw [e] at h
  exact h

theorem jsMul_half_hundred : jsMul (1 / 2) 100 = 50 := by
  have h := roundDouble_natCast 50 5 (by norm_num) (by norm_num) (by norm_num)
  unfold jsMul
  norm_num at h ⊢
  exact h

/-- Visitor `user_1` and flag `darkMode`: the hash, its remainder by 100 and
its remainder by 3. -/
theorem hash_user_1_darkMode :
    simpleHash (js "user_1" ++ js "darkMode") = 641996278 := by decide

/-- Visitor `user_3` and flag `darkMode`: the remainder is 48. -/
theorem hash_user_3_darkMode :
    simpleHash (js "user_3" ++ js "darkMode") = 1322054648 := by decide

theorem regionalDarkMode_user_1 :
    evaluateFeatureFlag (js "darkMode") regionalDarkMode (js "user_1") sampleSegment none
      = includedDecision regionalDarkMode sampleSegment 641996278 := by
  rw [evaluateFeatureFlag_rollout_stage _ _ _ _ _ rfl (by decide) (by decide) (by decide),
    hash_user_1_darkMode]
  have : regionalDarkMode.rollout = 1 := rfl
  rw [this, jsMul_one_hundred, if_neg]
  norm_num [Int.tmod]

theorem half_rollout_user_3 :
    evaluateFeatureFlag (js "darkMode") { regionalDarkMode with rollout := 1 / 2 } (js "user_3")
        sampleSegment none
      = includedDecision { regionalDarkMode with rollout := 1 / 2 } sampleSegment 1322054648 := by
  rw [evaluateFeatureFlag_rollout_stage _ _ _ _ _ rfl (by decide) (by decide) (by decide),
    hash_user_3_darkMode]
  have : ({ regionalDarkMode with rollout := 1 / 2 } : FlagConfig).rollout = 1 / 2 := rfl
  rw [this, jsMul_half_hundred, if_neg]
  norm_num [Int.tmod]

/-! ## Properties of the specification -/

/-- C1: for every string, `simpleHash` equals the reference accumulator of the
specification (start at 0, `h := h * 31 + c` wrapped to a signed 32-bit
integer for each code unit from left to right, then the absolute value): one
round `((hash << 5) - hash) + char` followed by `hash & hash` is
`h * 31 + c` reduced modulo `2 ^ 32` as a signed value. The hash of the empty
string is 0 and the hash of `"a"` is 97. -/
theorem simpleHash_refines_hashSpec :
    (∀ (h : Int) (c : CodeUnit),
      jsBitAnd ((jsShl h 5 - h) + (c.val : Int)) ((jsShl h 5 - h) + (c.val : Int))
        = Int.bmod (h * 31 + (c.val : Int)) (2 ^ 32)) ∧
    (∀ s : JSString, simpleHash s = hashSpec s) ∧
    simpleHash (js "") = 0 ∧ simpleHash (js "a") = 97 := by
  refine ⟨loop_step, fun s => ?_, by decide, by decide⟩
  unfold simpleHash hashSpec
  rw [simpleHashLoop_eq_hashSpecAcc]

/-- C2: for an enabled flag that passes the country and tier rules and is not
forced to one of its variants, with `h = simpleHash(userId + flagName) % 100`,
the decision is the `rollout_excluded` record if and only if
`h >= config.rollout * 100`; otherwise it has reason `rollout_included`,
`rollout = config.rollout` and `segment = userSegment.primary`. -/
theorem rollout_excluded_iff (flagName : JSString) (config : FlagConfig) (userId : JSString)
    (userSegment : Segment) (forcedVariant : Option JSString)
    (hen : config.enabled = true)
    (hc : passesRule config.countries userSegment.region)
    (ht : passesRule config.userGroups (.str userSegment.tier))
    (hf : ∀ v, forcedVariant = some v → v ∉ config.variants) :
    (evaluateFeatureFlag flagName config userId userSegment forcedVariant
        = ⟨false, some (js "disabled"), .rollout_excluded, none, none⟩ ↔
      ((Int.tmod (simpleHash (userId ++ flagName)) 100 : ℤ) : ℚ) ≥ jsMul config.rollout 100) ∧
    (¬ ((Int.tmod (simpleHash (userId ++ flagName)) 100 : ℤ) : ℚ) ≥ jsMul config.rollout 100 →
      (evaluateFeatureFlag flagName config userId userSegment forcedVariant).reason
          = .rollout_included ∧
        (evaluateFeatureFlag flagName config userId userSegment forcedVariant).rollout
          = some config.rollout ∧
        (evaluateFeatureFlag flagName config userId userSegment forcedVariant).segment
          = some userSegment.primary) := by
  rw [evaluateFeatureFlag_rollout_stage flagName config userId userSegment forcedVariant hen
    (ruleRestricts_of_passes hc) (ruleRestricts_of_passes ht) (forcedApplies_of_not_member hf)]
  constructor
  · constructor
    · intro h
      by_contra hlt
      rw [if_neg hlt] at h
      have := congrArg Decision.reason h
      simp [includedDecision] at this
    · intro h
      rw [if_pos h]
  · intro hlt
    rw [if_neg hlt]
    exact ⟨rfl, rfl, rfl⟩

/-- Witness of C2: visitor `user_1`, flag `darkMode` at full rollout. -/
theorem rollout_excluded_iff_witness :
    (evaluateFeatureFlag (js "darkMode") regionalDarkMode (js "user_1") sampleSegment none
        = ⟨false, some (js "disabled"), .rollout_excluded, none, none⟩ ↔
      ((Int.tmod (simpleHash (js "user_1" ++ js "darkMode")) 100 : ℤ) : ℚ)
        ≥ jsMul regionalDarkMode.rollout 100) ∧
    (¬ ((Int.tmod (simpleHash (js "user_1" ++ js "darkMode")) 100 : ℤ) : ℚ)
        ≥ jsMul regionalDarkMode.rollout 100 →
      (evaluateFeatureFlag (js "darkMode") regionalDarkMode (js "user_1") sampleSegment none).reason
          = .rollout_included ∧
        (evaluateFeatureFlag (js "darkMode") regionalDarkMode (js "user_1") sampleSegment
          none).rollout = some regionalDarkMode.rollout ∧
        (evaluateFeatureFlag (js "darkMode") regionalDarkMode (js "user_1") sampleSegment
          none).segment = some sampleSegment.primary) :=
  rollout_excluded_iff (js "darkMode") regionalDarkMode (js "user_1") sampleSegment none rfl
    (by decide) (by decide) (fun _ h => Option.noConfusion h)

/-- Counterexample to C3 as stated: for visitor `user_1` and the three-variant
flag `darkMode` the decision is rollout-included, the remainder compared with
the threshold is `h = 78`, so `variants[h % 3]` is `auto`, yet the selected
variant is `light`, the element at index `simpleHash(...) % 3 = 1`. -/
theorem variant_index_counterexample :
    (evaluateFeatureFlag (js "darkMode") regionalDarkMode (js "user_1") sampleSegment none).reason
      = .rollout_included ∧
    regionalDarkMode.variants ≠ [] ∧
    Int.tmod (simpleHash (js "user_1" ++ js "darkMode")) 100 = 78 ∧
    regionalDarkMode.variants[(Int.tmod (Int.tmod (simpleHash (js "user_1" ++ js "darkMode")) 100)
      regionalDarkMode.variants.length).toNat]? = some (js "auto") ∧
    (evaluateFeatureFlag (js "darkMode") regionalDarkMode (js "user_1") sampleSegment none).variant
      = some (js "light") ∧
    (evaluateFeatureFlag (js "darkMode") regionalDarkMode (js "user_1") sampleSegment none).variant
      ≠ regionalDarkMode.variants[(Int.tmod (Int.tmod (simpleHash (js "user_1" ++ js "darkMode"))
          100) regionalDarkMode.variants.length).toNat]? := by
  rw [regionalDarkMode_user_1, hash_user_1_darkMode]
  refine ⟨rfl, by decide, by decide, by decide, by decide, by decide⟩

/-- C3, amended: for every rollout-included decision over a configuration with
at least one variant, the selected variant is
`config.variants[simpleHash(userId + flagName) % len(config.variants)]`, the
index being taken from the whole hash and not from its remainder by 100, and
`enabled` is true exactly when that variant is not `disabled`. -/
theorem selected_variant_of_included (flagName : JSString) (config : FlagConfig)
    (userId : JSString) (userSegment : Segment) (forcedVariant : Option JSString)
    (hv : config.variants ≠ [])
    (hr : (evaluateFeatureFlag flagName config userId userSegment forcedVariant).reason
      = .rollout_included) :
    ∃ v, config.variants[(simpleHash (userId ++ flagName)
          % (config.variants.length : Int)).toNat]? = some v ∧
      (evaluateFeatureFlag flagName config userId userSegment forcedVariant).variant = some v ∧
      (evaluateFeatureFlag flagName config userId userSegment forcedVariant).enabled
        = decide (v ≠ js "disabled") := by
  obtain ⟨hen, hc, ht, hf, hlt⟩ := included_inv flagName config userId userSegment forcedVariant hr
  rw [evaluateFeatureFlag_rollout_stage flagName config userId userSegment forcedVariant hen hc ht
    hf, if_neg (not_le_of_lt hlt)]
  obtain ⟨hidx, hlt2⟩ := jsIndex_jsRem config.variants (simpleHash (userId ++ flagName)) hv
    (simpleHash_nonneg _)
  refine ⟨config.variants.get ⟨_, hlt2⟩, ?_, ?_, ?_⟩
  · exact List.getElem?_eq_getElem hlt2
  · simp only [includedDecision, hidx]
    exact List.getElem?_eq_getElem hlt2
  · simp only [includedDecision, hidx, List.getElem?_eq_getElem hlt2]
    by_cases hd : config.variants.get ⟨_, hlt2⟩ = js "disabled"
    · simp only [List.get_eq_getElem] at hd
      simp [bne, hd]
    · simp only [List.get_eq_getElem] at hd
      simp [bne, hd]

/-- Witness of C3 as amended: visitor `user_1`, flag `darkMode`. -/
theorem selected_variant_of_included_witness :
    ∃ v, regionalDarkMode.variants[(simpleHash (js "user_1" ++ js "darkMode")
          % (regionalDarkMode.variants.length : Int)).toNat]? = some v ∧
      (evaluateFeatureFlag (js "darkMode") regionalDarkMode (js "user_1") sampleSegment
        none).variant = some v ∧
      (evaluateFeatureFlag (js "darkMode") regionalDarkMode (js "user_1") sampleSegment
        none).enabled = decide (v ≠ js "disabled") :=
  selected_variant_of_included (js "darkMode") regionalDarkMode (js "user_1") sampleSegment none
    (by decide) (by rw [regionalDarkMode_user_1]; rfl)

/-- C4: for an enabled flag that passes the country and tier rules, a
non-empty forced variant that is one of `config.variants` yields exactly
`{enabled: true, variant: forcedVariant, reason: 'forced'}`, whatever the
identifier and the rollout (rollout 0 included). -/
theorem forced_variant_bypass (flagName : JSString) (config : FlagConfig) (userId : JSString)
    (userSegment : Segment) (v : JSString)
    (hen : config.enabled = true)
    (hc : passesRule config.countries userSegment.region)
    (ht : passesRule config.userGroups (.str userSegment.tier))
    (hne : v ≠ []) (hm : v ∈ config.variants) :
    evaluateFeatureFlag flagName config userId userSegment (some v)
      = ⟨true, some v, .forced, none, none⟩ := by
  have hc2 := ruleRestricts_of_passes hc
  have ht2 := ruleRestricts_of_passes ht
  unfold ruleRestricts at hc2 ht2
  have hf : (truthyString (some v) && variantsInclude config.variants (some v)) = true := by
    cases v with
    | nil => exact absurd rfl hne
    | cons c cs => simp [truthyString, variantsInclude, hm]
  unfold evaluateFeatureFlag
  simp only [hen, hc2, ht2, hf, Bool.not_true, Bool.false_eq_true, if_false, if_true]

/-- Witness of C4: the variant `off` forced on a flag at rollout 0. -/
theorem forced_variant_bypass_witness :
    zeroRollout.rollout = 0 ∧
    evaluateFeatureFlag (js "beta") zeroRollout (js "user_1") sampleSegment (some (js "off"))
      = ⟨true, some (js "off"), .forced, none, none⟩ :=
  ⟨rfl, forced_variant_bypass (js "beta") zeroRollout (js "user_1") sampleSegment (js "off") rfl
    (by decide) (by decide) (by decide) (by decide)⟩

/-- C5, evaluated on the code: for an enabled flag, a `countries` list that
does not contain the region of the segment gives the `country_restricted`
decision, for every identifier, rollout, forced variant and `userGroups`; and
when the country rule lets the segment through, a `userGroups` list that does
not contain the tier gives the `tier_restricted` decision. For a list the
country rule lets the segment through exactly when the list contains the
region, and a missing `countries` always does; but for `countries` written as
a string it does only when the string is empty or contains the text of the
region. So the flag with `countries: 'all'` and `userGroups: ['premium']`, met
by the `basic` visitor from `north_america`, is not `tier_restricted` but
`country_restricted`: `'all' !== ['all']` holds and `'all'.includes(region)`
is false. The scenario `countries: ['europe'], userGroups: 'all', rollout:
1.0, variants: ['on']` with region `asia_pacific` is country-restricted. -/
theorem scope_rules_in_order :
    (∀ (flagName : JSString) (config : FlagConfig) (userId : JSString) (userSegment : Segment)
        (forcedVariant : Option JSString) (xs : List JSString),
      config.enabled = true → config.countries = .list xs →
      userSegment.region ∉ xs.map JSValue.str →
      evaluateFeatureFlag flagName config userId userSegment forcedVariant
        = ⟨false, some (js "disabled"), .country_restricted, none, none⟩) ∧
    (∀ (flagName : JSString) (config : FlagConfig) (userId : JSString) (userSegment : Segment)
        (forcedVariant : Option JSString) (ys : List JSString),
      config.enabled = true → passesRule config.countries userSegment.region →
      config.userGroups = .list ys → userSegment.tier ∉ ys →
      evaluateFeatureFlag flagName config userId userSegment forcedVariant
        = ⟨false, some (js "disabled"), .tier_restricted, none, none⟩) ∧
    (∀ (xs : List JSString) (region : JSValue),
      (passesRule (.list xs) region ↔ region ∈ xs.map JSValue.str) ∧
        passesRule .absent region) ∧
    (∀ (flagName userId : JSString) (forcedVariant : Option JSString),
      evaluateFeatureFlag flagName europeOnly userId asiaSegment forcedVariant
        = ⟨false, some (js "disabled"), .country_restricted, none, none⟩) ∧
    (∀ (text : JSString) (region : JSValue),
      passesRule (.text text) region ↔ (text = [] ∨ region.toText <:+: text)) ∧
    (sentinelCountries.enabled = true ∧ sentinelCountries.countries = .text (js "all") ∧
      sentinelCountries.userGroups = .list [js "premium"] ∧
      sampleSegment.tier ∉ [js "premium"] ∧
      ∀ (flagName userId : JSString) (forcedVariant : Option JSString),
        evaluateFeatureFlag flagName sentinelCountries userId sampleSegment forcedVariant
          = ⟨false, some (js "disabled"), .country_restricted, none, none⟩) := by
  refine ⟨?_, ?_, ?_, ?_, ?_, ⟨rfl, rfl, rfl, by decide, ?_⟩⟩
  · intro flagName config userId userSegment forcedVariant xs hen hl hn
    have hinc : (Scope.list xs).includes userSegment.region = false := by
      rw [← Bool.not_eq_true, list_includes_iff]
      exact hn
    unfold evaluateFeatureFlag
    simp [hen, hl, Scope.truthy, hinc, strictNeFreshArray]
  · intro flagName config userId userSegment forcedVariant ys hen hp hl hn
    have hc := ruleRestricts_of_passes hp
    unfold ruleRestricts at hc
    unfold evaluateFeatureFlag
    simp only [hen, hc, Bool.not_true, Bool.false_eq_true, if_false]
    simp [hl, Scope.truthy, Scope.includes, strictNeFreshArray, hn]
  · intro xs region
    refine ⟨?_, by simp [passesRule, Scope.truthy]⟩
    rw [← list_includes_iff]
    simp [passesRule, Scope.truthy]
  · intro flagName userId forcedVariant
    unfold evaluateFeatureFlag
    have h1 : europeOnly.enabled = true := rfl
    have h2 : (europeOnly.countries.truthy && strictNeFreshArray europeOnly.countries [js "all"]
        && !europeOnly.countries.includes asiaSegment.region) = true := by decide
    simp only [h1, h2, Bool.not_true, Bool.false_eq_true, if_false, if_true]
  · intro text region
    cases text with
    | nil => simp [passesRule, Scope.truthy]
    | cons c cs => simp [passesRule, Scope.truthy, Scope.includes]
  · intro flagName userId forcedVariant
    unfold evaluateFeatureFlag
    have h1 : sentinelCountries.enabled = true := rfl
    have h2 : (sentinelCountries.countries.truthy
        && strictNeFreshArray sentinelCountries.countries [js "all"]
        && !sentinelCountries.countries.includes sampleSegment.region) = true := by decide
    simp only [h1, h2, Bool.not_true, Bool.false_eq_true, if_false, if_true]

/-- Witness of C5: the scenario of the specification for the country rule, and
a `premium`-only flag met by a `basic` visitor for the tier rule. -/
theorem scope_rules_in_order_witness :
    evaluateFeatureFlag (js "beta") europeOnly (js "user_1") asiaSegment none
        = ⟨false, some (js "disabled"), .country_restricted, none, none⟩ ∧
    evaluateFeatureFlag (js "beta")
        { regionalDarkMode with userGroups := .list [js "premium"] } (js "user_1")
        sampleSegment (some (js "dark"))
      = ⟨false, some (js "disabled"), .tier_restricted, none, none⟩ :=
  ⟨scope_rules_in_order.1 (js "beta") europeOnly (js "user_1") asiaSegment none [js "europe"]
      rfl rfl (by decide),
    scope_rules_in_order.2.1 (js "beta")
      { regionalDarkMode with userGroups := .list [js "premium"] } (js "user_1")
      sampleSegment (some (js "dark")) [js "premium"] rfl (by decide) rfl (by decide)⟩

/-- C6, evaluated on the code: the configured flag `aiChatbot` writes both
scopes as the wildcard `['all']`, and a visitor from `north_america` is
nevertheless refused with `country_restricted`, whatever the flag name,
identifier and forced variant; the same holds when the wildcard is written as
the string `"all"`. Once the country scope lists the region, the wildcard
`['all']` of `userGroups` refuses the `basic` visitor with `tier_restricted`. -/
theorem wildcard_country_restricted :
    (∀ (flagName userId : JSString) (forcedVariant : Option JSString),
      evaluateFeatureFlag flagName aiChatbot userId sampleSegment forcedVariant
        = ⟨false, some (js "disabled"), .country_restricted, none, none⟩) ∧
    (∀ (flagName userId : JSString) (forcedVariant : Option JSString),
      evaluateFeatureFlag flagName { aiChatbot with countries := .text (js "all") } userId
          sampleSegment forcedVariant
        = ⟨false, some (js "disabled"), .country_restricted, none, none⟩) ∧
    (∀ (flagName userId : JSString) (forcedVariant : Option JSString),
      evaluateFeatureFlag flagName { aiChatbot with countries := .list [js "north_america"] }
          userId sampleSegment forcedVariant
        = ⟨false, some (js "disabled"), .tier_restricted, none, none⟩) := by
  refine ⟨?_, ?_, ?_⟩
  · intro flagName userId forcedVariant
    unfold evaluateFeatureFlag
    have h1 : aiChatbot.enabled = true := rfl
    have h2 : (aiChatbot.countries.truthy && strictNeFreshArray aiChatbot.countries [js "all"]
        && !aiChatbot.countries.includes sampleSegment.region) = true := by decide
    simp only [h1, h2, Bool.not_true, Bool.false_eq_true, if_false, if_true]
  · intro flagName userId forcedVariant
    unfold evaluateFeatureFlag
    have h2 : ((Scope.text (js "all")).truthy && strictNeFreshArray (Scope.text (js "all")) [js "all"]
        && !(Scope.text (js "all")).includes sampleSegment.region) = true := by decide
    have h1 : aiChatbot.enabled = true := rfl
    simp only [h1, h2, Bool.not_true, Bool.false_eq_true, if_false, if_true]
  · intro flagName userId forcedVariant
    unfold evaluateFeatureFlag
    have h1 : aiChatbot.enabled = true := rfl
    have h2 : ((Scope.list [js "north_america"]).truthy
        && strictNeFreshArray (Scope.list [js "north_america"]) [js "all"]
        && !(Scope.list [js "north_america"]).includes sampleSegment.region) = false := by decide
    have h3 : (aiChatbot.userGroups.truthy && strictNeFreshArray aiChatbot.userGroups [js "all"]
        && !aiChatbot.userGroups.includes (.str sampleSegment.tier)) = true := by decide
    simp only [h1, h2, h3, Bool.not_true, Bool.false_eq_true, if_false, if_true]

/-- C7: a flag whose `enabled` is false yields exactly
`{enabled: false, variant: 'disabled', reason: 'globally_disabled'}`, whatever
the flag name, identifier, segment, rollout, scopes and forced variant. -/
theorem globally_disabled_decision (flagName : JSString) (config : FlagConfig)
    (userId : JSString) (userSegment : Segment) (forcedVariant : Option JSString)
    (hen : config.enabled = false) :
    evaluateFeatureFlag flagName config userId userSegment forcedVariant
      = ⟨false, some (js "disabled"), .globally_disabled, none, none⟩ := by
  unfold evaluateFeatureFlag
  simp [hen]

/-- Witness of C7: a switched-off flag that would otherwise admit the visitor,
with a forced variant that is one of its variants. -/
theorem globally_disabled_decision_witness :
    evaluateFeatureFlag (js "beta") switchedOff (js "user_1") sampleSegment (some (js "on"))
      = ⟨false, some (js "disabled"), .globally_disabled, none, none⟩ :=
  globally_disabled_decision (js "beta") switchedOff (js "user_1") sampleSegment
    (some (js "on")) rfl

/-- C9: rollout monotonicity. For a fixed flag name, identifier, segment and
forced variant and a configuration that changes only in its rollout, if the
decision at rollout `r1` has reason `rollout_included`, then for every `r2`
with `r1 ≤ r2 ≤ 1` the decision at rollout `r2` has reason `rollout_included`
too, with the same variant and the same `enabled`. -/
theorem rollout_monotone (flagName : JSString) (config : FlagConfig) (userId : JSString)
    (userSegment : Segment) (forcedVariant : Option JSString) (r1 r2 : ℚ)
    (h12 : r1 ≤ r2) (_h21 : r2 ≤ 1)
    (hr : (evaluateFeatureFlag flagName { config with rollout := r1 } userId userSegment
      forcedVariant).reason = .rollout_included) :
    (evaluateFeatureFlag flagName { config with rollout := r2 } userId userSegment
        forcedVariant).reason = .rollout_included ∧
      (evaluateFeatureFlag flagName { config with rollout := r2 } userId userSegment
        forcedVariant).variant
        = (evaluateFeatureFlag flagName { config with rollout := r1 } userId userSegment
          forcedVariant).variant ∧
      (evaluateFeatureFlag flagName { config with rollout := r2 } userId userSegment
        forcedVariant).enabled
        = (evaluateFeatureFlag flagName { config with rollout := r1 } userId userSegment
          forcedVariant).enabled := by
  obtain ⟨hen, hc, ht, hf, hlt⟩ :=
    included_inv flagName { config with rollout := r1 } userId userSegment forcedVariant hr
  have hnn : (0 : ℚ) ≤ ((Int.tmod (simpleHash (userId ++ flagName)) 100 : ℤ) : ℚ) := by
    exact_mod_cast remainder_nonneg (userId ++ flagName)
  have hpos : 0 < r1 * 100 := by
    by_contra hle
    have := roundDouble_nonpos (not_lt.1 hle)
    have hlt2 : ((Int.tmod (simpleHash (userId ++ flagName)) 100 : ℤ) : ℚ) < roundDouble (r1 * 100) :=
      hlt
    linarith
  have hmono : jsMul r1 100 ≤ jsMul r2 100 :=
    roundDouble_mono_pos hpos (by linarith)
  have hlt2 : ((Int.tmod (simpleHash (userId ++ flagName)) 100 : ℤ) : ℚ) < jsMul r2 100 :=
    lt_of_lt_of_le hlt hmono
  rw [evaluateFeatureFlag_rollout_stage flagName { config with rollout := r1 } userId userSegment
      forcedVariant hen hc ht hf,
    evaluateFeatureFlag_rollout_stage flagName { config with rollout := r2 } userId userSegment
      forcedVariant hen hc ht hf]
  rw [if_neg (not_le_of_lt hlt), if_neg (not_le_of_lt hlt2)]
  exact ⟨rfl, rfl, rfl⟩

/-- Witness of C9: visitor `user_3` (remainder 48) is included in `darkMode`
at rollout 0.5 and stays included at rollout 0.75. -/
theorem rollout_monotone_witness :
    (evaluateFeatureFlag (js "darkMode") { regionalDarkMode with rollout := 3 / 4 } (js "user_3")
        sampleSegment none).reason = .rollout_included ∧
      (evaluateFeatureFlag (js "darkMode") { regionalDarkMode with rollout := 3 / 4 } (js "user_3")
        sampleSegment none).variant
        = (evaluateFeatureFlag (js "darkMode") { regionalDarkMode with rollout := 1 / 2 }
          (js "user_3") sampleSegment none).variant ∧
      (evaluateFeatureFlag (js "darkMode") { regionalDarkMode with rollout := 3 / 4 } (js "user_3")
        sampleSegment none).enabled
        = (evaluateFeatureFlag (js "darkMode") { regionalDarkMode with rollout := 1 / 2 }
          (js "user_3") sampleSegment none).enabled :=
  rollout_monotone (js "darkMode") regionalDarkMode (js "user_3") sampleSegment none (1 / 2)
    (3 / 4) (by norm_num) (by norm_num) (by rw [half_rollout_user_3]; rfl)

/-- C10: an enabled flag with rollout 1.0 that passes the country and tier
rules and is not forced has reason `rollout_included` for every identifier
and flag name, never `rollout_excluded`: the threshold is exactly 100 and the
remainder `simpleHash(...) % 100` lies in 0..99. -/
theorem full_rollout_included (flagName : JSString) (config : FlagConfig) (userId : JSString)
    (userSegment : Segment) (forcedVariant : Option JSString)
    (hro : config.rollout = 1) (hen : config.enabled = true)
    (hc : passesRule config.countries userSegment.region)
    (ht : passesRule config.userGroups (.str userSegment.tier))
    (hf : ∀ v, forcedVariant = some v → v ∉ config.variants) :
    (evaluateFeatureFlag flagName config userId userSegment forcedVariant).reason
        = .rollout_included ∧
      (evaluateFeatureFlag flagName config userId userSegment forcedVariant).reason
        ≠ .rollout_excluded ∧
      jsMul config.rollout 100 = 100 ∧
      0 ≤ Int.tmod (simpleHash (userId ++ flagName)) 100 ∧
      Int.tmod (simpleHash (userId ++ flagName)) 100 < 100 := by
  have hlt : ((Int.tmod (simpleHash (userId ++ flagName)) 100 : ℤ) : ℚ) < jsMul config.rollout 100 := by
    rw [hro, jsMul_one_hundred]
    exact_mod_cast remainder_lt (userId ++ flagName)
  rw [evaluateFeatureFlag_rollout_stage flagName config userId userSegment forcedVariant hen
    (ruleRestricts_of_passes hc) (ruleRestricts_of_passes ht) (forcedApplies_of_not_member hf),
    if_neg (not_le_of_lt hlt)]
  refine ⟨rfl, by simp [includedDecision], ?_, remainder_nonneg _, remainder_lt _⟩
  rw [hro, jsMul_one_hundred]

/-- Witness of C10: visitor `user_1`, flag `darkMode` at rollout 1.0. -/
theorem full_rollout_included_witness :
    (evaluateFeatureFlag (js "darkMode") regionalDarkMode (js "user_1") sampleSegment none).reason
        = .rollout_included ∧
      (evaluateFeatureFlag (js "darkMode") regionalDarkMode (js "user_1") sampleSegment
        none).reason ≠ .rollout_excluded ∧
      jsMul regionalDarkMode.rollout 100 = 100 ∧
      0 ≤ Int.tmod (simpleHash (js "user_1" ++ js "darkMode")) 100 ∧
      Int.tmod (simpleHash (js "user_1" ++ js "darkMode")) 100 < 100 :=
  full_rollout_included (js "darkMode") regionalDarkMode (js "user_1") sampleSegment none rfl rfl
    (by decide) (by decide) (fun _ h => Option.noConfusion h)

/-- Counterexample to C11 as stated: a flag with an empty `variants` list that
reaches the variant selection returns a decision, with `variant` undefined and
`enabled` true; nothing is thrown. -/
theorem empty_variants_counterexample :
    noVariants.variants = [] ∧
    evaluateFeatureFlag (js "beta") noVariants (js "user_1") sampleSegment none
      = ⟨true, none, .rollout_included, some 1, some (js "desktop_north_america_basic")⟩ := by
  refine ⟨rfl, ?_⟩
  rw [evaluateFeatureFlag_rollout_stage _ _ _ _ _ rfl (by decide) (by decide) (by decide)]
  have hlt : ((Int.tmod (simpleHash (js "user_1" ++ js "beta")) 100 : ℤ) : ℚ)
      < jsMul noVariants.rollout 100 := by
    have : noVariants.rollout = 1 := rfl
    rw [this, jsMul_one_hundred]
    exact_mod_cast remainder_lt _
  rw [if_neg (not_le_of_lt hlt)]
  rfl

/-- C11, amended: when a configuration with an empty `variants` list reaches
the variant selection (enabled, unrestricted, inside the rollout; no variant
can be forced on it), the evaluation does not fail: `userHash % 0` is `NaN`,
`config.variants[NaN]` is `undefined`, and the decision returned is
`{enabled: true, variant: undefined, reason: 'rollout_included'}` with the
rollout and the primary segment. -/
theorem empty_variants_decision (flagName : JSString) (config : FlagConfig) (userId : JSString)
    (userSegment : Segment) (forcedVariant : Option JSString)
    (hv : config.variants = []) (hen : config.enabled = true)
    (hc : passesRule config.countries userSegment.region)
    (ht : passesRule config.userGroups (.str userSegment.tier))
    (hlt : ((Int.tmod (simpleHash (userId ++ flagName)) 100 : ℤ) : ℚ)
      < jsMul config.rollout 100) :
    evaluateFeatureFlag flagName config userId userSegment forcedVariant
      = ⟨true, none, .rollout_included, some config.rollout, some userSegment.primary⟩ := by
  have hf : forcedApplies config forcedVariant = false :=
    forcedApplies_of_not_member (fun v _ => by rw [hv]; exact List.not_mem_nil v)
  rw [evaluateFeatureFlag_rollout_stage flagName config userId userSegment forcedVariant hen
    (ruleRestricts_of_passes hc) (ruleRestricts_of_passes ht) hf, if_neg (not_le_of_lt hlt)]
  simp [includedDecision, hv, jsRem, jsIndex]

/-- Witness of C11 as amended: the flag without variants, with a forced
variant in the request. -/
theorem empty_variants_decision_witness :
    evaluateFeatureFlag (js "beta") noVariants (js "user_1") sampleSegment (some (js "on"))
      = ⟨true, none, .rollout_included, some noVariants.rollout,
          some sampleSegment.primary⟩ :=
  empty_variants_decision (js "beta") noVariants (js "user_1") sampleSegment (some (js "on"))
    rfl rfl (by decide) (by decide)
    (by
      have : noVariants.rollout = 1 := rfl
      rw [this, jsMul_one_hundred]
      exact_mod_cast remainder_lt _)

/-- C14: with `r = simpleHash(id) % 100`, `getTierSegment` returns
`enterprise` iff `r` is in `[0,5)`, `premium` iff in `[5,20)`, `standard` iff
in `[20,50)` and `basic` iff in `[50,100)`; the tier returned is the name of a
bucket that claims `r`, and each remainder 0..99 is claimed by exactly one of
the four buckets. -/
theorem tier_buckets (userId : JSString) :
    (getTierSegment userId = js "enterprise" ↔
      0 ≤ Int.tmod (simpleHash userId) 100 ∧ Int.tmod (simpleHash userId) 100 < 5) ∧
    (getTierSegment userId = js "premium" ↔
      5 ≤ Int.tmod (simpleHash userId) 100 ∧ Int.tmod (simpleHash userId) 100 < 20) ∧
    (getTierSegment userId = js "standard" ↔
      20 ≤ Int.tmod (simpleHash userId) 100 ∧ Int.tmod (simpleHash userId) 100 < 50) ∧
    (getTierSegment userId = js "basic" ↔
      50 ≤ Int.tmod (simpleHash userId) 100 ∧ Int.tmod (simpleHash userId) 100 < 100) ∧
    (∃ b ∈ tierBuckets, claims b (Int.tmod (simpleHash userId) 100) = true ∧
      getTierSegment userId = b.2.2) ∧
    (∀ r : Fin 100, (tierBuckets.filter fun b => claims b (r.val : Int)).length = 1) := by
  have h0 := remainder_nonneg userId
  have h1 := remainder_lt userId
  have e1 : js "premium" ≠ js "enterprise" := by decide
  have e2 : js "standard" ≠ js "enterprise" := by decide
  have e3 : js "basic" ≠ js "enterprise" := by decide
  have e4 : js "standard" ≠ js "premium" := by decide
  have e5 : js "basic" ≠ js "premium" := by decide
  have e6 : js "basic" ≠ js "standard" := by decide
  refine ⟨?_, ?_, ?_, ?_, ?_, by decide⟩
  · unfold getTierSegment
    simp only []
    split_ifs <;> simp [e1, e2, e3] <;> omega
  · unfold getTierSegment
    simp only []
    split_ifs <;> simp [e1.symm, e4, e5] <;> omega
  · unfold getTierSegment
    simp only []
    split_ifs <;> simp [e2.symm, e4.symm, e6] <;> omega
  · unfold getTierSegment
    simp only []
    split_ifs <;> simp [e3.symm, e5.symm, e6.symm] <;> omega
  · unfold getTierSegment tierBuckets claims
    simp only []
    split_ifs with a b c
    · exact ⟨_, List.mem_cons_self _ _, by simp; omega, rfl⟩
    · exact ⟨_, List.mem_cons_of_mem _ (List.mem_cons_self _ _), by simp; omega, rfl⟩
    · exact ⟨_, List.mem_cons_of_mem _ (List.mem_cons_of_mem _ (List.mem_cons_self _ _)),
        by simp; omega, rfl⟩
    · exact ⟨(50, 100, js "basic"), by simp, by simp; omega, rfl⟩

/-- C15: `simpleHash` is non-negative, so `simpleHash(s) % 100` lies in 0..99
and `simpleHash(s) % 4` in 0..3; the index into the four behaviors is never
out of range. -/
theorem simpleHash_remainders (s : JSString) :
    0 ≤ simpleHash s ∧
    (0 ≤ Int.tmod (simpleHash s) 100 ∧ Int.tmod (simpleHash s) 100 < 100) ∧
    (0 ≤ Int.tmod (simpleHash s) 4 ∧ Int.tmod (simpleHash s) 4 < 4) ∧
    (∃ b ∈ behaviors, getBehaviorSegment s = some b) := by
  refine ⟨simpleHash_nonneg s, ⟨remainder_nonneg s, remainder_lt s⟩,
    ⟨Int.tmod_nonneg _ (simpleHash_nonneg s), Int.tmod_lt_of_pos _ (by norm_num)⟩, ?_⟩
  obtain ⟨hidx, hlt⟩ := jsIndex_jsRem behaviors (simpleHash s) (by decide) (simpleHash_nonneg s)
  unfold getBehaviorSegment
  simp only []
  rw [hidx, List.getElem?_eq_getElem hlt]
  exact ⟨_, List.getElem_mem _, rfl⟩

/-! ## Lookups and the regular expression of the device test -/

theorem lookupOr_cases (memberText : JSString → JSString) (table : List (JSString × JSValue))
    (key : JSString) (fallback : JSValue) :
    key ∈ table.map Prod.fst ∨ key ∈ objectPrototypeKeys ∨
      lookupOr memberText table key fallback = fallback := by
  by_cases h1 : key ∈ table.map Prod.fst
  · exact Or.inl h1
  · by_cases h2 : key ∈ objectPrototypeKeys
    · exact Or.inr (Or.inl h2)
    · refine Or.inr (Or.inr ?_)
      have hnone : table.lookup key = none := by
        rw [List.lookup_eq_none_iff]
        intro p hp
        have hne : key ≠ p.1 := fun e => h1 (List.mem_map.2 ⟨p, hp, e.symm⟩)
        simpa using hne
      simp [lookupOr, getProperty, hnone, h2]

theorem lookupOr_inherited (memberText : JSString → JSString)
    (table : List (JSString × JSValue)) (key : JSString) (fallback : JSValue)
    (h1 : table.lookup key = none) (h2 : key ∈ objectPrototypeKeys) :
    lookupOr memberText table key fallback = .object (memberText key) := by
  simp [lookupOr, getProperty, h1, h2]

theorem lookupOr_own (memberText : JSString → JSString) (table : List (JSString × JSValue))
    (key : JSString) (fallback v : JSValue)
    (h1 : table.lookup key = some v) (h2 : v.truthy = true) :
    lookupOr memberText table key fallback = v := by
  simp [lookupOr, getProperty, h1, h2]

/-- Every key of a table yields its own entry when the entries are truthy and
no key is listed twice. -/
theorem lookupOr_entries (memberText : JSString → JSString)
    (table : List (JSString × JSValue)) (fallback : JSValue)
    (h : (table.all fun p => table.lookup p.1 == some p.2 && p.2.truthy) = true) :
    table.map (fun p => lookupOr memberText table p.1 fallback) = table.map Prod.snd := by
  apply List.map_congr_left
  intro p hp
  have := List.all_eq_true.1 h p hp
  simp only [Bool.and_eq_true, beq_iff_eq] at this
  exact lookupOr_own memberText table p.1 fallback p.2 this.1 this.2

theorem asciiLower_canonicalize (c : CodeUnit) : asciiLower (canonicalize c) = asciiLower c := by
  unfold asciiLower canonicalize
  apply Fin.ext
  have hc := c.isLt
  split_ifs <;> simp [Fin.ofNat] at * <;> omega

theorem canonicalize_asciiLower (c : CodeUnit) :
    canonicalize (asciiLower c) = canonicalize c := by
  unfold asciiLower canonicalize
  apply Fin.ext
  have hc := c.isLt
  split_ifs <;> simp [Fin.ofNat] at * <;> omega

theorem infix_canonicalize_iff (a s : JSString) :
    a.map canonicalize <:+: s.map canonicalize ↔ a.map asciiLower <:+: s.map asciiLower := by
  constructor
  · intro h
    have := List.IsInfix.map asciiLower h
    simpa [List.map_map, Function.comp_def, asciiLower_canonicalize] using this
  · intro h
    have := List.IsInfix.map canonicalize h
    simpa [List.map_map, Function.comp_def, canonicalize_asciiLower] using this

theorem matchesAt_iff (p s : JSString) :
    matchesAt p s = true ↔ p.map canonicalize <+: s.map canonicalize := by
  induction p generalizing s with
  | nil => simp [matchesAt]
  | cons x xs ih =>
    cases s with
    | nil => simp [matchesAt]
    | cons c cs => simp [matchesAt, ih]

theorem regexTest_iff (alternatives : List JSString) (s : JSString) :
    regexTest alternatives s = true ↔
      ∃ a ∈ alternatives, a.map canonicalize <:+: s.map canonicalize := by
  induction s with
  | nil =>
    simp only [regexTest, List.any_eq_true, matchesAt_iff, List.map_nil, List.prefix_nil,
      List.infix_nil]
  | cons c cs ih =>
    simp only [regexTest, Bool.or_eq_true, List.any_eq_true, matchesAt_iff, ih]
    constructor
    · rintro (⟨a, ha, h⟩ | ⟨a, ha, h⟩)
      · exact ⟨a, ha, List.infix_cons_iff.2 (Or.inl h)⟩
      · exact ⟨a, ha, List.infix_cons_iff.2 (Or.inr h)⟩
    · rintro ⟨a, ha, h⟩
      rcases List.infix_cons_iff.1 h with h | h
      · exact Or.inl ⟨a, ha, h⟩
      · exact Or.inr ⟨a, ha, h⟩

theorem regexTest_iff_containsIgnoreCase (alternatives : List JSString) (s : JSString) :
    regexTest alternatives s = true ↔ ∃ a ∈ alternatives, containsIgnoreCase s a := by
  rw [regexTest_iff]
  unfold containsIgnoreCase
  constructor
  · rintro ⟨a, ha, h⟩
    exact ⟨a, ha, (infix_canonicalize_iff a s).1 h⟩
  · rintro ⟨a, ha, h⟩
    exact ⟨a, ha, (infix_canonicalize_iff a s).2 h⟩

/-- Desktop visitor `user_1` from the US: the segment used in the examples is
the one `getUserSegment` computes. -/
theorem getUserSegment_user_1 (memberText : JSString → JSString) :
    getUserSegment memberText (js "user_1") (js "US") (js "") = sampleSegment := by
  have hr : getRegionSegment memberText (js "US") = .str (js "north_america") :=
    lookupOr_own memberText regions (js "US") _ _ (by decide) (by decide)
  have ht : getTierSegment (js "user_1") = js "basic" := by decide
  have hb : getBehaviorSegment (js "user_1") = some (js "new_user") := by decide
  have hd : regexTest mobilePattern (js "") = false := by decide
  unfold getUserSegment
  simp only [hr, ht, hb, hd]
  decide

/-- C16, evaluated on the code: the 17 listed country codes are mapped as the
claim says, every other string that is not the name of a member of
`Object.prototype` gives `global`, and the country string `constructor`, which
is none of the 17 codes, does not give `global`: `regions['constructor']` is
the inherited member, a truthy object, and it is returned as it is. -/
theorem region_lookup (memberText : JSString → JSString) :
    [js "US", js "CA"].map (getRegionSegment memberText)
      = [.str (js "north_america"), .str (js "north_america")] ∧
    [js "GB", js "FR", js "DE"].map (getRegionSegment memberText)
      = [.str (js "europe"), .str (js "europe"), .str (js "europe")] ∧
    [js "JP", js "KR", js "CN", js "SG", js "HK", js "TH", js "VN", js "MY", js "ID",
        js "PH"].map (getRegionSegment memberText)
      = List.replicate 10 (.str (js "asia_pacific")) ∧
    [js "AU", js "NZ"].map (getRegionSegment memberText)
      = [.str (js "oceania"), .str (js "oceania")] ∧
    (∀ country : JSString, country ∈ regions.map Prod.fst ∨ country ∈ objectPrototypeKeys ∨
      getRegionSegment memberText country = .str (js "global")) ∧
    js "constructor" ∉ regions.map Prod.fst ∧
    getRegionSegment memberText (js "constructor") = .object (memberText (js "constructor")) ∧
    getRegionSegment memberText (js "constructor") ≠ .str (js "global") := by
  have own : ∀ (k : JSString) (v : JSValue), regions.lookup k = some v → v.truthy = true →
      getRegionSegment memberText k = v :=
    fun k v h1 h2 => lookupOr_own memberText regions k _ v h1 h2
  have hc : getRegionSegment memberText (js "constructor")
      = .object (memberText (js "constructor")) :=
    lookupOr_inherited memberText regions _ _ (by decide) (by decide)
  refine ⟨?_, ?_, ?_, ?_, fun country => lookupOr_cases memberText regions country _,
    by decide, hc, by rw [hc]; exact fun h => JSValue.noConfusion h⟩
  · simp only [List.map]
    rw [own (js "US") (.str (js "north_america")) (by decide) (by decide),
      own (js "CA") (.str (js "north_america")) (by decide) (by decide)]
  · simp only [List.map]
    rw [own (js "GB") (.str (js "europe")) (by decide) (by decide),
      own (js "FR") (.str (js "europe")) (by decide) (by decide),
      own (js "DE") (.str (js "europe")) (by decide) (by decide)]
  · simp only [List.map, List.replicate]
    rw [own (js "JP") (.str (js "asia_pacific")) (by decide) (by decide),
      own (js "KR") (.str (js "asia_pacific")) (by decide) (by decide),
      own (js "CN") (.str (js "asia_pacific")) (by decide) (by decide),
      own (js "SG") (.str (js "asia_pacific")) (by decide) (by decide),
      own (js "HK") (.str (js "asia_pacific")) (by decide) (by decide),
      own (js "TH") (.str (js "asia_pacific")) (by decide) (by decide),
      own (js "VN") (.str (js "asia_pacific")) (by decide) (by decide),
      own (js "MY") (.str (js "asia_pacific")) (by decide) (by decide),
      own (js "ID") (.str (js "asia_pacific")) (by decide) (by decide),
      own (js "PH") (.str (js "asia_pacific")) (by decide) (by decide)]
  · simp only [List.map]
    rw [own (js "AU") (.str (js "oceania")) (by decide) (by decide),
      own (js "NZ") (.str (js "oceania")) (by decide) (by decide)]

/-- C17: the device of the segment is `mobile` if and only if the user-agent
contains, compared case-insensitively, one of `Mobile`, `Android`, `iPhone`,
`iPad`, and it is `desktop` otherwise; the empty user-agent is `desktop`. -/
theorem device_mobile_iff (memberText : JSString → JSString)
    (userId country userAgent : JSString) :
    ((getUserSegment memberText userId country userAgent).device = js "mobile" ↔
      ∃ word ∈ [js "Mobile", js "Android", js "iPhone", js "iPad"],
        containsIgnoreCase userAgent word) ∧
    ((getUserSegment memberText userId country userAgent).device = js "desktop" ↔
      ¬ ∃ word ∈ [js "Mobile", js "Android", js "iPhone", js "iPad"],
        containsIgnoreCase userAgent word) ∧
    (getUserSegment memberText userId country (js "")).device = js "desktop" := by
  have hne : js "desktop" ≠ js "mobile" := by decide
  have hdev : ∀ ua : JSString, (getUserSegment memberText userId country ua).device
      = if regexTest mobilePattern ua then js "mobile" else js "desktop" := fun _ => rfl
  have hiff : regexTest mobilePattern userAgent = true ↔
      ∃ word ∈ [js "Mobile", js "Android", js "iPhone", js "iPad"],
        containsIgnoreCase userAgent word :=
    regexTest_iff_containsIgnoreCase mobilePattern userAgent
  refine ⟨?_, ?_, ?_⟩
  · rw [hdev, ← hiff]
    cases h : regexTest mobilePattern userAgent <;> simp [hne]
  · rw [hdev, ← hiff]
    cases h : regexTest mobilePattern userAgent <;> simp [hne.symm]
  · rw [hdev]
    have : regexTest mobilePattern (js "") = false := by decide
    rw [this]
    rfl

/-- C18: for every identifier, country and user-agent the behavior of the
segment is the element at index `simpleHash(userId) % 4` of
`[early_adopter, power_user, casual_user, new_user]`, and its primary key is
`device + '_' + region + '_' + tier` over the device, region and tier of the
same record. -/
theorem segment_behavior_primary (memberText : JSString → JSString)
    (userId country userAgent : JSString) :
    (getUserSegment memberText userId country userAgent).behavior
      = [js "early_adopter", js "power_user", js "casual_user",
          js "new_user"][(simpleHash userId % 4).toNat]? ∧
    (simpleHash userId % 4).toNat < 4 ∧
    (getUserSegment memberText userId country userAgent).primary
      = (getUserSegment memberText userId country userAgent).device ++ js "_"
        ++ (getUserSegment memberText userId country userAgent).region.toText ++ js "_"
        ++ (getUserSegment memberText userId country userAgent).tier := by
  obtain ⟨hidx, hlt⟩ :=
    jsIndex_jsRem behaviors (simpleHash userId) (by decide) (simpleHash_nonneg userId)
  refine ⟨?_, hlt, ?_⟩
  · exact hidx
  · simp [getUserSegment, jsPlus, JSValue.toText]

theorem lookupBehaviour_lookupOr (table : List (JSString × JSValue)) (fallback : JSValue)
    (h : (table.all fun p => table.lookup p.1 == some p.2 && p.2.truthy) = true)
    (hc : table.lookup (js "constructor") = none)
    (hf : ∀ text, fallback ≠ .object text) :
    lookupBehaviour (fun memberText key => lookupOr memberText table key fallback) table
      fallback := by
  intro memberText
  have hi := lookupOr_inherited memberText table (js "constructor") fallback hc (by decide)
  refine ⟨lookupOr_entries memberText table fallback h,
    fun key => lookupOr_cases memberText table key fallback, ?_, hi, ?_⟩
  · intro hmem
    obtain ⟨p, hp, hk⟩ := List.mem_map.1 hmem
    have := List.lookup_eq_none_iff.1 hc p hp
    simp [hk] at this
  · simp only []
    rw [hi]
    exact fun e => hf _ e.symm

/-- C20, evaluated on the code: each personalization lookup returns its table
entry for a listed key and its documented default for every key that is
neither listed nor the name of a member of `Object.prototype`; for the key
`constructor`, absent from all seven tables, each of them returns the
inherited member instead of the default. -/
theorem personalization_lookups :
    lookupBehaviour getCurrency currencyMap (.str (js "USD")) ∧
    lookupBehaviour getDateFormat dateFormatMap (.str (js "MM/DD/YYYY")) ∧
    lookupBehaviour getServerRegion regionMap (.str (js "iad1")) ∧
    lookupBehaviour getPaymentMethods paymentMap (.arr [js "stripe", js "paypal"]) ∧
    lookupBehaviour getSupportedLanguages languageMap (.arr [js "en"]) ∧
    lookupBehaviour getComplianceFeatures complianceMap (.arr []) ∧
    lookupBehaviour getRegionalIntegrations integrationMap
      (.arr [js "zoom", js "teams", js "slack"]) :=
  ⟨lookupBehaviour_lookupOr currencyMap _ (by decide) (by decide)
      (fun _ h => JSValue.noConfusion h),
    lookupBehaviour_lookupOr dateFormatMap _ (by decide) (by decide)
      (fun _ h => JSValue.noConfusion h),
    lookupBehaviour_lookupOr regionMap _ (by decide) (by decide)
      (fun _ h => JSValue.noConfusion h),
    lookupBehaviour_lookupOr paymentMap _ (by decide) (by decide)
      (fun _ h => JSValue.noConfusion h),
    lookupBehaviour_lookupOr languageMap _ (by decide) (by decide)
      (fun _ h => JSValue.noConfusion h),
    lookupBehaviour_lookupOr complianceMap _ (by decide) (by decide)
      (fun _ h => JSValue.noConfusion h),
    lookupBehaviour_lookupOr integrationMap _ (by decide) (by decide)
      (fun _ h => JSValue.noConfusion h)⟩

/-! ## The loop of `getABTestResults` -/

theorem runningTotal_eq (weights : List ℚ) (i : Nat) (w : ℚ) (hw : weights[i]? = some w) :
    runningTotal weights i
      = jsAdd ((weights.take i).foldl (fun acc w => jsAdd acc (jsMul w 100)) 0)
          (jsMul w 100) := by
  unfold runningTotal
  rw [List.take_succ, hw]
  simp [List.foldl_append]

/-- Invariant of the loop: entered at index `i` with the total of the weights
before `i`, and no earlier bucket above the remainder, it returns the first
bucket whose running total exceeds the remainder, or the fallback. -/
theorem abTestLoop_spec (testName : JSString) (weights : List ℚ) (h : Int) (primary : JSString)
    (variants : List JSString) (hlen : variants.length ≤ weights.length) :
    ∀ (rest : List JSString) (i : Nat), variants.drop i = rest →
      (∀ j < i, ¬ (h : ℚ) < runningTotal weights j) →
      (∃ k v w, variants[k]? = some v ∧ weights[k]? = some w ∧
          (h : ℚ) < runningTotal weights k ∧ (∀ j < k, ¬ (h : ℚ) < runningTotal weights j) ∧
          abTestLoop testName weights h primary rest i
              (some ((weights.take i).foldl (fun acc w => jsAdd acc (jsMul w 100)) 0))
            = ⟨testName, v, some w, some primary, none⟩) ∨
        ((∀ k < variants.length, ¬ (h : ℚ) < runningTotal weights k) ∧
          abTestLoop testName weights h primary rest i
              (some ((weights.take i).foldl (fun acc w => jsAdd acc (jsMul w 100)) 0))
            = ⟨testName, js "control", none, none, some .fallback⟩) := by
  intro rest
  induction rest with
  | nil =>
    intro i hdrop hprev
    right
    have hle : variants.length ≤ i := List.drop_eq_nil_iff.1 hdrop
    exact ⟨fun k hk => hprev k (lt_of_lt_of_le hk hle), rfl⟩
  | cons v rest ih =>
    intro i hdrop hprev
    have hi : i < variants.length := by
      by_contra hge
      rw [List.drop_eq_nil_of_le (not_lt.1 hge)] at hdrop
      exact List.noConfusion hdrop
    rw [List.drop_eq_getElem_cons hi] at hdrop
    have hv : variants[i] = v := (List.cons.inj hdrop).1
    have hrest : variants.drop (i + 1) = rest := (List.cons.inj hdrop).2
    have hiw : i < weights.length := lt_of_lt_of_le hi hlen
    have hw : weights[i]? = some weights[i] := List.getElem?_eq_getElem hiw
    have ht := runningTotal_eq weights i weights[i] hw
    unfold abTestLoop
    simp only [hw]
    rw [← ht]
    by_cases hlt : (h : ℚ) < runningTotal weights i
    · left
      refine ⟨i, v, weights[i], ?_, hw, hlt, hprev, ?_⟩
      · rw [List.getElem?_eq_getElem hi, hv]
      · simp only [hlt, if_true]
    · simp only [hlt, if_false]
      have hprev2 : ∀ j < i + 1, ¬ (h : ℚ) < runningTotal weights j := by
        intro j hj
        rcases Nat.lt_succ_iff_lt_or_eq.1 hj with hj | hj
        · exact hprev j hj
        · rw [hj]; exact hlt
      have := ih (i + 1) hrest hprev2
      unfold runningTotal at this ⊢
      exact this

theorem lookup_mem {α : Type} (table : List (JSString × α)) (key : JSString) (a : α)
    (h : table.lookup key = some a) : ∃ k, (k, a) ∈ table := by
  induction table with
  | nil => simp at h
  | cons p ps ih =>
    obtain ⟨k, b⟩ := p
    rw [List.lookup_cons] at h
    split at h
    · exact ⟨k, by simp [Option.some.inj h]⟩
    · obtain ⟨k2, hk⟩ := ih h
      exact ⟨k2, List.mem_cons_of_mem _ hk⟩

theorem tests_lengths (key : JSString) (test : TestConfig) (h : (key, test) ∈ tests) :
    test.variants.length ≤ test.weights.length := by
  simp only [tests, List.mem_cons, Prod.mk.injEq, List.mem_singleton, List.not_mem_nil,
    or_false] at h
  rcases h with ⟨_, rfl⟩ | ⟨_, rfl⟩ | ⟨_, rfl⟩ <;>
    simp [pricingDisplay, homepageLayout, ctaButton]

theorem getABTestResults_own (testName userId : JSString) (userSegment : Segment)
    (test : TestConfig) (h : tests.lookup testName = some test) :
    getABTestResults testName userId userSegment
      = .ok (abTestLoop testName test.weights (Int.tmod (simpleHash (userId ++ testName)) 100)
          userSegment.primary test.variants 0 (some 0)) := by
  simp [getABTestResults, getProperty, h]

theorem getABTestResults_inherited (testName userId : JSString) (userSegment : Segment)
    (h1 : tests.lookup testName = none) (h2 : testName ∈ objectPrototypeKeys) :
    getABTestResults testName userId userSegment = .error .typeError := by
  simp [getABTestResults, getProperty, h1, h2]

theorem getABTestResults_missing (testName userId : JSString) (userSegment : Segment)
    (h1 : tests.lookup testName = none) (h2 : testName ∉ objectPrototypeKeys) :
    getABTestResults testName userId userSegment
      = .ok ⟨testName, js "control", none, none, some .test_not_found⟩ := by
  simp [getABTestResults, getProperty, h1, h2]

theorem lookup_none_of_not_key {α : Type} (table : List (JSString × α)) (key : JSString)
    (h : key ∉ table.map Prod.fst) : table.lookup key = none := by
  rw [List.lookup_eq_none_iff]
  intro p hp
  have hne : key ≠ p.1 := fun e => h (List.mem_map.2 ⟨p, hp, e.symm⟩)
  simpa using hne

/-- C12: for a test name found in the registry, with
`h = simpleHash(userId + testName) % 100` and the running totals
`T_i = sum of weights[j] * 100 for j ≤ i`, the result is
`{test, variant: variants[i], weight: weights[i], segment: primary}` for the
smallest `i` with `h < T_i` (strict: a remainder equal to `T_i` is not in
bucket `i`), and `{test, variant: 'control', reason: 'fallback'}` when no `i`
has `h < T_i`. -/
theorem ab_test_first_bucket (testName : JSString) (test : TestConfig) (userId : JSString)
    (userSegment : Segment) (hfound : tests.lookup testName = some test) :
    (∃ i v w, test.variants[i]? = some v ∧ test.weights[i]? = some w ∧
        ((Int.tmod (simpleHash (userId ++ testName)) 100 : ℤ) : ℚ) < runningTotal test.weights i ∧
        (∀ j < i, ¬ ((Int.tmod (simpleHash (userId ++ testName)) 100 : ℤ) : ℚ)
          < runningTotal test.weights j) ∧
        getABTestResults testName userId userSegment
          = .ok ⟨testName, v, some w, some userSegment.primary, none⟩) ∨
      ((∀ i < test.variants.length, ¬ ((Int.tmod (simpleHash (userId ++ testName)) 100 : ℤ) : ℚ)
          < runningTotal test.weights i) ∧
        getABTestResults testName userId userSegment
          = .ok ⟨testName, js "control", none, none, some .fallback⟩) := by
  obtain ⟨k, hk⟩ := lookup_mem tests testName test hfound
  have hlen := tests_lengths k test hk
  rw [getABTestResults_own testName userId userSegment test hfound]
  have := abTestLoop_spec testName test.weights (Int.tmod (simpleHash (userId ++ testName)) 100)
    userSegment.primary test.variants hlen test.variants 0 rfl (fun j hj => absurd hj (Nat.not_lt_zero j))
  simp only [List.take_zero, List.foldl_nil] at this
  rcases this with ⟨i, v, w, h1, h2, h3, h4, h5⟩ | ⟨h1, h2⟩
  · exact Or.inl ⟨i, v, w, h1, h2, h3, h4, by rw [h5]⟩
  · exact Or.inr ⟨h1, by rw [h2]⟩

/-- Witness of C12: the test `pricing_display` for visitor `user_1`. -/
theorem ab_test_first_bucket_witness :
    (∃ i v w, pricingDisplay.variants[i]? = some v ∧ pricingDisplay.weights[i]? = some w ∧
        ((Int.tmod (simpleHash (js "user_1" ++ js "pricing_display")) 100 : ℤ) : ℚ)
          < runningTotal pricingDisplay.weights i ∧
        (∀ j < i, ¬ ((Int.tmod (simpleHash (js "user_1" ++ js "pricing_display")) 100 : ℤ) : ℚ)
          < runningTotal pricingDisplay.weights j) ∧
        getABTestResults (js "pricing_display") (js "user_1") sampleSegment
          = .ok ⟨js "pricing_display", v, some w, some sampleSegment.primary, none⟩) ∨
      ((∀ i < pricingDisplay.variants.length,
          ¬ ((Int.tmod (simpleHash (js "user_1" ++ js "pricing_display")) 100 : ℤ) : ℚ)
            < runningTotal pricingDisplay.weights i) ∧
        getABTestResults (js "pricing_display") (js "user_1") sampleSegment
          = .ok ⟨js "pricing_display", js "control", none, none, some .fallback⟩) :=
  ab_test_first_bucket (js "pricing_display") pricingDisplay (js "user_1") sampleSegment rfl

/-- C13, evaluated on the code: `nonexistent_test`, and every name that is
neither configured nor the name of a member of `Object.prototype`, gives the
`test_not_found` result; the name `constructor`, which is not a configured
test either, does not: `tests['constructor']` is the inherited member, the
test `!test` lets it through, and reading `test.variants.length` throws a
`TypeError`. -/
theorem unknown_test_lookup :
    (∀ (userId : JSString) (userSegment : Segment),
      getABTestResults (js "nonexistent_test") userId userSegment
        = .ok ⟨js "nonexistent_test", js "control", none, none, some .test_not_found⟩) ∧
    (∀ (testName userId : JSString) (userSegment : Segment),
      testName ∈ [js "homepage_layout", js "pricing_display", js "cta_button"] ∨
        testName ∈ objectPrototypeKeys ∨
        getABTestResults testName userId userSegment
          = .ok ⟨testName, js "control", none, none, some .test_not_found⟩) ∧
    js "constructor" ∉ [js "homepage_layout", js "pricing_display", js "cta_button"] ∧
    (∀ (userId : JSString) (userSegment : Segment),
      getABTestResults (js "constructor") userId userSegment = .error .typeError) := by
  have hkeys : tests.map Prod.fst
      = [js "homepage_layout", js "pricing_display", js "cta_button"] := rfl
  refine ⟨fun userId userSegment => ?_, fun testName userId userSegment => ?_, by decide,
    fun userId userSegment => ?_⟩
  · exact getABTestResults_missing _ _ _
      (lookup_none_of_not_key tests _ (by rw [hkeys]; decide)) (by decide)
  · by_cases h1 : testName ∈ [js "homepage_layout", js "pricing_display", js "cta_button"]
    · exact Or.inl h1
    · by_cases h2 : testName ∈ objectPrototypeKeys
      · exact Or.inr (Or.inl h2)
      · exact Or.inr (Or.inr (getABTestResults_missing _ _ _
          (lookup_none_of_not_key tests _ (by rw [hkeys]; exact h1)) h2))
  · exact getABTestResults_inherited _ _ _
      (lookup_none_of_not_key tests _ (by rw [hkeys]; decide)) (by decide)

/-! ## Decisions of the configured flags -/

theorem lookupOr_value (memberText : JSString → JSString) (table : List (JSString × JSValue))
    (key : JSString) (fallback : JSValue)
    (htruthy : (table.all fun p => p.2.truthy) = true) :
    lookupOr memberText table key fallback ∈ table.map Prod.snd ∨
      (key ∈ objectPrototypeKeys ∧
        lookupOr memberText table key fallback = .object (memberText key)) ∨
      lookupOr memberText table key fallback = fallback := by
  unfold lookupOr getProperty
  cases h : table.lookup key with
  | none =>
    by_cases h2 : key ∈ objectPrototypeKeys
    · simp [h2]
    · simp [h2]
  | some v =>
    obtain ⟨k, hk⟩ := lookup_mem table key v h
    have hv : v.truthy = true := by
      have := List.all_eq_true.1 htruthy (k, v) hk
      simpa using this
    left
    simp only [hv, if_true]
    exact List.mem_map.2 ⟨(k, v), hk, rfl⟩

/-- Region of a segment: one of the five names, or an object. -/
theorem getRegionSegment_values (memberText : JSString → JSString) (country : JSString) :
    getRegionSegment memberText country ∈ regionNames ∨
      (country ∈ objectPrototypeKeys ∧
        getRegionSegment memberText country = .object (memberText country)) := by
  rcases lookupOr_value memberText regions country (.str (js "global")) (by decide)
    with h | h | h
  · left
    have hsub : ∀ v ∈ regions.map Prod.snd, v ∈ regionNames := by decide
    exact hsub _ h
  · exact Or.inr h
  · left
    unfold getRegionSegment
    rw [h]
    decide

theorem evaluateFeatureFlag_country_restricted (flagName : JSString) (config : FlagConfig)
    (userId : JSString) (userSegment : Segment) (forcedVariant : Option JSString)
    (hen : config.enabled = true) (ht : config.countries.truthy = true)
    (hi : config.countries.includes userSegment.region = false) :
    evaluateFeatureFlag flagName config userId userSegment forcedVariant
      = countryRestrictedDecision := by
  unfold evaluateFeatureFlag countryRestrictedDecision
  simp [hen, ht, hi, strictNeFreshArray]

/-- None of the six configured `countries` lists contains a region. -/
theorem featureFlags_exclude (region : JSValue)
    (hr : region ∈ regionNames ∨ ∃ text, region = .object text) :
    ∀ entry ∈ featureFlags, entry.2.enabled = true ∧ entry.2.countries.truthy = true ∧
      entry.2.countries.includes region = false := by
  rcases hr with hr | ⟨text, rfl⟩
  · have hall : ∀ r ∈ regionNames, ∀ entry ∈ featureFlags, entry.2.enabled = true ∧
        entry.2.countries.truthy = true ∧ entry.2.countries.includes r = false := by
      decide
    exact hall region hr
  · have hall : ∀ entry ∈ featureFlags, entry.2.enabled = true ∧
        entry.2.countries.truthy = true ∧
        (∃ xs, entry.2.countries = .list xs) := by
      intro entry he
      simp only [featureFlags, aiChatbot, List.mem_cons, List.mem_singleton, List.not_mem_nil,
        or_false] at he
      rcases he with rfl | rfl | rfl | rfl | rfl | rfl <;> exact ⟨rfl, rfl, _, rfl⟩
    intro entry he
    obtain ⟨h1, h2, xs, h3⟩ := hall entry he
    refine ⟨h1, h2, ?_⟩
    rw [h3]
    rfl

theorem flags_restricted (memberText : JSString → JSString)
    (userId country userAgent : JSString) (variant : Option JSString) :
    (featureFlags.map fun entry =>
      (entry.1, evaluateFeatureFlag entry.1 entry.2 userId
        (getUserSegment memberText userId country userAgent) variant))
      = featureFlags.map fun entry => (entry.1, countryRestrictedDecision) := by
  apply List.map_congr_left
  intro entry he
  have hreg : (getUserSegment memberText userId country userAgent).region
      = getRegionSegment memberText country := rfl
  have hv : (getUserSegment memberText userId country userAgent).region ∈ regionNames ∨
      ∃ text, (getUserSegment memberText userId country userAgent).region = .object text := by
    rw [hreg]
    rcases getRegionSegment_values memberText country with h | h
    · exact Or.inl h
    · exact Or.inr ⟨_, h.2⟩
  obtain ⟨h1, h2, h3⟩ := featureFlags_exclude _ hv entry he
  rw [evaluateFeatureFlag_country_restricted entry.1 entry.2 userId _ variant h1 h2 h3]

/-! ## The handler -/

/-- The header `X-Feature-Flags` converts for every request: the six decisions
hold ASCII strings only. -/
theorem flags_header_ok (memberText : JSString → JSString)
    (userId country userAgent : JSString) (variant : Option JSString) :
    headerValueOk (flagsStrings (featureFlags.map fun entry =>
      (entry.1, evaluateFeatureFlag entry.1 entry.2 userId
        (getUserSegment memberText userId country userAgent) variant))) = true := by
  rw [flags_restricted]
  decide

theorem ok_of_ite {c : Prop} [Decidable c] {r body : ResponseBody} {e : JSError}
    (h : (if c then Except.ok r else Except.error e) = Except.ok body) : c ∧ r = body := by
  by_cases hc : c
  · rw [if_pos hc] at h
    injection h with h
    exact ⟨hc, h⟩
  · rw [if_neg hc] at h
    exact Except.noConfusion h

theorem handler_userId (env : Ambient) (request : Request) (body : ResponseBody)
    (h : handler env request = .ok body) :
    body.userId = orString request.xUserId (generateUserId env.randomText) := by
  unfold handler at h
  simp only [] at h
  split at h
  · exact Except.noConfusion h
  · obtain ⟨_, hb⟩ := ok_of_ite h
    rw [← hb]

/-- The response object, when the handler produces one. -/
theorem handler_body (env : Ambient) (request : Request) (body : ResponseBody)
    (h : handler env request = .ok body) :
    body.userSegment = getUserSegment env.memberText
        (orString request.xUserId (generateUserId env.randomText))
        (orString request.country (js "US")) (orString request.userAgent (js "")) ∧
    body.flags = (featureFlags.map fun entry =>
      (entry.1, evaluateFeatureFlag entry.1 entry.2
        (orString request.xUserId (generateUserId env.randomText)) body.userSegment
        (if truthyString request.variant then request.variant else none))) ∧
    body.optimizations.preload = (if flagTruthy body.flags (js "newDashboard")
      then [js "dashboard.js", js "analytics.js"] else [js "legacy.js"]) ∧
    body.optimizations.criticalCSS = (if flagTruthy body.flags (js "darkMode")
      then [js "dark-theme.css"] else [js "light-theme.css"]) ∧
    body.optimizations.lazyLoad = (if flagTruthy body.flags (js "vrLearning")
      then [js "vr-components.js"] else []) := by
  unfold handler at h
  simp only [] at h
  split at h
  · exact Except.noConfusion h
  · obtain ⟨_, hb⟩ := ok_of_ite h
    rw [← hb]
    exact ⟨rfl, rfl, rfl, rfl, rfl⟩

/-- The handler produces a response exactly when the test lookup does not
throw and the header `X-AB-Tests` converts to a `ByteString`. -/
theorem handler_ok_iff (env : Ambient) (request : Request) :
    (∃ body, handler env request = .ok body) ↔
      ∃ abTests, getABTestResults (orString request.test (js "default"))
          (orString request.xUserId (generateUserId env.randomText))
          (getUserSegment env.memberText
            (orString request.xUserId (generateUserId env.randomText))
            (orString request.country (js "US")) (orString request.userAgent (js "")))
          = .ok abTests ∧
        headerValueOk (abTestsStrings abTests) = true := by
  unfold handler
  simp only [flags_header_ok, Bool.true_and]
  cases hg : getABTestResults (orString request.test (js "default"))
      (orString request.xUserId (generateUserId env.randomText))
      (getUserSegment env.memberText
        (orString request.xUserId (generateUserId env.randomText))
        (orString request.country (js "US")) (orString request.userAgent (js ""))) with
  | error e =>
    constructor
    · rintro ⟨body, hb⟩
      exact Except.noConfusion hb
    · rintro ⟨abTests, ht, _⟩
      exact Except.noConfusion ht
  | ok abTests =>
    by_cases hq : headerValueOk (abTestsStrings abTests) = true
    · simp only [hq, if_true]
      exact ⟨fun _ => ⟨abTests, rfl, hq⟩, fun _ => ⟨_, rfl⟩⟩
    · simp only [hq, Bool.false_eq_true, if_false]
      constructor
      · rintro ⟨body, hb⟩
        exact Except.noConfusion hb
      · rintro ⟨abTests2, ht, hq2⟩
        injection ht with ht
        rw [← ht] at hq2
        exact absurd hq2 hq

/-- A response is produced for a test name that is not configured, is not the
name of a member of `Object.prototype` and has no code unit that its quoted
form keeps above U+00FF. -/
theorem handler_returns (env : Ambient) (request : Request)
    (hn : orString request.test (js "default") ∉ objectPrototypeKeys)
    (hl : tests.lookup (orString request.test (js "default")) = none)
    (hb : isByteString (jsonQuote (orString request.test (js "default"))) = true) :
    ∃ body, handler env request = .ok body := by
  rw [handler_ok_iff]
  refine ⟨_, getABTestResults_missing _ _ _ hl hn, ?_⟩
  have hc : isByteString (jsonQuote (js "control")) = true := by decide
  simp only [headerValueOk, abTestsStrings, Option.toList, List.append_nil, List.all_cons,
    List.all_nil, hb, hc, Bool.and_self]

/-- The test name of the two code units U+65E5 and U+672C is not configured:
the lookup gives the `test_not_found` record, whose text in the header
`X-AB-Tests` keeps both code units, and `new Response` throws a `TypeError`. -/
theorem handler_wide_test_name (env : Ambient) :
    handler env wideRequest = .error .typeError := by
  have hg : getABTestResults [26085, 26412] (js "user_1")
      (getUserSegment env.memberText (js "user_1") (js "US") (js ""))
      = .ok ⟨[26085, 26412], js "control", none, none, some .test_not_found⟩ :=
    getABTestResults_missing _ _ _ (lookup_none_of_not_key tests _ (by decide)) (by decide)
  have h1 : orString wideRequest.test (js "default") = [26085, 26412] := by decide
  have h2 : orString wideRequest.xUserId (generateUserId env.randomText) = js "user_1" := rfl
  have h3 : orString wideRequest.country (js "US") = js "US" := by decide
  have h4 : orString wideRequest.userAgent (js "") = js "" := by decide
  have hq : headerValueOk (abTestsStrings
      ⟨[26085, 26412], js "control", none, none, some .test_not_found⟩) = false := by decide
  unfold handler
  simp only [h1, h2, h3, h4, hg, hq, Bool.and_false, Bool.false_eq_true, if_false]

theorem generated_suffix (text : JSString) (h : isRandomText text) :
    (substr text 2 9).length ≤ 9 ∧ ∀ c ∈ substr text 2 9, isBase36Digit c = true := by
  refine ⟨by simp [substr], ?_⟩
  rcases h with h | ⟨digits, _, hd, h⟩
  · subst h
    have : substr (js "0") 2 9 = [] := by decide
    rw [this]
    exact fun c hc => absurd hc (List.not_mem_nil c)
  · subst h
    have : substr (js "0." ++ digits) 2 9 = digits.take 9 := by
      have e : js "0." = [48, 46] := by decide
      simp [substr, e]
    rw [this]
    exact fun c hc => hd c (List.mem_of_mem_take hc)

theorem isRandomText_half : isRandomText (js "0.i") := by
  refine Or.inr ⟨js "i", by decide, ?_, by decide⟩
  intro d hd
  have e : js "i" = [105] := by decide
  rw [e] at hd
  simp at hd
  subst hd
  decide

/-- Counterexample to C19 as stated: when `Math.random()` returns 0.5, whose
text in base 36 is `0.i`, a request without the header `x-user-id` is answered
with the identifier `user_i`: one character after `user_`, not nine. -/
theorem generated_id_counterexample :
    isRandomText halfAmbient.randomText ∧
    bareRequest.xUserId = none ∧
    ∃ body, handler halfAmbient bareRequest = .ok body ∧ body.userId = js "user_i" ∧
      (body.userId.drop (js "user_").length).length = 1 := by
  refine ⟨isRandomText_half, rfl, ?_⟩
  obtain ⟨body, hb⟩ := handler_returns halfAmbient bareRequest (by decide)
    (lookup_none_of_not_key tests _ (by decide)) (by decide)
  have hid := handler_userId halfAmbient bareRequest body hb
  have hval : orString bareRequest.xUserId (generateUserId halfAmbient.randomText)
      = js "user_i" := by decide
  rw [hval] at hid
  exact ⟨body, hb, hid, by rw [hid]; decide⟩

/-- C19, amended: in every response of the A/B handler the `userId` is the
value of the header `x-user-id` when that is present and non-empty; when it is
absent or empty, the `userId` is `user_` followed by at most 9 characters, all
of them lower-case alphanumeric: the first 9 base-36 digits after the point of
the random value, fewer when it has fewer. The handler produces a response
exactly when the lookup of the test does not throw and the value of the header
`X-AB-Tests` has no code unit above U+00FF; it does for every request whose
test name is not configured, is not the name of a member of
`Object.prototype` and is quoted within U+00FF. -/
theorem handler_identity (env : Ambient) (request : Request)
    (hr : isRandomText env.randomText) :
    (∀ body, handler env request = .ok body →
      (∀ h, request.xUserId = some h → h ≠ [] → body.userId = h) ∧
      (request.xUserId = none ∨ request.xUserId = some [] →
        ∃ suffix, body.userId = js "user_" ++ suffix ∧
          suffix = (env.randomText.drop 2).take 9 ∧ suffix.length ≤ 9 ∧
          ∀ c ∈ suffix, isBase36Digit c = true)) ∧
    ((∃ body, handler env request = .ok body) ↔
      ∃ abTests, getABTestResults (orString request.test (js "default"))
          (orString request.xUserId (generateUserId env.randomText))
          (getUserSegment env.memberText
            (orString request.xUserId (generateUserId env.randomText))
            (orString request.country (js "US")) (orString request.userAgent (js "")))
          = .ok abTests ∧
        headerValueOk (abTestsStrings abTests) = true) ∧
    (orString request.test (js "default") ∉ objectPrototypeKeys →
      tests.lookup (orString request.test (js "default")) = none →
      isByteString (jsonQuote (orString request.test (js "default"))) = true →
      ∃ body, handler env request = .ok body) := by
  refine ⟨fun body hb => ?_, handler_ok_iff env request, handler_returns env request⟩
  have hid := handler_userId env request body hb
  constructor
  · intro h hh hne
    rw [hid, hh]
    cases h with
    | nil => exact absurd rfl hne
    | cons c cs => rfl
  · intro hx
    have hgen : body.userId = generateUserId env.randomText := by
      rw [hid]
      rcases hx with hx | hx <;> rw [hx] <;> rfl
    obtain ⟨h1, h2⟩ := generated_suffix env.randomText hr
    exact ⟨substr env.randomText 2 9, hgen, rfl, h1, h2⟩

/-- Witness of C19 as amended: a request without header, geo data or query
parameter, with the random text `0.i`. -/
theorem handler_identity_witness :
    (∀ body, handler halfAmbient bareRequest = .ok body →
      (∀ h, bareRequest.xUserId = some h → h ≠ [] → body.userId = h) ∧
      (bareRequest.xUserId = none ∨ bareRequest.xUserId = some [] →
        ∃ suffix, body.userId = js "user_" ++ suffix ∧
          suffix = (halfAmbient.randomText.drop 2).take 9 ∧ suffix.length ≤ 9 ∧
          ∀ c ∈ suffix, isBase36Digit c = true)) ∧
    ((∃ body, handler halfAmbient bareRequest = .ok body) ↔
      ∃ abTests, getABTestResults (orString bareRequest.test (js "default"))
          (orString bareRequest.xUserId (generateUserId halfAmbient.randomText))
          (getUserSegment halfAmbient.memberText
            (orString bareRequest.xUserId (generateUserId halfAmbient.randomText))
            (orString bareRequest.country (js "US")) (orString bareRequest.userAgent (js "")))
          = .ok abTests ∧
        headerValueOk (abTestsStrings abTests) = true) ∧
    (orString bareRequest.test (js "default") ∉ objectPrototypeKeys →
      tests.lookup (orString bareRequest.test (js "default")) = none →
      isByteString (jsonQuote (orString bareRequest.test (js "default"))) = true →
      ∃ body, handler halfAmbient bareRequest = .ok body) :=
  handler_identity halfAmbient bareRequest isRandomText_half

/-! ## Arithmetic of the configured weights -/

theorem roundHalfEven_of_near (y : ℚ) (m : ℤ) (h1 : (m : ℚ) - 1 / 2 < y) (h2 : y < (m : ℚ) + 1 / 2) :
    roundHalfEven y = m := by
  unfold roundHalfEven
  by_cases hge : (m : ℚ) ≤ y
  · have hf : ⌊y⌋ = m := Int.floor_eq_iff.2 ⟨hge, by linarith⟩
    rw [hf]
    rw [if_pos (by linarith)]
  · have hf : ⌊y⌋ = m - 1 := Int.floor_eq_iff.2 ⟨by push_cast; linarith, by push_cast; linarith⟩
    rw [hf]
    have hlt : ¬ (y - ((m - 1 : ℤ) : ℚ) < 1 / 2) := by push_cast; linarith
    have hgt : (1 : ℚ) / 2 < y - ((m - 1 : ℤ) : ℚ) := by push_cast; linarith
    rw [if_neg hlt, if_pos hgt]
    ring

/-- Certificate of a rounding: `x` lies in the binade whose unit in the last
place is `2 ^ e` and within half a unit of `m * 2 ^ e`. -/
theorem roundDouble_of_near (x : ℚ) (m e : ℤ) (he : -1074 ≤ e)
    (hlo : (2 : ℚ) ^ (52 + e) ≤ x) (hhi : x < (2 : ℚ) ^ (53 + e))
    (h1 : ((m : ℚ) - 1 / 2) * (2 : ℚ) ^ e < x) (h2 : x < ((m : ℚ) + 1 / 2) * (2 : ℚ) ^ e) :
    roundDouble x = (m : ℚ) * (2 : ℚ) ^ e := by
  have hx : (0 : ℚ) < x := lt_of_lt_of_le (two_zpow_pos _) hlo
  have hl1 : 52 + e ≤ Int.log 2 x :=
    (Int.zpow_le_iff_le_log (by norm_num) hx).1 (by exact_mod_cast hlo)
  have hl2 : Int.log 2 x < 53 + e :=
    (Int.lt_zpow_iff_log_lt (by norm_num) hx).1 (by exact_mod_cast hhi)
  have hu : ulpExp x = e := by
    unfold ulpExp
    rw [abs_of_pos hx]
    omega
  unfold roundDouble
  rw [hu]
  have hr : roundHalfEven (x / (2 : ℚ) ^ e) = m := by
    apply roundHalfEven_of_near
    · rw [lt_div_iff₀ (two_zpow_pos e)]
      exact h1
    · rw [div_lt_iff₀ (two_zpow_pos e)]
      exact h2
  rw [hr]

theorem roundDouble_zero : roundDouble 0 = 0 := by
  unfold roundDouble
  simp [roundHalfEven]

/-- A natural number below `2 ^ 53` is a double. -/
theorem roundDouble_nat (n : ℕ) (h : n < 2 ^ 53) : roundDouble (n : ℚ) = (n : ℚ) := by
  rcases Nat.eq_zero_or_pos n with h0 | hpos
  · subst h0
    simpa using roundDouble_zero
  · have h1 : 2 ^ Nat.log 2 n ≤ n := Nat.pow_log_le_self 2 (by omega)
    have h2 : n < 2 ^ (Nat.log 2 n + 1) := Nat.lt_pow_succ_log_self (by norm_num) n
    have hk : Nat.log 2 n ≤ 52 := by
      by_contra hgt
      have : 2 ^ 53 ≤ 2 ^ Nat.log 2 n := Nat.pow_le_pow_right (by norm_num) (by omega)
      omega
    exact roundDouble_natCast n (Nat.log 2 n) hk h1 h2

theorem jsAdd_nat (a b : ℕ) (h : a + b < 2 ^ 53) : jsAdd (a : ℚ) (b : ℚ) = ((a + b : ℕ) : ℚ) := by
  unfold jsAdd
  have := roundDouble_nat (a + b) h
  push_cast at this ⊢
  exact this

theorem jsLit_33 : jsLit (33 / 100) = 5944751508129055 / 2 ^ 54 := by
  have h := roundDouble_of_near (33 / 100) 5944751508129055 (-54) (by norm_num)
    (by norm_num) (by norm_num) (by norm_num) (by norm_num)
  unfold jsLit
  rw [h]
  norm_num

theorem jsLit_34 : jsLit (34 / 100) = 6124895493223875 / 2 ^ 54 := by
  have h := roundDouble_of_near (34 / 100) 6124895493223875 (-54) (by norm_num)
    (by norm_num) (by norm_num) (by norm_num) (by norm_num)
  unfold jsLit
  rw [h]
  norm_num

theorem jsLit_40 : jsLit (2 / 5) = 7205759403792794 / 2 ^ 54 := by
  have h := roundDouble_of_near (2 / 5) 7205759403792794 (-54) (by norm_num)
    (by norm_num) (by norm_num) (by norm_num) (by norm_num)
  unfold jsLit
  rw [h]
  norm_num

theorem jsLit_20 : jsLit (1 / 5) = 7205759403792794 / 2 ^ 55 := by
  have h := roundDouble_of_near (1 / 5) 7205759403792794 (-55) (by norm_num)
    (by norm_num) (by norm_num) (by norm_num) (by norm_num)
  unfold jsLit
  rw [h]
  norm_num

/-- Product `0.33 * 100` is exactly 33 in double arithmetic. -/
theorem jsMul_33 : jsMul (jsLit (33 / 100)) 100 = 33 := by
  rw [jsLit_33]
  have h := roundDouble_of_near (5944751508129055 / 2 ^ 54 * 100) (33 * 2 ^ 47) (-47)
    (by norm_num) (by norm_num) (by norm_num) (by norm_num) (by norm_num)
  unfold jsMul
  rw [h]
  norm_num

/-- Product `0.34 * 100` is exactly 34 in double arithmetic. -/
theorem jsMul_34 : jsMul (jsLit (34 / 100)) 100 = 34 := by
  rw [jsLit_34]
  have h := roundDouble_of_near (6124895493223875 / 2 ^ 54 * 100) (34 * 2 ^ 47) (-47)
    (by norm_num) (by norm_num) (by norm_num) (by norm_num) (by norm_num)
  unfold jsMul
  rw [h]
  norm_num

/-- Product `0.4 * 100` is exactly 40 in double arithmetic. -/
theorem jsMul_40 : jsMul (jsLit (2 / 5)) 100 = 40 := by
  rw [jsLit_40]
  have h := roundDouble_of_near (7205759403792794 / 2 ^ 54 * 100) (40 * 2 ^ 47) (-47)
    (by norm_num) (by norm_num) (by norm_num) (by norm_num) (by norm_num)
  unfold jsMul
  rw [h]
  norm_num

/-- Product `0.2 * 100` is exactly 20 in double arithmetic. -/
theorem jsMul_20 : jsMul (jsLit (1 / 5)) 100 = 20 := by
  rw [jsLit_20]
  have h := roundDouble_of_near (7205759403792794 / 2 ^ 55 * 100) (20 * 2 ^ 48) (-48)
    (by norm_num) (by norm_num) (by norm_num) (by norm_num) (by norm_num)
  unfold jsMul
  rw [h]
  norm_num

/-- Running totals of `pricing_display`: 40, 80, 100. -/
theorem pricingDisplay_totals :
    runningTotal pricingDisplay.weights 0 = 40 ∧ runningTotal pricingDisplay.weights 1 = 80 ∧
      runningTotal pricingDisplay.weights 2 = 100 := by
  have a1 : jsAdd 0 40 = 40 := by simpa using jsAdd_nat 0 40 (by norm_num)
  have a2 : jsAdd 40 40 = 80 := by
    have := jsAdd_nat 40 40 (by norm_num)
    norm_num at this ⊢
    exact this
  have a3 : jsAdd 80 20 = 100 := by
    have := jsAdd_nat 80 20 (by norm_num)
    norm_num at this ⊢
    exact this
  simp only [runningTotal, pricingDisplay, List.take, List.foldl, jsMul_40, jsMul_20, a1, a2,
    a3, and_self]

/-- Visitor `user_2` has remainder 81 for `pricing_display`, past the totals
40 and 80, and is given the third variant. -/
theorem pricing_display_user_2 :
    getABTestResults (js "pricing_display") (js "user_2") sampleSegment
      = .ok ⟨js "pricing_display", js "lifetime", some (jsLit (1 / 5)),
          some sampleSegment.primary, none⟩ := by
  have hh : Int.tmod (simpleHash (js "user_2" ++ js "pricing_display")) 100 = 81 := by decide
  have a1 : jsAdd 0 40 = 40 := by simpa using jsAdd_nat 0 40 (by norm_num)
  have a2 : jsAdd 40 40 = 80 := by
    have := jsAdd_nat 40 40 (by norm_num)
    norm_num at this ⊢
    exact this
  have a3 : jsAdd 80 20 = 100 := by
    have := jsAdd_nat 80 20 (by norm_num)
    norm_num at this ⊢
    exact this
  rw [getABTestResults_own (js "pricing_display") (js "user_2") sampleSegment pricingDisplay rfl,
    hh]
  simp only [abTestLoop, pricingDisplay, List.getElem?_cons_zero, List.getElem?_cons_succ,
    jsMul_40, jsMul_20, a1, a2, a3]
  norm_num

/-! ## Range of the hash and shape of the decisions -/

theorem simpleHashLoop_range (h : Int) (s : JSString)
    (hh : -(2 : Int) ^ 31 ≤ h ∧ h < (2 : Int) ^ 31) :
    -(2 : Int) ^ 31 ≤ simpleHashLoop h s ∧ simpleHashLoop h s < (2 : Int) ^ 31 := by
  induction s generalizing h with
  | nil => exact hh
  | cons c cs ih =>
    simp only [simpleHashLoop]
    rw [loop_step h c]
    apply ih
    have h1 := @Int.le_bmod (h * 31 + (c.val : Int)) (2 ^ 32) (by norm_num)
    have h2 := @Int.bmod_lt (h * 31 + (c.val : Int)) (2 ^ 32) (by norm_num)
    constructor
    · norm_num at h1 ⊢
      omega
    · norm_num at h2 ⊢
      omega

/-- C30: for every string `simpleHash(s) ≤ 2^31 = 2147483648`, and the bound
is attained: on the string with code units 2325, 9, 30, 12, 2 the accumulator
ends at `-2^31` and `simpleHash` returns 2147483648, which is above the
greatest signed 32-bit integer. -/
theorem simpleHash_le_bound :
    (∀ s : JSString, simpleHash s ≤ 2147483648) ∧
    (2 : Int) ^ 31 = 2147483648 ∧
    simpleHashLoop 0 extremeString = -2147483648 ∧
    simpleHash extremeString = 2147483648 ∧
    ¬ simpleHash extremeString ≤ 2 ^ 31 - 1 := by
  refine ⟨fun s => ?_, by norm_num, by decide, by decide, by decide⟩
  obtain ⟨h1, h2⟩ := simpleHashLoop_range 0 s (by norm_num)
  unfold simpleHash
  rw [abs_le]
  constructor
  · norm_num at h1 ⊢
    omega
  · norm_num at h2 ⊢
    omega

/-- C29: in every decision whose reason is not `forced`, `enabled` is true if
and only if the variant is not `disabled`; a `forced` decision has `enabled`
true whatever the variant, and forcing `disabled` on a flag with the variants
`['enabled', 'disabled']` gives `{enabled: true, variant: 'disabled'}`. -/
theorem enabled_iff_variant (flagName : JSString) (config : FlagConfig) (userId : JSString)
    (userSegment : Segment) (forcedVariant : Option JSString) :
    ((evaluateFeatureFlag flagName config userId userSegment forcedVariant).reason ≠ .forced →
      ((evaluateFeatureFlag flagName config userId userSegment forcedVariant).enabled = true ↔
        (evaluateFeatureFlag flagName config userId userSegment forcedVariant).variant
          ≠ some (js "disabled"))) ∧
    ((evaluateFeatureFlag flagName config userId userSegment forcedVariant).reason = .forced →
      (evaluateFeatureFlag flagName config userId userSegment forcedVariant).enabled = true) ∧
    evaluateFeatureFlag flagName onOffFlag userId userSegment (some (js "disabled"))
      = ⟨true, some (js "disabled"), .forced, none, none⟩ := by
  refine ⟨?_, ?_, ?_⟩
  · unfold evaluateFeatureFlag
    simp only []
    split_ifs <;> simp [bne_iff_ne]
  · unfold evaluateFeatureFlag
    simp only []
    split_ifs <;> simp
  · unfold evaluateFeatureFlag
    have h1 : onOffFlag.enabled = true := rfl
    have h2 : (onOffFlag.countries.truthy && strictNeFreshArray onOffFlag.countries [js "all"]
        && !onOffFlag.countries.includes userSegment.region) = false := rfl
    have h3 : (onOffFlag.userGroups.truthy && strictNeFreshArray onOffFlag.userGroups [js "all"]
        && !onOffFlag.userGroups.includes (.str userSegment.tier)) = false := rfl
    have h4 : (truthyString (some (js "disabled"))
        && variantsInclude onOffFlag.variants (some (js "disabled"))) = true := by decide
    simp only [h1, h2, h3, h4, Bool.not_true, Bool.false_eq_true, if_false, if_true]

/-- Witness of C29: a decision that is not forced (visitor `user_1`, flag
`darkMode`) and the forced `disabled`. -/
theorem enabled_iff_variant_witness :
    ((evaluateFeatureFlag (js "darkMode") regionalDarkMode (js "user_1") sampleSegment
        none).reason ≠ .forced →
      ((evaluateFeatureFlag (js "darkMode") regionalDarkMode (js "user_1") sampleSegment
          none).enabled = true ↔
        (evaluateFeatureFlag (js "darkMode") regionalDarkMode (js "user_1") sampleSegment
          none).variant ≠ some (js "disabled"))) ∧
    ((evaluateFeatureFlag (js "darkMode") regionalDarkMode (js "user_1") sampleSegment
        none).reason = .forced →
      (evaluateFeatureFlag (js "darkMode") regionalDarkMode (js "user_1") sampleSegment
        none).enabled = true) ∧
    evaluateFeatureFlag (js "darkMode") onOffFlag (js "user_1") sampleSegment
        (some (js "disabled"))
      = ⟨true, some (js "disabled"), .forced, none, none⟩ :=
  enabled_iff_variant (js "darkMode") regionalDarkMode (js "user_1") sampleSegment none

/-! ## Truthiness of the stored decisions -/

theorem lookup_map_isSome {α β : Type} (table : List (JSString × α)) (f : JSString × α → β)
    (key : JSString) :
    ((table.map fun entry => (entry.1, f entry)).lookup key).isSome
      = (table.lookup key).isSome := by
  induction table with
  | nil => rfl
  | cons p ps ih =>
    obtain ⟨k, a⟩ := p
    simp only [List.map_cons, List.lookup_cons]
    cases hk : (key == k) with
    | true => rfl
    | false => exact ih

/-! ## Buckets of the configured tests -/

/-- Loop of `getABTestResults` for a test of three variants whose products
`weights[i] * 100` are the whole numbers `n0`, `n1`, `n2`. -/
theorem abTestLoop_three (testName primary v0 v1 v2 : JSString) (w0 w1 w2 : ℚ) (n0 n1 n2 : ℕ)
    (h0 : jsMul w0 100 = n0) (h1 : jsMul w1 100 = n1) (h2 : jsMul w2 100 = n2)
    (hs : n0 + n1 + n2 < 2 ^ 53) (h : ℕ) :
    abTestLoop testName [w0, w1, w2] (h : Int) primary [v0, v1, v2] 0 (some 0)
      = if h < n0 then ⟨testName, v0, some w0, some primary, none⟩
        else if h < n0 + n1 then ⟨testName, v1, some w1, some primary, none⟩
        else if h < n0 + n1 + n2 then ⟨testName, v2, some w2, some primary, none⟩
        else ⟨testName, js "control", none, none, some .fallback⟩ := by
  have a1 : jsAdd 0 (n0 : ℚ) = (n0 : ℚ) := by
    have := jsAdd_nat 0 n0 (by omega)
    simpa using this
  have a2 : jsAdd (n0 : ℚ) (n1 : ℚ) = ((n0 + n1 : ℕ) : ℚ) := jsAdd_nat n0 n1 (by omega)
  have a3 : jsAdd ((n0 + n1 : ℕ) : ℚ) (n2 : ℚ) = ((n0 + n1 + n2 : ℕ) : ℚ) :=
    jsAdd_nat (n0 + n1) n2 hs
  have c : ∀ n : ℕ, (((h : Int) : ℚ) < (n : ℚ)) ↔ h < n := by
    intro n
    rw [Int.cast_natCast]
    exact Nat.cast_lt
  simp only [abTestLoop, List.getElem?_cons_zero, List.getElem?_cons_succ, h0, h1, h2, a1, a2,
    a3, c]

/-- Variant returned by the loop for a test of three variants. -/
theorem variant_three (testName primary v0 v1 v2 : JSString) (w0 w1 w2 : ℚ) (n0 n1 n2 : ℕ)
    (h0 : jsMul w0 100 = n0) (h1 : jsMul w1 100 = n1) (h2 : jsMul w2 100 = n2)
    (hs : n0 + n1 + n2 < 2 ^ 53) (h : ℕ) :
    (abTestLoop testName [w0, w1, w2] (h : Int) primary [v0, v1, v2] 0 (some 0)).variant
      = if h < n0 then v0 else if h < n0 + n1 then v1 else if h < n0 + n1 + n2 then v2
        else js "control" := by
  rw [abTestLoop_three testName primary v0 v1 v2 w0 w1 w2 n0 n1 n2 h0 h1 h2 hs h]
  split_ifs <;> rfl

/-- Number of remainders per variant for a test of three variants, by whole
number comparisons. -/
theorem bucketSize_three (testName primary v0 v1 v2 : JSString) (w0 w1 w2 : ℚ) (n0 n1 n2 : ℕ)
    (h0 : jsMul w0 100 = n0) (h1 : jsMul w1 100 = n1) (h2 : jsMul w2 100 = n2)
    (hs : n0 + n1 + n2 < 2 ^ 53) (v : JSString) :
    bucketSize testName primary ⟨[v0, v1, v2], [w0, w1, w2]⟩ v
      = ((List.range 100).filter fun h =>
          decide ((if h < n0 then v0 else if h < n0 + n1 then v1
            else if h < n0 + n1 + n2 then v2 else js "control") = v)).length := by
  unfold bucketSize
  apply congrArg List.length
  apply List.filter_congr
  intro h _
  rw [variant_three testName primary v0 v1 v2 w0 w1 w2 n0 n1 n2 h0 h1 h2 hs h]

/-- With totals that reach 100, a remainder below 100 is given one of the
three variants with its weight and the segment. -/
theorem three_selected (testName primary v0 v1 v2 : JSString) (w0 w1 w2 : ℚ) (n0 n1 n2 : ℕ)
    (h0 : jsMul w0 100 = n0) (h1 : jsMul w1 100 = n1) (h2 : jsMul w2 100 = n2)
    (hs : n0 + n1 + n2 = 100) (h : ℕ) (hh : h < 100) :
    ∃ (i : ℕ) (v : JSString) (w : ℚ), [v0, v1, v2][i]? = some v ∧ [w0, w1, w2][i]? = some w ∧
      abTestLoop testName [w0, w1, w2] (h : Int) primary [v0, v1, v2] 0 (some 0)
        = ⟨testName, v, some w, some primary, none⟩ := by
  rw [abTestLoop_three testName primary v0 v1 v2 w0 w1 w2 n0 n1 n2 h0 h1 h2
    (by rw [hs]; norm_num) h]
  by_cases c0 : h < n0
  · exact ⟨0, v0, w0, rfl, rfl, by rw [if_pos c0]⟩
  · by_cases c1 : h < n0 + n1
    · exact ⟨1, v1, w1, rfl, rfl, by rw [if_neg c0, if_pos c1]⟩
    · have c2 : h < n0 + n1 + n2 := by omega
      exact ⟨2, v2, w2, rfl, rfl, by rw [if_neg c0, if_neg c1, if_pos c2]⟩

theorem jsMul_33_nat : jsMul (jsLit (33 / 100)) 100 = ((33 : ℕ) : ℚ) := by
  rw [jsMul_33]
  norm_num

theorem jsMul_34_nat : jsMul (jsLit (34 / 100)) 100 = ((34 : ℕ) : ℚ) := by
  rw [jsMul_34]
  norm_num

theorem jsMul_40_nat : jsMul (jsLit (2 / 5)) 100 = ((40 : ℕ) : ℚ) := by
  rw [jsMul_40]
  norm_num

theorem jsMul_20_nat : jsMul (jsLit (1 / 5)) 100 = ((20 : ℕ) : ℚ) := by
  rw [jsMul_20]
  norm_num

theorem homepageLayout_sizes (testName primary : JSString) :
    homepageLayout.variants.map (bucketSize testName primary homepageLayout) = [33, 33, 34] := by
  have e := bucketSize_three testName primary (js "control") (js "variant_a") (js "variant_b")
    (jsLit (33 / 100)) (jsLit (33 / 100)) (jsLit (34 / 100)) 33 33 34 jsMul_33_nat jsMul_33_nat
    jsMul_34_nat (by norm_num)
  simp only [homepageLayout, List.map] at e ⊢
  rw [e, e, e]
  decide

theorem ctaButton_sizes (testName primary : JSString) :
    ctaButton.variants.map (bucketSize testName primary ctaButton) = [33, 33, 34] := by
  have e := bucketSize_three testName primary (js "blue") (js "green") (js "purple")
    (jsLit (33 / 100)) (jsLit (33 / 100)) (jsLit (34 / 100)) 33 33 34 jsMul_33_nat jsMul_33_nat
    jsMul_34_nat (by norm_num)
  simp only [ctaButton, List.map] at e ⊢
  rw [e, e, e]
  decide

theorem pricingDisplay_sizes (testName primary : JSString) :
    pricingDisplay.variants.map (bucketSize testName primary pricingDisplay) = [40, 40, 20] := by
  have e := bucketSize_three testName primary (js "monthly") (js "annual") (js "lifetime")
    (jsLit (2 / 5)) (jsLit (2 / 5)) (jsLit (1 / 5)) 40 40 20 jsMul_40_nat jsMul_40_nat
    jsMul_20_nat (by norm_num)
  simp only [pricingDisplay, List.map] at e ⊢
  rw [e, e, e]
  decide

theorem tests_entries (key : JSString) (test : TestConfig) (h : (key, test) ∈ tests) :
    test = homepageLayout ∨ test = pricingDisplay ∨ test = ctaButton := by
  simp only [tests, List.mem_cons, Prod.mk.injEq, List.mem_singleton, List.not_mem_nil,
    or_false] at h
  rcases h with ⟨_, rfl⟩ | ⟨_, rfl⟩ | ⟨_, rfl⟩
  · exact Or.inl rfl
  · exact Or.inr (Or.inl rfl)
  · exact Or.inr (Or.inr rfl)

/-- C28: for each of the three configured tests and every identifier, the
remainder `h = simpleHash(userId + testName) % 100` lies in `0..99` and
`getABTestResults` returns one of the test's own variants with its weight and
the segment, never the `fallback` result; and over the remainders
`h = 0..99` the number of values given to variant `i` is `weights[i] * 100`:
33, 33, 34 for `homepage_layout` and `cta_button`, 40, 40, 20 for
`pricing_display`. -/
theorem configured_tests_buckets (testName : JSString) (test : TestConfig) (userId : JSString)
    (userSegment : Segment) (hfound : tests.lookup testName = some test) :
    (∃ h : ℕ, h < 100 ∧ Int.tmod (simpleHash (userId ++ testName)) 100 = (h : Int) ∧
      getABTestResults testName userId userSegment
        = .ok (abTestLoop testName test.weights (h : Int) userSegment.primary test.variants 0
            (some 0))) ∧
    (∃ (i : ℕ) (v : JSString) (w : ℚ), test.variants[i]? = some v ∧ test.weights[i]? = some w ∧
      getABTestResults testName userId userSegment
        = .ok ⟨testName, v, some w, some userSegment.primary, none⟩) ∧
    (∀ primary : JSString,
      (test.weights.map (fun w => jsMul w 100) = [33, 33, 34] ∧
        test.variants.map (bucketSize testName primary test) = [33, 33, 34]) ∨
      (test.weights.map (fun w => jsMul w 100) = [40, 40, 20] ∧
        test.variants.map (bucketSize testName primary test) = [40, 40, 20])) := by
  obtain ⟨k, hk⟩ := lookup_mem tests testName test hfound
  have hown := getABTestResults_own testName userId userSegment test hfound
  obtain ⟨h, hh⟩ : ∃ h : ℕ, Int.tmod (simpleHash (userId ++ testName)) 100 = (h : Int) :=
    ⟨(Int.tmod (simpleHash (userId ++ testName)) 100).toNat,
      (Int.toNat_of_nonneg (remainder_nonneg _)).symm⟩
  have hlt : h < 100 := by
    have := remainder_lt (userId ++ testName)
    rw [hh] at this
    exact_mod_cast this
  rw [hh] at hown
  refine ⟨⟨h, hlt, hh, hown⟩, ?_, ?_⟩
  · rw [hown]
    rcases tests_entries k test hk with rfl | rfl | rfl
    · obtain ⟨i, v, w, e1, e2, e3⟩ := three_selected testName userSegment.primary (js "control")
        (js "variant_a") (js "variant_b") (jsLit (33 / 100)) (jsLit (33 / 100))
        (jsLit (34 / 100)) 33 33 34 jsMul_33_nat jsMul_33_nat jsMul_34_nat rfl h hlt
      exact ⟨i, v, w, e1, e2, congrArg Except.ok e3⟩
    · obtain ⟨i, v, w, e1, e2, e3⟩ := three_selected testName userSegment.primary (js "monthly")
        (js "annual") (js "lifetime") (jsLit (2 / 5)) (jsLit (2 / 5)) (jsLit (1 / 5)) 40 40 20
        jsMul_40_nat jsMul_40_nat jsMul_20_nat rfl h hlt
      exact ⟨i, v, w, e1, e2, congrArg Except.ok e3⟩
    · obtain ⟨i, v, w, e1, e2, e3⟩ := three_selected testName userSegment.primary (js "blue")
        (js "green") (js "purple") (jsLit (33 / 100)) (jsLit (33 / 100)) (jsLit (34 / 100))
        33 33 34 jsMul_33_nat jsMul_33_nat jsMul_34_nat rfl h hlt
      exact ⟨i, v, w, e1, e2, congrArg Except.ok e3⟩
  · intro primary
    rcases tests_entries k test hk with rfl | rfl | rfl
    · left
      refine ⟨?_, homepageLayout_sizes testName primary⟩
      simp only [homepageLayout, List.map, jsMul_33, jsMul_34]
    · right
      refine ⟨?_, pricingDisplay_sizes testName primary⟩
      simp only [pricingDisplay, List.map, jsMul_40, jsMul_20]
    · left
      refine ⟨?_, ctaButton_sizes testName primary⟩
      simp only [ctaButton, List.map, jsMul_33, jsMul_34]

/-- Witness of C28: the test `pricing_display` for visitor `user_1`. -/
theorem configured_tests_buckets_witness :
    (∃ h : ℕ, h < 100 ∧
      Int.tmod (simpleHash (js "user_1" ++ js "pricing_display")) 100 = (h : Int) ∧
      getABTestResults (js "pricing_display") (js "user_1") sampleSegment
        = .ok (abTestLoop (js "pricing_display") pricingDisplay.weights (h : Int)
            sampleSegment.primary pricingDisplay.variants 0 (some 0))) ∧
    (∃ (i : ℕ) (v : JSString) (w : ℚ), pricingDisplay.variants[i]? = some v ∧
      pricingDisplay.weights[i]? = some w ∧
      getABTestResults (js "pricing_display") (js "user_1") sampleSegment
        = .ok ⟨js "pricing_display", v, some w, some sampleSegment.primary, none⟩) ∧
    (∀ primary : JSString,
      (pricingDisplay.weights.map (fun w => jsMul w 100) = [33, 33, 34] ∧
        pricingDisplay.variants.map (bucketSize (js "pricing_display") primary pricingDisplay)
          = [33, 33, 34]) ∨
      (pricingDisplay.weights.map (fun w => jsMul w 100) = [40, 40, 20] ∧
        pricingDisplay.variants.map (bucketSize (js "pricing_display") primary pricingDisplay)
          = [40, 40, 20])) :=
  configured_tests_buckets (js "pricing_display") pricingDisplay (js "user_1") sampleSegment rfl

/-! ## The configured flags in the responses -/

theorem lookup_key_mem {α : Type} (table : List (JSString × α)) (key : JSString) (a : α)
    (h : table.lookup key = some a) : key ∈ table.map Prod.fst := by
  by_contra hn
  rw [lookup_none_of_not_key table key hn] at h
  exact Option.noConfusion h

/-- A response is produced for every configured test when the quoted
`primary` of the segment stays within U+00FF: the names of the tests and of
their variants are ASCII. -/
theorem handler_returns_configured (env : Ambient) (request : Request) (test : TestConfig)
    (hfound : tests.lookup (orString request.test (js "default")) = some test)
    (hp : isByteString (jsonQuote (getUserSegment env.memberText
      (orString request.xUserId (generateUserId env.randomText))
      (orString request.country (js "US")) (orString request.userAgent (js ""))).primary)
        = true) :
    ∃ body, handler env request = .ok body := by
  rw [handler_ok_iff]
  generalize orString request.test (js "default") = testName at hfound ⊢
  generalize orString request.xUserId (generateUserId env.randomText) = userId at hp ⊢
  generalize getUserSegment env.memberText userId (orString request.country (js "US"))
    (orString request.userAgent (js "")) = userSegment at hp ⊢
  obtain ⟨k, hk⟩ := lookup_mem tests testName test hfound
  have hname : isByteString (jsonQuote testName) = true := by
    have hall : ∀ name ∈ tests.map Prod.fst, isByteString (jsonQuote name) = true := by decide
    exact hall testName (lookup_key_mem tests testName test hfound)
  obtain ⟨h, hh⟩ : ∃ h : ℕ, Int.tmod (simpleHash (userId ++ testName)) 100 = (h : Int) :=
    ⟨(Int.tmod (simpleHash (userId ++ testName)) 100).toNat,
      (Int.toNat_of_nonneg (remainder_nonneg _)).symm⟩
  have hlt : h < 100 := by
    have := remainder_lt (userId ++ testName)
    rw [hh] at this
    exact_mod_cast this
  have hown := getABTestResults_own testName userId userSegment test hfound
  rw [hh] at hown
  have hsel : ∃ (i : ℕ) (v : JSString) (w : ℚ), test.variants[i]? = some v ∧
      abTestLoop testName test.weights (h : Int) userSegment.primary test.variants 0 (some 0)
        = ⟨testName, v, some w, some userSegment.primary, none⟩ := by
    rcases tests_entries k test hk with rfl | rfl | rfl
    · obtain ⟨i, v, w, e1, _, e3⟩ := three_selected testName userSegment.primary (js "control")
        (js "variant_a") (js "variant_b") (jsLit (33 / 100)) (jsLit (33 / 100))
        (jsLit (34 / 100)) 33 33 34 jsMul_33_nat jsMul_33_nat jsMul_34_nat rfl h hlt
      exact ⟨i, v, w, e1, e3⟩
    · obtain ⟨i, v, w, e1, _, e3⟩ := three_selected testName userSegment.primary (js "monthly")
        (js "annual") (js "lifetime") (jsLit (2 / 5)) (jsLit (2 / 5)) (jsLit (1 / 5)) 40 40 20
        jsMul_40_nat jsMul_40_nat jsMul_20_nat rfl h hlt
      exact ⟨i, v, w, e1, e3⟩
    · obtain ⟨i, v, w, e1, _, e3⟩ := three_selected testName userSegment.primary (js "blue")
        (js "green") (js "purple") (jsLit (33 / 100)) (jsLit (33 / 100)) (jsLit (34 / 100))
        33 33 34 jsMul_33_nat jsMul_33_nat jsMul_34_nat rfl h hlt
      exact ⟨i, v, w, e1, e3⟩
  obtain ⟨i, v, w, hv, hloop⟩ := hsel
  have hvariant : isByteString (jsonQuote v) = true := by
    have hall : ∀ entry ∈ tests, ∀ name ∈ entry.2.variants,
        isByteString (jsonQuote name) = true := by decide
    exact hall (k, test) hk v (List.mem_iff_getElem?.2 ⟨i, hv⟩)
  refine ⟨_, hown, ?_⟩
  rw [hloop]
  simp only [headerValueOk, abTestsStrings, Option.toList, List.cons_append, List.nil_append,
    List.all_cons, List.all_nil, hname, hvariant, hp, Bool.and_self]

/-- The request of visitor `user_1` for the test `cta_button` is answered. -/
theorem handler_sample : ∃ body, handler halfAmbient sampleRequest = .ok body := by
  apply handler_returns_configured halfAmbient sampleRequest ctaButton rfl
  have hseg : getUserSegment halfAmbient.memberText
      (orString sampleRequest.xUserId (generateUserId halfAmbient.randomText))
      (orString sampleRequest.country (js "US")) (orString sampleRequest.userAgent (js ""))
      = sampleSegment := getUserSegment_user_1 halfAmbient.memberText
  rw [hseg]
  decide

/-- C26, evaluated on the code: for every request (every identifier, country,
user-agent and `variant` parameter) each of the six flags `newDashboard`,
`aiChatbot`, `darkMode`, `vrLearning`, `liveStreaming` and `analytics`
evaluates to `{enabled: false, variant: 'disabled', reason:
'country_restricted'}`, in the loop of lines 72-75 and in every response. The
region of the segment is one of `north_america`, `europe`, `asia_pacific`,
`oceania`, `global` for every country that is not the name of a member of
`Object.prototype`; for the country `constructor` the lookup `regions[country]
|| 'global'` returns the inherited function `Object`, which is none of the
five names, and the request is answered with the six flags restricted all the
same. -/
theorem configured_flags_restricted :
    (∀ (memberText : JSString → JSString) (userId country userAgent : JSString)
        (variant : Option JSString),
      (featureFlags.map fun entry =>
        (entry.1, evaluateFeatureFlag entry.1 entry.2 userId
          (getUserSegment memberText userId country userAgent) variant))
      = [(js "newDashboard", countryRestrictedDecision),
        (js "aiChatbot", countryRestrictedDecision), (js "darkMode", countryRestrictedDecision),
        (js "vrLearning", countryRestrictedDecision),
        (js "liveStreaming", countryRestrictedDecision),
        (js "analytics", countryRestrictedDecision)]) ∧
    (∀ (env : Ambient) (request : Request) (body : ResponseBody),
      handler env request = .ok body → body.flags = [(js "newDashboard", countryRestrictedDecision),
        (js "aiChatbot", countryRestrictedDecision), (js "darkMode", countryRestrictedDecision),
        (js "vrLearning", countryRestrictedDecision),
        (js "liveStreaming", countryRestrictedDecision),
        (js "analytics", countryRestrictedDecision)]) ∧
    (∀ (memberText : JSString → JSString) (country : JSString),
      country ∉ objectPrototypeKeys → getRegionSegment memberText country ∈ regionNames) ∧
    (∀ entry ∈ featureFlags, ∀ region ∈ regionNames,
      entry.2.countries.includes region = false) ∧
    (getRegionSegment nativeMemberText (js "constructor")
        = .object (js "function Object() \x7b [native code] \x7d") ∧
      getRegionSegment nativeMemberText (js "constructor") ∉ regionNames) ∧
    (∃ body, handler nativeAmbient oddCountryRequest = .ok body ∧
      body.userSegment.region ∉ regionNames ∧ body.flags = [(js "newDashboard", countryRestrictedDecision),
        (js "aiChatbot", countryRestrictedDecision), (js "darkMode", countryRestrictedDecision),
        (js "vrLearning", countryRestrictedDecision),
        (js "liveStreaming", countryRestrictedDecision),
        (js "analytics", countryRestrictedDecision)]) := by
  have hsix : ∀ (memberText : JSString → JSString) (userId country userAgent : JSString)
      (variant : Option JSString),
      (featureFlags.map fun entry =>
        (entry.1, evaluateFeatureFlag entry.1 entry.2 userId
          (getUserSegment memberText userId country userAgent) variant))
      = [(js "newDashboard", countryRestrictedDecision),
        (js "aiChatbot", countryRestrictedDecision), (js "darkMode", countryRestrictedDecision),
        (js "vrLearning", countryRestrictedDecision),
        (js "liveStreaming", countryRestrictedDecision),
        (js "analytics", countryRestrictedDecision)] := by
    intro memberText userId country userAgent variant
    rw [flags_restricted]
    rfl
  have hbody : ∀ (env : Ambient) (request : Request) (body : ResponseBody),
      handler env request = .ok body → body.flags = [(js "newDashboard", countryRestrictedDecision),
        (js "aiChatbot", countryRestrictedDecision), (js "darkMode", countryRestrictedDecision),
        (js "vrLearning", countryRestrictedDecision),
        (js "liveStreaming", countryRestrictedDecision),
        (js "analytics", countryRestrictedDecision)] := by
    intro env request body h
    obtain ⟨hseg, hflags, _⟩ := handler_body env request body h
    rw [hflags, hseg]
    exact hsix _ _ _ _ _
  have hobj : getRegionSegment nativeMemberText (js "constructor")
      = .object (js "function Object() \x7b [native code] \x7d") :=
    (lookupOr_inherited nativeMemberText regions (js "constructor") (.str (js "global"))
      (by decide) (by decide)).trans (by decide)
  refine ⟨hsix, hbody, ?_, ?_, ⟨hobj, ?_⟩, ?_⟩
  · intro memberText country hc
    rcases getRegionSegment_values memberText country with h | h
    · exact h
    · exact absurd h.1 hc
  · intro entry he region hr
    exact (featureFlags_exclude region (Or.inl hr) entry he).2.2
  · rw [hobj]
    decide
  · obtain ⟨body, hb⟩ := handler_returns nativeAmbient oddCountryRequest (by decide)
      (lookup_none_of_not_key tests _ (by decide)) (by decide)
    obtain ⟨hseg, _⟩ := handler_body nativeAmbient oddCountryRequest body hb
    refine ⟨body, hb, ?_, hbody _ _ _ hb⟩
    have hreg : body.userSegment.region = getRegionSegment nativeMemberText (js "constructor") := by
      rw [hseg]
      rfl
    rw [hreg, hobj]
    decide

/-- C27: the fields `preload`, `criticalCSS` and `lazyLoad` of the response do
not depend on the flag decisions: in every response they are
`['dashboard.js', 'analytics.js']`, `['dark-theme.css']` and
`['vr-components.js']`, because each condition tests the decision object
stored under the flag name, which is truthy whatever decisions the six flags
are given. -/
theorem optimizations_constant (env : Ambient) (request : Request) (body : ResponseBody)
    (h : handler env request = .ok body) :
    body.optimizations.preload = [js "dashboard.js", js "analytics.js"] ∧
    body.optimizations.criticalCSS = [js "dark-theme.css"] ∧
    body.optimizations.lazyLoad = [js "vr-components.js"] ∧
    (∀ decide_ : JSString × FlagConfig → Decision,
      flagTruthy (featureFlags.map fun entry => (entry.1, decide_ entry)) (js "newDashboard")
          = true ∧
        flagTruthy (featureFlags.map fun entry => (entry.1, decide_ entry)) (js "darkMode")
          = true ∧
        flagTruthy (featureFlags.map fun entry => (entry.1, decide_ entry)) (js "vrLearning")
          = true) := by
  have hany : ∀ decide_ : JSString × FlagConfig → Decision,
      flagTruthy (featureFlags.map fun entry => (entry.1, decide_ entry)) (js "newDashboard")
          = true ∧
        flagTruthy (featureFlags.map fun entry => (entry.1, decide_ entry)) (js "darkMode")
          = true ∧
        flagTruthy (featureFlags.map fun entry => (entry.1, decide_ entry)) (js "vrLearning")
          = true := by
    intro decide_
    unfold flagTruthy
    rw [lookup_map_isSome, lookup_map_isSome, lookup_map_isSome]
    exact ⟨by decide, by decide, by decide⟩
  obtain ⟨_, hflags, h1, h2, h3⟩ := handler_body env request body h
  rw [hflags] at h1 h2 h3
  obtain ⟨t1, t2, t3⟩ := hany fun entry => evaluateFeatureFlag entry.1 entry.2
    (orString request.xUserId (generateUserId env.randomText)) body.userSegment
    (if truthyString request.variant then request.variant else none)
  rw [t1] at h1
  rw [t2] at h2
  rw [t3] at h3
  exact ⟨h1, h2, h3, hany⟩

/-- Witness of C27: the request of visitor `user_1` from the US. -/
theorem optimizations_constant_witness :
    ∃ body, handler halfAmbient sampleRequest = .ok body ∧
      body.optimizations.preload = [js "dashboard.js", js "analytics.js"] ∧
      body.optimizations.criticalCSS = [js "dark-theme.css"] ∧
      body.optimizations.lazyLoad = [js "vr-components.js"] ∧
      (∀ decide_ : JSString × FlagConfig → Decision,
        flagTruthy (featureFlags.map fun entry => (entry.1, decide_ entry)) (js "newDashboard")
            = true ∧
          flagTruthy (featureFlags.map fun entry => (entry.1, decide_ entry)) (js "darkMode")
            = true ∧
          flagTruthy (featureFlags.map fun entry => (entry.1, decide_ entry)) (js "vrLearning")
            = true) := by
  obtain ⟨body, hb⟩ := handler_sample
  exact ⟨body, hb, optimizations_constant halfAmbient sampleRequest body hb⟩

/-! ## Geo handler -/

/-- C21, evaluated on the code: the geo handler produces no settings. The
function `getPerformanceSettings` reads `headers.get('save-data')`, but
`headers` is a local of `handler` only; with no global binding of that name
the call throws a `ReferenceError` for every country and user-agent, the
handler has no `try`, and so every request, the one with `save-data: on`
included, ends in that error. Whatever the global scope holds, the reply never
depends on the `save-data` header of the request. -/
theorem geo_handler_throws :
    (∀ (memberText : JSString → JSString) (request : GeoRequest),
      geoHandler memberText none request = .error .referenceError) ∧
    (∀ country userAgent : JSString,
      getPerformanceSettings none country userAgent = .error .referenceError) ∧
    (∀ memberText : JSString → JSString, geoHandler memberText none slowRequest
      = .error .referenceError) ∧
    (∀ (memberText : JSString → JSString) (globalHeaders : Option (JSString → Option JSString))
      (request : GeoRequest) (value : Option JSString),
      geoHandler memberText globalHeaders (withSaveData request value)
        = geoHandler memberText globalHeaders request) := by
  refine ⟨fun _ _ => rfl, fun _ _ => rfl, fun _ => rfl, ?_⟩
  intro memberText globalHeaders request value
  have e1 : (withSaveData request value).headers (js "user-agent")
      = request.headers (js "user-agent") := by
    simp only [withSaveData]
    rw [if_neg (by decide)]
  have e2 : (withSaveData request value).headers (js "accept-language")
      = request.headers (js "accept-language") := by
    simp only [withSaveData]
    rw [if_neg (by decide)]
  unfold geoHandler
  rw [e1, e2]
  rfl

/-! ## Session tokens -/

theorem split_of_not_mem (sep : CodeUnit) (a : JSString) (h : sep ∉ a) : split sep a = [a] := by
  induction a with
  | nil => rfl
  | cons c cs ih =>
    have hc : c ≠ sep := fun e => h (by simp [e])
    have hcs : sep ∉ cs := fun e => h (List.mem_cons_of_mem _ e)
    simp only [split, if_neg hc, ih hcs]

theorem split_append (sep : CodeUnit) (a b : JSString) (h : sep ∉ a) :
    split sep (a ++ sep :: b) = a :: split sep b := by
  induction a with
  | nil => simp [split]
  | cons c cs ih =>
    have hc : c ≠ sep := fun e => h (by simp [e])
    have hcs : sep ∉ cs := fun e => h (List.mem_cons_of_mem _ e)
    have e := ih hcs
    simp only [List.cons_append, split, if_neg hc]
    rw [show cs.append (sep :: b) = cs ++ sep :: b from rfl, e]

theorem digitUnit_val (d : Nat) (h : d < 10) : (digitUnit d).val = 48 + d := by
  unfold digitUnit
  simp only [Fin.ofNat, Fin.val_mk]
  omega

theorem digitValue_digitUnit (d : Nat) (h : d < 10) : digitValue (digitUnit d) = some d := by
  unfold digitValue
  rw [digitUnit_val d h]
  have h1 : 48 ≤ 48 + d ∧ 48 + d ≤ 57 := ⟨by omega, by omega⟩
  rw [if_pos h1]
  simp

/-- Reading the digits of a number, most significant first, gives the number
back. -/
theorem parseDigits_digits (ds : List Nat) (hds : ∀ d ∈ ds, d < 10) (acc : Option Nat) :
    parseDigits 10 (ds.map digitUnit) acc
      = match ds with
        | [] => acc
        | _ :: _ => some (ds.foldl (fun a d => a * 10 + d) (acc.getD 0)) := by
  induction ds generalizing acc with
  | nil => rfl
  | cons d ds ih =>
    have hd : d < 10 := hds d (List.mem_cons_self _ _)
    have hrest : ∀ e ∈ ds, e < 10 := fun e he => hds e (List.mem_cons_of_mem _ he)
    simp only [List.map_cons, parseDigits, digitValue_digitUnit d hd, if_pos hd, List.foldl_cons]
    rw [ih hrest]
    cases ds with
    | nil => rfl
    | cons e es => rfl

theorem foldl_digits (ds : List Nat) :
    ds.reverse.foldl (fun a d => a * 10 + d) 0 = Nat.ofDigits 10 ds := by
  induction ds with
  | nil => rfl
  | cons d ds ih =>
    rw [List.reverse_cons, List.foldl_append, ih, Nat.ofDigits_cons]
    simp only [List.foldl_cons, List.foldl_nil]
    ring

/-- Every code unit of the decimal text of a number is a digit. -/
theorem natText_digits (n : Nat) : ∀ c ∈ natText n, ∃ d, d < 10 ∧ c = digitUnit d := by
  intro c hc
  unfold natText at hc
  by_cases h0 : n = 0
  · rw [if_pos h0] at hc
    exact ⟨0, by norm_num, by simpa using hc⟩
  · rw [if_neg h0] at hc
    obtain ⟨d, hd, rfl⟩ := List.mem_map.1 hc
    exact ⟨d, Nat.digits_lt_base (by norm_num) (List.mem_reverse.1 hd), rfl⟩

theorem colon_not_mem_natText (n : Nat) : (58 : CodeUnit) ∉ natText n := by
  intro h
  obtain ⟨d, hd, e⟩ := natText_digits n 58 h
  have hv := digitUnit_val d hd
  rw [← e] at hv
  have : ((58 : CodeUnit).val) = 58 := rfl
  omega

/-- The text of a number is not white space, carries no sign and no prefix
`0x`, and `parseInt` reads the number back. -/
theorem parseInt_natText (n : Nat) : parseInt (some (natText n)) = some (n : Int) := by
  by_cases h0 : n = 0
  · subst h0
    decide
  · have hpos : 0 < n := Nat.pos_of_ne_zero h0
    have hne : Nat.digits 10 n ≠ [] := Nat.digits_ne_nil_iff_ne_zero.2 h0
    have hlast : (Nat.digits 10 n).getLast hne ≠ 0 := Nat.getLast_digit_ne_zero 10 h0
    have hlt : ∀ d ∈ (Nat.digits 10 n).reverse, d < 10 := fun d hd =>
      Nat.digits_lt_base (by norm_num) (List.mem_reverse.1 hd)
    obtain ⟨d, ds, hrev⟩ : ∃ d ds, (Nat.digits 10 n).reverse = d :: ds := by
      cases hr : (Nat.digits 10 n).reverse with
      | nil => exact absurd (List.reverse_eq_nil_iff.1 hr) hne
      | cons d ds => exact ⟨d, ds, rfl⟩
    have hd10 : d < 10 := hlt d (by rw [hrev]; exact List.mem_cons_self _ _)
    have hd0 : d ≠ 0 := by
      have e : (Nat.digits 10 n).getLast hne = d := by
        have := List.getLast_eq_head_reverse hne
        rw [this]
        simp [hrev]
      rw [e] at hlast
      exact hlast
    have htext : natText n = digitUnit d :: ds.map digitUnit := by
      unfold natText
      rw [if_neg h0, hrev]
      rfl
    have hval : (digitUnit d).val = 48 + d := digitUnit_val d hd10
    have hws : isWhiteSpace (digitUnit d) = false := by
      unfold isWhiteSpace
      rw [hval]
      interval_cases d <;> simp
    have hsign : ¬ ((some (digitUnit d) : Option CodeUnit) = some 45
        ∨ (some (digitUnit d) : Option CodeUnit) = some 43) := by
      intro h
      rcases h with h | h
      · have := congrArg Fin.val (Option.some.inj h)
        rw [hval] at this
        have e45 : ((45 : CodeUnit).val) = 45 := rfl
        omega
      · have := congrArg Fin.val (Option.some.inj h)
        rw [hval] at this
        have e43 : ((43 : CodeUnit).val) = 43 := rfl
        omega
    have hneg : ¬ ((some (digitUnit d) : Option CodeUnit) = some 45) := fun h =>
      hsign (Or.inl h)
    have hplus : ¬ ((some (digitUnit d) : Option CodeUnit) = some 43) := fun h =>
      hsign (Or.inr h)
    have hhex : ¬ ((digitUnit d :: ds.map digitUnit).take 2 = [48, 120]
        ∨ (digitUnit d :: ds.map digitUnit).take 2 = [48, 88]) := by
      intro h
      have h48 : digitUnit d = 48 := by
        rcases h with h | h
        · cases hds : ds.map digitUnit with
          | nil => rw [hds] at h; simp at h
          | cons e es => rw [hds] at h; simp at h; exact h.1
        · cases hds : ds.map digitUnit with
          | nil => rw [hds] at h; simp at h
          | cons e es => rw [hds] at h; simp at h; exact h.1
      have := congrArg Fin.val h48
      rw [hval] at this
      have e48 : ((48 : CodeUnit).val) = 48 := rfl
      omega
    have hparse := parseDigits_digits (d :: ds) (by rw [← hrev]; exact hlt) none
    have hfold : (d :: ds).foldl (fun a d => a * 10 + d) 0 = n := by
      rw [← hrev, foldl_digits, Nat.ofDigits_digits]
    simp only [List.map_cons] at hparse
    unfold parseInt
    simp only [htext, List.dropWhile_cons, hws, List.head?_cons, hneg, hplus, or_self, if_false,
      hhex, hparse, Option.getD_none, hfold, Bool.false_eq_true]

/-- A token whose decoded text is a non-empty user id without `:` passes
`validateSessionToken` at every time. -/
theorem validate_without_timestamp (decode : JSString → JSString) (now : Nat)
    (token userId : JSString) (htoken : decode token = userId)
    (hcolon : (58 : CodeUnit) ∉ userId) :
    validateSessionToken decode now token = some userId := by
  unfold validateSessionToken
  simp only [htoken, split_of_not_mem 58 userId hcolon]
  rfl

/-- The header `Bearer <token>` of such a token authenticates the request. -/
theorem authenticate_bearer (env : AuthAmbient) (method : JSString) (body : Option Json)
    (token userId : JSString) (htoken : env.decode token = userId)
    (hcolon : (58 : CodeUnit) ∉ userId) (hne : userId.isEmpty = false) :
    authenticate env ⟨method, body, some (js "Bearer " ++ token)⟩ = .inr userId := by
  have hb : js "Bearer " = [66, 101, 97, 114, 101, 114, 32] := by decide
  have h1 : (js "Bearer " ++ token).isEmpty = false := by
    rw [hb]
    rfl
  have h2 : (js "Bearer ").isPrefixOf (js "Bearer " ++ token) = true := by
    rw [hb]
    simp [List.isPrefixOf]
  have h3 : (js "Bearer " ++ token).drop 7 = token := by
    rw [hb]
    rfl
  simp only [authenticate, h1, h2, h3,
    validate_without_timestamp env.decode env.now token userId htoken hcolon, hne,
    Bool.not_true, Bool.or_self, Bool.false_eq_true, if_false]

/-- C22, evaluated on the code: a token of `generateSessionToken(userId)`, for
a `userId` without `:` and a codec that gives the token text back, validates
to `userId` while `now - issued` is at most 24 hours and to `null` once it is
more. A token that carries no timestamp is not rejected: when the decoded
text has no `:`, `timestamp` is `undefined`, `parseInt` gives `NaN`, the
comparison `tokenAge > 24 * 60 * 60 * 1000` is false, and the whole decoded
text is returned as the user id, at every time `now`; a `GET` with the header
`Bearer <token>` of a token that decodes to `admin_001` is answered 200. -/
theorem session_token_validation (encode decode : JSString → JSString) (issued now : Nat)
    (randomText userId : JSString)
    (hcodec : decode (encode (userId ++ js ":" ++ natText issued ++ js ":" ++ randomText.drop 2))
      = userId ++ js ":" ++ natText issued ++ js ":" ++ randomText.drop 2)
    (hcolon : (58 : CodeUnit) ∉ userId) :
    validateSessionToken decode now (generateSessionToken encode issued randomText userId)
        = (if (now : Int) - (issued : Int) > 24 * 60 * 60 * 1000 then none else some userId) ∧
      (∀ (later : Nat) (token : JSString), decode token = userId →
        validateSessionToken decode later token = some userId) ∧
      (∀ (env : AuthAmbient) (token : JSString), env.decode token = js "admin_001" →
        (authHandler env ⟨js "GET", none, some (js "Bearer " ++ token)⟩).status = 200) := by
  refine ⟨?_, ?_, ?_⟩
  · unfold validateSessionToken generateSessionToken
    simp only [hcodec]
    have e1 : js ":" = [(58 : CodeUnit)] := by decide
    have hs : split 58 (userId ++ js ":" ++ natText issued ++ js ":" ++ List.drop 2 randomText)
        = userId :: natText issued :: split 58 (List.drop 2 randomText) := by
      rw [e1]
      simp only [List.append_assoc, List.singleton_append]
      exact (split_append 58 userId (natText issued ++ 58 :: List.drop 2 randomText)
        hcolon).trans (congrArg (List.cons userId) (split_append 58 (natText issued)
          (List.drop 2 randomText) (colon_not_mem_natText issued)))
    rw [hs]
    simp only [List.getElem?_cons_zero, List.getElem?_cons_succ, parseInt_natText]
  · intro later token htoken
    exact validate_without_timestamp decode later token userId htoken hcolon
  · intro env token htoken
    have ha := authenticate_bearer env (js "GET") none token (js "admin_001") htoken
      (by decide) (by decide)
    have hm1 : ¬ (js "GET" = js "OPTIONS") := by decide
    have hm2 : ¬ (js "GET" = js "POST") := by decide
    simp only [authHandler, hm1, hm2, if_false, if_true, handleGetUser, ha]
    rfl

/-- Witness of C22: the user `admin_001`, a token issued at time 1000 and
read at time 2000 through a codec that leaves the text as it is. -/
theorem session_token_validation_witness :
    validateSessionToken id 2000 (generateSessionToken id 1000 (js "0.abc") (js "admin_001"))
        = (if ((2000 : Nat) : Int) - ((1000 : Nat) : Int) > 24 * 60 * 60 * 1000 then none
          else some (js "admin_001")) ∧
      (∀ (later : Nat) (token : JSString), id token = js "admin_001" →
        validateSessionToken id later token = some (js "admin_001")) ∧
      (∀ (env : AuthAmbient) (token : JSString), env.decode token = js "admin_001" →
        (authHandler env ⟨js "GET", none, some (js "Bearer " ++ token)⟩).status = 200) :=
  session_token_validation id id 1000 2000 (js "0.abc") (js "admin_001") rfl (by decide)

/-! ## Status of the serverless handlers -/

theorem caught_status (result : Except JSError Reply) (statuses : List Nat)
    (h500 : 500 ∈ statuses) (h : ∀ reply, result = .ok reply → reply.status ∈ statuses) :
    (caught result).status ∈ statuses := by
  cases result with
  | ok reply => exact h reply rfl
  | error e => exact h500

theorem handleLogin_status (env : AuthAmbient) (req : ApiRequest) :
    (caught (handleLogin env req)).status ∈ [200, 400, 401, 403, 500] := by
  apply caught_status _ _ (by simp)
  intro reply h
  simp only [handleLogin] at h
  repeat' split at h
  all_goals cases h
  all_goals simp

theorem handleTrackEvent_status (req : ApiRequest) :
    (caught (handleTrackEvent req)).status ∈ [400, 500] := by
  apply caught_status _ _ (by simp)
  intro reply h
  simp only [handleTrackEvent] at h
  repeat' split at h
  all_goals cases h
  all_goals simp

theorem handleChatMessage_status (env : ChatAmbient) (req : ApiRequest) :
    (caught (handleChatMessage env req)).status ∈ [200, 400, 500] := by
  apply caught_status _ _ (by simp)
  intro reply h
  simp only [handleChatMessage] at h
  repeat' split at h
  all_goals cases h
  all_goals simp

/-- C24: for every `POST`, whatever the body and the headers, the handler of
auth.js answers 200, 400, 401, 403 or 500, the handler of analytics.js 400 or
500 and the handler of ai-chat.js 200, 400 or 500, so none answers 404; the
empty object of the test is answered 400 by all three. -/
theorem post_never_404 (env : AuthAmbient) (chat : ChatAmbient) (body : Option Json)
    (authorization : Option JSString) :
    ((authHandler env ⟨js "POST", body, authorization⟩).status ∈ [200, 400, 401, 403, 500] ∧
      (analyticsPost ⟨js "POST", body, authorization⟩).status ∈ [400, 500] ∧
      (aiChatPost chat ⟨js "POST", body, authorization⟩).status ∈ [200, 400, 500]) ∧
    ((authHandler env ⟨js "POST", body, authorization⟩).status ≠ 404 ∧
      (analyticsPost ⟨js "POST", body, authorization⟩).status ≠ 404 ∧
      (aiChatPost chat ⟨js "POST", body, authorization⟩).status ≠ 404) ∧
    ((authHandler env emptyObjectRequest).status = 400 ∧
      (analyticsPost emptyObjectRequest).status = 400 ∧
      (aiChatPost chat emptyObjectRequest).status = 400) := by
  have hpost : ∀ req : ApiRequest, req.method = js "POST" →
      authHandler env req = caught (handleLogin env req) := by
    intro req hm
    unfold authHandler
    rw [hm, if_neg (by decide), if_pos rfl]
  have h1 : (authHandler env ⟨js "POST", body, authorization⟩).status
      ∈ [200, 400, 401, 403, 500] := by
    rw [hpost _ rfl]
    exact handleLogin_status env _
  have h2 := handleTrackEvent_status ⟨js "POST", body, authorization⟩
  have h3 := handleChatMessage_status chat ⟨js "POST", body, authorization⟩
  refine ⟨⟨h1, h2, h3⟩, ⟨?_, ?_, ?_⟩, ?_, ?_, ?_⟩
  · intro h
    rw [h] at h1
    simp at h1
  · intro h
    unfold analyticsPost at h
    rw [h] at h2
    simp at h2
  · intro h
    unfold aiChatPost at h
    rw [h] at h3
    simp at h3
  · rw [hpost _ rfl]
    rfl
  · rfl
  · rfl

/-- C25, evaluated on the code: a `POST` to the analytics handler is never
answered 200. With a body that is `undefined` or `null` the destructuring
throws and the reply is 500; with a falsy `event` the reply is 400 `Event name
is required`; with any other `event`, as in `{ event: 'page_view' }`, line 56
reads `headers`, which is not in scope in `handleTrackEvent`, the
`ReferenceError` is caught and the reply is 500 `Internal server error`. -/
theorem track_event_never_succeeds :
    (∀ req : ApiRequest, (analyticsPost req).status ∈ [400, 500]) ∧
    (∀ req : ApiRequest, (analyticsPost req).status
      = match req.body with
        | none => 500
        | some .null => 500
        | some body => if jsonTruthy (jsonGet body (js "event")) then 500 else 400) ∧
    (analyticsPost pageViewRequest).status = 500 ∧
    jsonTruthy (pageViewRequest.body.bind fun body => jsonGet body (js "event")) = true ∧
    (analyticsPost pageViewRequest).body = some (errorBody "Internal server error") ∧
    handleTrackEvent pageViewRequest = .error .referenceError ∧
    (analyticsPost emptyObjectRequest).status = 400 ∧
    (analyticsPost emptyObjectRequest).body = some (errorBody "Event name is required") := by
  refine ⟨handleTrackEvent_status, ?_, rfl, rfl, rfl, rfl, rfl, rfl⟩
  intro req
  rcases req with ⟨method, body, authorization⟩
  cases body with
  | none => rfl
  | some value =>
    cases value <;> first
      | rfl
      | (simp only [analyticsPost, handleTrackEvent, destructure]
         split_ifs with h1 h2 <;> simp_all [caught, internalError])

/-! ## The password in the replies of the authentication handler -/

theorem lookup_filter_self (user : List (JSString × Json)) (name : JSString) :
    (user.filter fun p => p.1 != name).lookup name = none := by
  rw [List.lookup_eq_none_iff]
  intro p hp
  have h := (List.mem_filter.1 hp).2
  have hne : p.1 ≠ name := bne_iff_ne.1 h
  exact bne_iff_ne.2 (Ne.symm hne)

theorem lookup_filter_ne (user : List (JSString × Json)) (name key : JSString)
    (h : key ≠ name) : (user.filter fun p => p.1 != name).lookup key = user.lookup key := by
  induction user with
  | nil => rfl
  | cons p ps ih =>
    obtain ⟨k, v⟩ := p
    by_cases hk : k = name
    · have hne : (key == k) = false := by
        rw [hk]
        exact beq_eq_false_iff_ne.2 h
      have hb : (k != name) = false := by
        rw [hk]
        exact bne_self_eq_false name
      rw [List.filter_cons]
      simp only [hb, Bool.false_eq_true, if_false, List.lookup_cons, hne]
      exact ih
    · have hb : (k != name) = true := bne_iff_ne.2 hk
      rw [List.filter_cons]
      simp only [hb, if_true, List.lookup_cons, ih]

theorem lookup_omitPassword_self (user : List (JSString × Json)) :
    (omitPassword user).lookup (js "password") = none :=
  lookup_filter_self user (js "password")

theorem lookup_omitPassword_ne (user : List (JSString × Json)) (key : JSString)
    (h : key ≠ js "password") : (omitPassword user).lookup key = user.lookup key :=
  lookup_filter_ne user (js "password") key h

theorem getProperty_own_mem {α : Type} (table : List (JSString × α)) (key : JSString) (a : α)
    (h : getProperty table key = .own a) : ∃ k, (k, a) ∈ table := by
  unfold getProperty at h
  cases hl : table.lookup key with
  | none =>
    rw [hl] at h
    simp only at h
    split at h <;> cases h
  | some b =>
    rw [hl] at h
    cases h
    exact lookup_mem table key _ hl

theorem user_field (a b : Json) (rest : List (JSString × Json)) :
    (some (Json.obj ((js "success", a) :: (js "user", b) :: rest))).bind
      (fun body => jsonGet body (js "user")) = some b := by
  have h1 : (js "user" == js "success") = false := by decide
  have h2 : (js "user" == js "user") = true := by decide
  simp only [Option.some_bind, jsonGet, List.lookup_cons, h1, h2]

/-- A reply 200 of `handleLogin` carries a record of `users` without its
password. -/
theorem handleLogin_ok (env : AuthAmbient) (req : ApiRequest) (reply : Reply)
    (h : handleLogin env req = .ok reply) (hstatus : reply.status = 200) :
    ∃ user, user ∈ (loginUsers env.date).map (fun p => setLastLogin p.2 (env.date 3)) ∧
      reply.body.bind (fun body => jsonGet body (js "user")) = some (.obj (omitPassword user)) := by
  simp only [handleLogin] at h
  repeat' split at h
  all_goals cases h
  all_goals first
    | (simp at hstatus; done)
    | skip
  all_goals
    obtain ⟨k, hk⟩ := getProperty_own_mem _ _ _ (by assumption)
    exact ⟨_, List.mem_map.2 ⟨(k, _), hk, rfl⟩, user_field _ _ _⟩

/-- A request that `authenticate` turns down is answered 401. -/
theorem authenticate_inl_status (env : AuthAmbient) (req : ApiRequest) (reply : Reply)
    (h : authenticate env req = .inl reply) : reply.status = 401 := by
  simp only [authenticate] at h
  repeat' split at h
  all_goals cases h
  all_goals rfl

/-- A reply 200 of `handleGetUser` carries a record of `getUserById`, or the
empty object of an inherited member. -/
theorem handleGetUser_ok (env : AuthAmbient) (req : ApiRequest) (reply : Reply)
    (h : handleGetUser env req = .ok reply) (hstatus : reply.status = 200) :
    ∃ user, user ∈ [] :: (usersById env.date).map Prod.snd ∧
      reply.body.bind (fun body => jsonGet body (js "user")) = some (.obj (omitPassword user)) := by
  simp only [handleGetUser] at h
  repeat' split at h
  all_goals cases h
  · rename_i r hr
    rw [authenticate_inl_status env req _ hr] at hstatus
    exact absurd hstatus (by decide)
  · simp [userNotFound] at hstatus
  · exact ⟨[], List.mem_cons_self _ _, user_field _ _ _⟩
  · rename_i user hown
    obtain ⟨k, hk⟩ := getProperty_own_mem _ _ _ hown
    exact ⟨user, List.mem_cons_of_mem _ (List.mem_map.2 ⟨(k, user), hk, rfl⟩),
      user_field _ _ _⟩

theorem destructure_ok (body : Option Json) (value : Json) (h : destructure body = .ok value) :
    body = some value := by
  unfold destructure at h
  split at h <;> cases h
  rfl

/-- A reply 200 of `handleUpdateUser` carries the updated record of
`getUserById`, or the fields assigned to an inherited member. -/
theorem handleUpdateUser_ok (env : AuthAmbient) (req : ApiRequest) (reply : Reply)
    (h : handleUpdateUser env req = .ok reply) (hstatus : reply.status = 200) :
    ∃ user, user ∈ ([] :: (usersById env.date).map Prod.snd).map
        (updateUser env (req.body.bind fun body => jsonGet body (js "name"))
          (req.body.bind fun body => jsonGet body (js "profile"))) ∧
      reply.body.bind (fun body => jsonGet body (js "user")) = some (.obj (omitPassword user)) := by
  simp only [handleUpdateUser] at h
  split at h
  · rename_i r hr
    cases h
    rw [authenticate_inl_status env req _ hr] at hstatus
    exact absurd hstatus (by decide)
  · split at h
    · cases h
    · rename_i body hbody
      have hb := destructure_ok _ _ hbody
      rw [hb]
      simp only [Option.some_bind]
      repeat' split at h
      all_goals cases h
      · simp at hstatus
      · simp [userNotFound] at hstatus
      · exact ⟨_, List.mem_map.2 ⟨[], List.mem_cons_self _ _, rfl⟩, user_field _ _ _⟩
      · obtain ⟨k, hk⟩ := getProperty_own_mem _ _ _ (by assumption)
        exact ⟨_, List.mem_map.2 ⟨_, List.mem_cons_of_mem _ (List.mem_map.2 ⟨(k, _), hk, rfl⟩),
          rfl⟩, user_field _ _ _⟩

theorem caught_ok (result : Except JSError Reply) (h : (caught result).status = 200) :
    result = .ok (caught result) := by
  cases result with
  | ok reply => rfl
  | error e =>
    have h500 : (caught (Except.error e)).status = 500 := rfl
    rw [h500] at h
    exact absurd h (by decide)

/-- C23: when the authentication handler answers a `POST`, `GET` or `PUT`
with status 200, the `user` of the body is the record that the handler holds
(a record of `users` with the new `lastLogin`, a record of `getUserById`, the
empty object of an inherited member, or one of these after the update) without
its field `password`: reading `password` gives `undefined`, and every other
field reads as in the record. -/
theorem user_without_password (env : AuthAmbient) (req : ApiRequest)
    (hmethod : req.method = js "POST" ∨ req.method = js "GET" ∨ req.method = js "PUT")
    (hstatus : (authHandler env req).status = 200) :
    ∃ stored : List (JSString × Json),
      stored ∈ heldUsers env req ∧
      (authHandler env req).body.bind (fun body => jsonGet body (js "user"))
        = some (.obj (omitPassword stored)) ∧
      (omitPassword stored).lookup (js "password") = none ∧
      ∀ key : JSString, key ≠ js "password" →
        (omitPassword stored).lookup key = stored.lookup key := by
  have hfields : ∀ stored : List (JSString × Json),
      (omitPassword stored).lookup (js "password") = none ∧
      ∀ key : JSString, key ≠ js "password" →
        (omitPassword stored).lookup key = stored.lookup key :=
    fun stored => ⟨lookup_omitPassword_self stored, lookup_omitPassword_ne stored⟩
  have h1 : ¬ (js "POST" = js "OPTIONS") := by decide
  have h2 : ¬ (js "GET" = js "OPTIONS") := by decide
  have h3 : ¬ (js "GET" = js "POST") := by decide
  have h4 : ¬ (js "PUT" = js "OPTIONS") := by decide
  have h5 : ¬ (js "PUT" = js "POST") := by decide
  have h6 : ¬ (js "PUT" = js "GET") := by decide
  rcases hmethod with hm | hm | hm
  · have e : authHandler env req = caught (handleLogin env req) := by
      simp only [authHandler, hm, h1, if_false, if_true]
    rw [e] at hstatus ⊢
    obtain ⟨user, hu, hbody⟩ := handleLogin_ok env req _ (caught_ok _ hstatus) hstatus
    refine ⟨user, ?_, hbody, hfields user⟩
    simp only [heldUsers, hm, if_true]
    exact hu
  · have e : authHandler env req = caught (handleGetUser env req) := by
      simp only [authHandler, hm, h2, h3, if_false, if_true]
    rw [e] at hstatus ⊢
    obtain ⟨user, hu, hbody⟩ := handleGetUser_ok env req _ (caught_ok _ hstatus) hstatus
    refine ⟨user, ?_, hbody, hfields user⟩
    simp only [heldUsers, hm, h3, if_false, if_true]
    exact hu
  · have e : authHandler env req = caught (handleUpdateUser env req) := by
      simp only [authHandler, hm, h4, h5, h6, if_false, if_true]
    rw [e] at hstatus ⊢
    obtain ⟨user, hu, hbody⟩ := handleUpdateUser_ok env req _ (caught_ok _ hstatus) hstatus
    refine ⟨user, ?_, hbody, hfields user⟩
    simp only [heldUsers, hm, h5, h6, if_false]
    exact hu

/-- Witness of C23: the login of the administrator, which is answered 200. -/
theorem user_without_password_witness :
    ∃ stored : List (JSString × Json),
      stored ∈ heldUsers sampleAuth adminLogin ∧
      (authHandler sampleAuth adminLogin).body.bind (fun body => jsonGet body (js "user"))
        = some (.obj (omitPassword stored)) ∧
      (omitPassword stored).lookup (js "password") = none ∧
      ∀ key : JSString, key ≠ js "password" →
        (omitPassword stored).lookup key = stored.lookup key :=
  user_without_password sampleAuth adminLogin (Or.inl rfl) (by decide)

end ABTest
